import Mathlib

/-!
# AW862xx haptic driver core

A shallow embedding of `drivers/misc/awinic/aw862x_haptic_nv_v1/aw862xx.c`.

* C integers are mathematical integers with an explicit wrap to the width of
  the C type wherever a value is stored or an `int` operation can overflow
  (the kernel is built with wrapping signed arithmetic).
* The register bus is an input stream of bytes (`inp`), consumed in order by
  the read primitive, and a trace of the bus operations issued so far.  The
  masked write `haptic_nv_i2c_write_bits` is a primitive of the bus, as are
  `haptic_nv_i2c_reads` and `haptic_nv_i2c_writes`.
* Delays (`usleep_range`) and log output change neither the driver state nor
  the bus traffic and are left out.
* `haptic_nv.h` and `haptic_nv_reg.h` are not among the sources, so every
  constant and macro they define is a field of the parameter `Hdr`.
-/

namespace Aw862xx

/-! ## Constants and macros of the absent headers -/

/-- Constants and macros that `aw862xx.c` takes from `haptic_nv.h`,
`haptic_nv_reg.h` and the kernel headers.  None of these headers is among the
sources, so each name is a parameter of the development. -/
structure Hdr where
  /-- Whether plain `char` is a signed type for the target compiler. -/
  CHAR_SIGNED : Bool
  ERANGE : Int
  AW_STANDBY_MODE : Int
  AW_RAM_MODE : Int
  AW_RAM_LOOP_MODE : Int
  AW_CONT_MODE : Int
  AW_RTP_MODE : Int
  AW_TRIG_MODE : Int
  AW_PWM_48K : Int
  AW_PWM_24K : Int
  AW_PWM_12K : Int
  AW_BIT_GLBRD_STATE_MASK : Int
  AW_BIT_STATE_STANDBY : Int
  AW_DRV_WIDTH_MIN : Int
  AW_DRV_WIDTH_MAX : Int
  AW862XX_REG_PLAYCFG3 : Int
  AW862XX_REG_PLAYCFG4 : Int
  AW862XX_REG_GLBRD5 : Int
  AW862XX_REG_SYSCTRL1 : Int
  AW862XX_REG_SYSCTRL2 : Int
  AW862XX_REG_SYSCTRL7 : Int
  AW862XX_REG_DETCFG1 : Int
  AW862XX_REG_DETCFG2 : Int
  AW862XX_REG_DET_RL : Int
  AW862XX_REG_DET_OS : Int
  AW862XX_REG_DET_LO : Int
  AW862XX_REG_CONTCFG1 : Int
  AW862XX_REG_CONTCFG3 : Int
  AW862XX_REG_CONTCFG6 : Int
  AW862XX_REG_CONTCFG7 : Int
  AW862XX_REG_CONTCFG8 : Int
  AW862XX_REG_CONTCFG11 : Int
  AW862XX_REG_CONTRD14 : Int
  AW862XX_REG_CONTRD16 : Int
  AW862XX_BIT_PLAYCFG4_STOP_ON : Int
  AW862XX_BIT_PLAYCFG4_GO_ON : Int
  AW862XX_BIT_SYSCTRL2_STANDBY_MASK : Int
  AW862XX_BIT_SYSCTRL2_STANDBY_ON : Int
  AW862XX_BIT_SYSCTRL2_STANDBY_OFF : Int
  AW862XX_BIT_SYSCTRL2_WAVDAT_MODE_MASK : Int
  AW862XX_BIT_SYSCTRL2_RATE_48K : Int
  AW862XX_BIT_SYSCTRL2_RATE_24K : Int
  AW862XX_BIT_SYSCTRL2_RATE_12K : Int
  AW862XX_BIT_PLAYCFG3_BRK_EN_MASK : Int
  AW862XX_BIT_PLAYCFG3_BRK_ENABLE : Int
  AW862XX_BIT_PLAYCFG3_BRK_DISABLE : Int
  AW862XX_BIT_PLAYCFG3_BRK : Int
  AW862XX_BIT_PLAYCFG3_PLAY_MODE_MASK : Int
  AW862XX_BIT_PLAYCFG3_PLAY_MODE_RAM : Int
  AW862XX_BIT_PLAYCFG3_PLAY_MODE_CONT : Int
  AW862XX_BIT_PLAYCFG3_PLAY_MODE_RTP : Int
  AW862XX_BIT_SYSCTRL1_RAMINIT_MASK : Int
  AW862XX_BIT_SYSCTRL1_RAMINIT_ON : Int
  AW862XX_BIT_SYSCTRL1_RAMINIT_OFF : Int
  AW862XX_BIT_SYSCTRL7_D2S_GAIN_MASK : Int
  AW862XX_BIT_SYSCTRL7_GAIN : Int
  AW862XX_BIT_SYSCTRL7_D2S_GAIN_1 : Int
  AW862XX_BIT_SYSCTRL7_D2S_GAIN_2 : Int
  AW862XX_BIT_SYSCTRL7_D2S_GAIN_4 : Int
  AW862XX_BIT_SYSCTRL7_D2S_GAIN_5 : Int
  AW862XX_BIT_SYSCTRL7_D2S_GAIN_8 : Int
  AW862XX_BIT_SYSCTRL7_D2S_GAIN_10 : Int
  AW862XX_BIT_SYSCTRL7_D2S_GAIN_20 : Int
  AW862XX_BIT_SYSCTRL7_D2S_GAIN_40 : Int
  AW862XX_BIT_DETCFG1_RL_OS_MASK : Int
  AW862XX_BIT_DETCFG1_OS : Int
  AW862XX_BIT_DETCFG1_RL : Int
  AW862XX_BIT_DETCFG2_DIAG_GO_MASK : Int
  AW862XX_BIT_DETCFG2_DIAG_GO_ON : Int
  AW862XX_BIT_DET_LO_OS_MASK : Int
  AW862XX_BIT_DET_LO_RL : Int
  AW862XX_BIT_CONTCFG1_EN_F0_DET_MASK : Int
  AW862XX_BIT_CONTCFG1_F0_DET_ENABLE : Int
  AW862XX_BIT_CONTCFG1_F0_DET_DISABLE : Int
  AW862XX_BIT_CONTCFG6_TRACK_EN_MASK : Int
  AW862XX_BIT_CONTCFG6_DRV1_LVL_MASK : Int
  AW862XX_F0_CALI_ACCURACY : Int
  AW_VBAT_MIN : Int
  AW_VBAT_MAX : Int
  AW_TRIG1 : Int
  AW_TRIG2 : Int
  AW_TRIG3 : Int
  AW_IRQ : Int
  AW86214 : Int
  AW86223 : Int
  AW86224 : Int
  AW86225 : Int
  /-- Width in bits of the fields of `struct trig`. -/
  TRIG_FIELD_BITS : Nat
  AW862XX_REG_DET_VBAT : Int
  AW862XX_REG_TRGCFG1 : Int
  AW862XX_REG_TRGCFG2 : Int
  AW862XX_REG_TRGCFG3 : Int
  AW862XX_REG_TRGCFG4 : Int
  AW862XX_REG_TRGCFG5 : Int
  AW862XX_REG_TRGCFG6 : Int
  AW862XX_REG_TRGCFG7 : Int
  AW862XX_REG_TRGCFG8 : Int
  AW862XX_BIT_DETCFG2_VBAT_GO_MASK : Int
  AW862XX_BIT_DETCFG2_VABT_GO_ON : Int
  AW862XX_BIT_DET_LO_VBAT : Int
  AW862XX_BIT_SYSCTRL2_INTN_PIN_MASK : Int
  AW862XX_BIT_SYSCTRL2_TRIG1 : Int
  AW862XX_BIT_SYSCTRL2_INTN : Int
  AW862XX_BIT_TRGCFG7_TRG1_POR_LEV_BRK_MASK : Int
  AW862XX_BIT_TRGCFG7_TRG2_POR_LEV_BRK_MASK : Int
  AW862XX_BIT_TRGCFG8_TRG3_POR_LEV_BRK_MASK : Int
  AW862XX_REG_WAVCFG1 : Int
  AW862XX_REG_PLAYCFG2 : Int
  AW862XX_BIT_WAVCFG_SEQ : Int
  AW862XX_BIT_SYSCTRL7_GAIN_BYPASS_MASK : Int
  AW862XX_DRV2_LVL_MAX : Int
  AW862XX_HAPTIC_SRAM_1K : Int
  AW862XX_HAPTIC_SRAM_2K : Int
  AW862XX_HAPTIC_SRAM_3K : Int
  AW862XX_REG_RTPCFG1 : Int
  AW862XX_BIT_RTPCFG1_SRAM_SIZE_2K_MASK : Int
  AW862XX_BIT_RTPCFG1_SRAM_SIZE_2K_EN : Int
  AW862XX_BIT_RTPCFG1_SRAM_SIZE_2K_DIS : Int
  AW862XX_BIT_RTPCFG1_SRAM_SIZE_1K_MASK : Int
  AW862XX_BIT_RTPCFG1_SRAM_SIZE_1K_EN : Int
  AW862XX_BIT_RTPCFG1_SRAM_SIZE_1K_DIS : Int
  AW862XX_BIT_TRGCFG8_TRG_TRIG1_MODE_MASK : Int
  AW862XX_BIT_TRGCFG8_TRIG1 : Int
  AW862XX_REG_ANACFG8 : Int
  AW862XX_BIT_ANACFG8_TRTF_CTRL_HDRV_MASK : Int
  AW862XX_BIT_ANACFG8_TRTF_CTRL_HDRV : Int
  AW862XX_REG_CONTCFG5 : Int
  AW862XX_REG_CONTCFG9 : Int
  AW862XX_REG_CONTCFG10 : Int
  AW862XX_BIT_CONTCFG5_BRK_GAIN_MASK : Int
  AW862XX_REG_PWMCFG1 : Int
  AW862XX_REG_PWMCFG3 : Int
  AW862XX_REG_PWMCFG4 : Int
  AW862XX_BIT_PWMCFG1_PRC_EN_MASK : Int
  AW862XX_BIT_PWMCFG1_PRC_DISABLE : Int
  AW862XX_BIT_PWMCFG3_PR_EN_MASK : Int
  AW862XX_BIT_PWMCFG3_PR_ENABLE : Int
  AW862XX_BIT_PWMCFG3_PR_DISABLE : Int
  AW862XX_BIT_PWMCFG3_PRLVL_MASK : Int
  AW862XX_PWMCFG4_PRTIME_DEFAULT_VALUE : Int
  AW862XX_BIT_PWMCFG3_PRLVL_DEFAULT_VALUE : Int
  AW862XX_BIT_SYSCTRL2_RATE : Int
  /-- Number of sequencer slots `AW_SEQUENCER_SIZE`. -/
  AW_SEQUENCER_SIZE : Nat
  /-- Width in bits of the unsigned type of the field `rtp_len` (at least that of
  `unsigned int`), in which `aw862xx_get_theory_time` evaluates its products. -/
  RTP_LEN_BITS : Nat
  /-- The conversion `AW862XX_DRV2_LVL_FORMULA(f0_pre, lra_vrms)`. -/
  AW862XX_DRV2_LVL_FORMULA : Int → Int → Int
  /-- The conversion `AW862XX_VBAT_FORMULA(vbat_code)`. -/
  AW862XX_VBAT_FORMULA : Int → Int
  /-- The conversion `AW862XX_OS_FORMULA(os_code, d2s_gain)`. -/
  AW862XX_OS_FORMULA : Int → Int → Int
  /-- The conversion `AW862XX_RL_FORMULA(lra_code, d2s_gain)`. -/
  AW862XX_RL_FORMULA : Int → Int → Int
  /-- The conversion `AW862XX_F0_FORMULA(f0_reg)`. -/
  AW862XX_F0_FORMULA : Int → Int
  /-- The conversion `AW862XX_DRV_WIDTH_FORMULA(f0_pre, track_margin, brk_gain)`. -/
  AW862XX_DRV_WIDTH_FORMULA : Int → Int → Int → Int

/-- One concrete choice of the header constants, used to evaluate the model on
concrete inputs.  The values are illustrative: every theorem below is stated
for an arbitrary `Hdr` meeting the hypotheses it names.  The two drive
formulas wrap as unsigned 32 bit expressions do (their operands are `uint32_t`
fields), and the drive width is then read as an `int`. -/
def hdr0 : Hdr where
  CHAR_SIGNED := false
  ERANGE := 34
  AW_STANDBY_MODE := 0
  AW_RAM_MODE := 1
  AW_RAM_LOOP_MODE := 2
  AW_CONT_MODE := 3
  AW_RTP_MODE := 4
  AW_TRIG_MODE := 5
  AW_PWM_48K := 0
  AW_PWM_24K := 1
  AW_PWM_12K := 2
  AW_BIT_GLBRD_STATE_MASK := 15
  AW_BIT_STATE_STANDBY := 0
  AW_DRV_WIDTH_MIN := 0
  AW_DRV_WIDTH_MAX := 255
  AW862XX_REG_PLAYCFG3 := 0x08
  AW862XX_REG_PLAYCFG4 := 0x09
  AW862XX_REG_GLBRD5 := 0x3F
  AW862XX_REG_SYSCTRL1 := 0x43
  AW862XX_REG_SYSCTRL2 := 0x44
  AW862XX_REG_SYSCTRL7 := 0x49
  AW862XX_REG_DETCFG1 := 0x31
  AW862XX_REG_DETCFG2 := 0x32
  AW862XX_REG_DET_RL := 0x33
  AW862XX_REG_DET_OS := 0x34
  AW862XX_REG_DET_LO := 0x36
  AW862XX_REG_CONTCFG1 := 0x18
  AW862XX_REG_CONTCFG3 := 0x1A
  AW862XX_REG_CONTCFG6 := 0x1D
  AW862XX_REG_CONTCFG7 := 0x1E
  AW862XX_REG_CONTCFG8 := 0x1F
  AW862XX_REG_CONTCFG11 := 0x22
  AW862XX_REG_CONTRD14 := 0x25
  AW862XX_REG_CONTRD16 := 0x27
  AW862XX_BIT_PLAYCFG4_STOP_ON := 2
  AW862XX_BIT_PLAYCFG4_GO_ON := 1
  AW862XX_BIT_SYSCTRL2_STANDBY_MASK := -33
  AW862XX_BIT_SYSCTRL2_STANDBY_ON := 32
  AW862XX_BIT_SYSCTRL2_STANDBY_OFF := 0
  AW862XX_BIT_SYSCTRL2_WAVDAT_MODE_MASK := -4
  AW862XX_BIT_SYSCTRL2_RATE_48K := 1
  AW862XX_BIT_SYSCTRL2_RATE_24K := 0
  AW862XX_BIT_SYSCTRL2_RATE_12K := 2
  AW862XX_BIT_PLAYCFG3_BRK_EN_MASK := -5
  AW862XX_BIT_PLAYCFG3_BRK_ENABLE := 4
  AW862XX_BIT_PLAYCFG3_BRK_DISABLE := 0
  AW862XX_BIT_PLAYCFG3_BRK := 4
  AW862XX_BIT_PLAYCFG3_PLAY_MODE_MASK := -4
  AW862XX_BIT_PLAYCFG3_PLAY_MODE_RAM := 0
  AW862XX_BIT_PLAYCFG3_PLAY_MODE_CONT := 2
  AW862XX_BIT_PLAYCFG3_PLAY_MODE_RTP := 1
  AW862XX_BIT_SYSCTRL1_RAMINIT_MASK := -9
  AW862XX_BIT_SYSCTRL1_RAMINIT_ON := 8
  AW862XX_BIT_SYSCTRL1_RAMINIT_OFF := 0
  AW862XX_BIT_SYSCTRL7_D2S_GAIN_MASK := -8
  AW862XX_BIT_SYSCTRL7_GAIN := 7
  AW862XX_BIT_SYSCTRL7_D2S_GAIN_1 := 0
  AW862XX_BIT_SYSCTRL7_D2S_GAIN_2 := 1
  AW862XX_BIT_SYSCTRL7_D2S_GAIN_4 := 2
  AW862XX_BIT_SYSCTRL7_D2S_GAIN_5 := 3
  AW862XX_BIT_SYSCTRL7_D2S_GAIN_8 := 4
  AW862XX_BIT_SYSCTRL7_D2S_GAIN_10 := 5
  AW862XX_BIT_SYSCTRL7_D2S_GAIN_20 := 6
  AW862XX_BIT_SYSCTRL7_D2S_GAIN_40 := 7
  AW862XX_BIT_DETCFG1_RL_OS_MASK := -2
  AW862XX_BIT_DETCFG1_OS := 1
  AW862XX_BIT_DETCFG1_RL := 0
  AW862XX_BIT_DETCFG2_DIAG_GO_MASK := -5
  AW862XX_BIT_DETCFG2_DIAG_GO_ON := 4
  AW862XX_BIT_DET_LO_OS_MASK := -13
  AW862XX_BIT_DET_LO_RL := 3
  AW862XX_BIT_CONTCFG1_EN_F0_DET_MASK := -9
  AW862XX_BIT_CONTCFG1_F0_DET_ENABLE := 8
  AW862XX_BIT_CONTCFG1_F0_DET_DISABLE := 0
  AW862XX_BIT_CONTCFG6_TRACK_EN_MASK := -129
  AW862XX_BIT_CONTCFG6_DRV1_LVL_MASK := -128
  AW862XX_F0_CALI_ACCURACY := 24
  AW_VBAT_MIN := 3000
  AW_VBAT_MAX := 4500
  AW_TRIG1 := 0
  AW_TRIG2 := 1
  AW_TRIG3 := 2
  AW_IRQ := 3
  AW86214 := 3
  AW86223 := 0
  AW86224 := 1
  AW86225 := 2
  TRIG_FIELD_BITS := 8
  AW862XX_REG_DET_VBAT := 0x35
  AW862XX_REG_TRGCFG1 := 0x53
  AW862XX_REG_TRGCFG2 := 0x54
  AW862XX_REG_TRGCFG3 := 0x55
  AW862XX_REG_TRGCFG4 := 0x56
  AW862XX_REG_TRGCFG5 := 0x57
  AW862XX_REG_TRGCFG6 := 0x58
  AW862XX_REG_TRGCFG7 := 0x59
  AW862XX_REG_TRGCFG8 := 0x5A
  AW862XX_BIT_DETCFG2_VBAT_GO_MASK := -3
  AW862XX_BIT_DETCFG2_VABT_GO_ON := 2
  AW862XX_BIT_DET_LO_VBAT := 48
  AW862XX_BIT_SYSCTRL2_INTN_PIN_MASK := -9
  AW862XX_BIT_SYSCTRL2_TRIG1 := 8
  AW862XX_BIT_SYSCTRL2_INTN := 0
  AW862XX_BIT_TRGCFG7_TRG1_POR_LEV_BRK_MASK := -225
  AW862XX_BIT_TRGCFG7_TRG2_POR_LEV_BRK_MASK := -15
  AW862XX_BIT_TRGCFG8_TRG3_POR_LEV_BRK_MASK := -225
  AW862XX_REG_WAVCFG1 := 0x0A
  AW862XX_REG_PLAYCFG2 := 0x07
  AW862XX_BIT_WAVCFG_SEQ := 0x7F
  AW862XX_BIT_SYSCTRL7_GAIN_BYPASS_MASK := -65
  AW862XX_DRV2_LVL_MAX := 0x7F
  AW862XX_HAPTIC_SRAM_1K := 0
  AW862XX_HAPTIC_SRAM_2K := 1
  AW862XX_HAPTIC_SRAM_3K := 2
  AW862XX_REG_RTPCFG1 := 0x2D
  AW862XX_BIT_RTPCFG1_SRAM_SIZE_2K_MASK := -33
  AW862XX_BIT_RTPCFG1_SRAM_SIZE_2K_EN := 32
  AW862XX_BIT_RTPCFG1_SRAM_SIZE_2K_DIS := 0
  AW862XX_BIT_RTPCFG1_SRAM_SIZE_1K_MASK := -17
  AW862XX_BIT_RTPCFG1_SRAM_SIZE_1K_EN := 16
  AW862XX_BIT_RTPCFG1_SRAM_SIZE_1K_DIS := 0
  AW862XX_BIT_TRGCFG8_TRG_TRIG1_MODE_MASK := -33
  AW862XX_BIT_TRGCFG8_TRIG1 := 0
  AW862XX_REG_ANACFG8 := 0x77
  AW862XX_BIT_ANACFG8_TRTF_CTRL_HDRV_MASK := -193
  AW862XX_BIT_ANACFG8_TRTF_CTRL_HDRV := 192
  AW862XX_REG_CONTCFG5 := 0x1C
  AW862XX_REG_CONTCFG9 := 0x20
  AW862XX_REG_CONTCFG10 := 0x21
  AW862XX_BIT_CONTCFG5_BRK_GAIN_MASK := -16
  AW862XX_REG_PWMCFG1 := 0x4C
  AW862XX_REG_PWMCFG3 := 0x4E
  AW862XX_REG_PWMCFG4 := 0x4F
  AW862XX_BIT_PWMCFG1_PRC_EN_MASK := -129
  AW862XX_BIT_PWMCFG1_PRC_DISABLE := 0
  AW862XX_BIT_PWMCFG3_PR_EN_MASK := -129
  AW862XX_BIT_PWMCFG3_PR_ENABLE := 128
  AW862XX_BIT_PWMCFG3_PR_DISABLE := 0
  AW862XX_BIT_PWMCFG3_PRLVL_MASK := -128
  AW862XX_PWMCFG4_PRTIME_DEFAULT_VALUE := 0x32
  AW862XX_BIT_PWMCFG3_PRLVL_DEFAULT_VALUE := 0x3F
  AW862XX_BIT_SYSCTRL2_RATE := 3
  AW_SEQUENCER_SIZE := 8
  RTP_LEN_BITS := 32
  AW862XX_DRV2_LVL_FORMULA := fun f0_pre lra_vrms =>
    Int.tdiv ((Int.tdiv (if f0_pre < 1800 then 1809920 else 1990912) 1000 * lra_vrms)
      % 4294967296) 61000
  AW862XX_VBAT_FORMULA := fun code => Int.tdiv (6100 * code) 1024
  AW862XX_OS_FORMULA := fun os_code d2s_gain =>
    Int.tdiv (2440 * (os_code - 512)) (1024 * (d2s_gain + 1))
  AW862XX_RL_FORMULA := fun lra_code d2s_gain =>
    Int.tdiv (Int.tdiv (lra_code * 678 * 100) (1024 * d2s_gain)) 1
  AW862XX_F0_FORMULA := fun f0_reg => Int.tdiv (384000 * 10) f0_reg
  AW862XX_DRV_WIDTH_FORMULA := fun f0_pre margin brk_gain =>
    ((Int.tdiv 240000 f0_pre - 8 - margin - brk_gain) % 4294967296 + 2147483648)
      % 4294967296 - 2147483648

/-! ## C integer conversions -/

/-- Conversion to `int` (32 bit, two's complement). -/
def toInt32 (x : Int) : Int := (x + 2147483648) % 4294967296 - 2147483648

/-- Conversion to `uint32_t`. -/
def toU32 (x : Int) : Int := x % 4294967296

/-- Conversion to `uint8_t`. -/
def toU8 (x : Int) : Int := x % 256

/-- Conversion to plain `char`, signed or unsigned as the target has it. -/
def toChar (signed : Bool) (x : Int) : Int :=
  if signed then (x + 128) % 256 - 128 else x % 256

/-! ## Driver state and register bus -/

/-- One trigger pin configuration (`struct trig`). -/
structure aw_trig where
  trig_level : Nat
  trig_polar : Nat
  pos_enable : Nat
  pos_sequence : Nat
  neg_enable : Nat
  neg_sequence : Nat
  trig_brk : Nat
deriving DecidableEq, Repr

/-- The configuration block `struct aw_haptic_dts_info` (fields used here). -/
structure aw_haptic_dts_info where
  f0_pre : Nat
  d2s_gain : Nat
  lra_vrms : Nat
  gain_bypass : Nat
  cont_drv1_lvl : Nat
  cont_drv2_lvl : Nat
  cont_drv1_time : Nat
  cont_drv2_time : Nat
  cont_brk_time : Nat
  cont_brk_gain : Nat
  cont_track_margin : Nat
  is_enabled_track_en : Bool
  is_enabled_auto_brk : Bool
  trig_cfg : List Nat
deriving DecidableEq, Repr

/-- The device context `struct aw_haptic` (fields used here). -/
structure aw_haptic where
  name : Int
  play_mode : Int
  gain : Nat
  index : Nat
  seq : List Nat
  f0 : Nat
  cont_f0 : Nat
  f0_cali_data : Int
  vbat : Int
  lra : Nat
  rtp_len : Nat
  ram_init : Bool
  ram_num : Nat
  base_addr : Nat
  is_used_irq_pin : Bool
  trig0 : aw_trig
  trig1 : aw_trig
  trig2 : aw_trig
  info : aw_haptic_dts_info
deriving DecidableEq, Repr

/-- One operation on the register bus, as issued by the driver. -/
inductive Ev where
  /-- A `haptic_nv_i2c_reads` of the register, with the bytes it delivered. -/
  | reads (reg : Int) (data : List Int)
  /-- A `haptic_nv_i2c_writes` of the bytes to the register. -/
  | writes (reg : Int) (data : List Int)
  /-- A `haptic_nv_i2c_write_bits` with its mask and data arguments. -/
  | write_bits (reg : Int) (mask : Int) (data : Int)
deriving DecidableEq, Repr

/-- Driver state together with the bus: the device context, the number of
input bytes consumed so far and the operations issued so far (oldest first). -/
structure St where
  hap : aw_haptic
  pos : Nat
  trace : List Ev
deriving DecidableEq, Repr

/-- The byte the bus delivers at position `i` of the input stream. -/
def busByte (inp : Nat → Nat) (i : Nat) : Int := ((inp i % 256 : Nat) : Int)

/-- Bus primitive `haptic_nv_i2c_reads(aw_haptic, reg, buf, len)`. -/
def haptic_nv_i2c_reads (inp : Nat → Nat) (s : St) (reg : Int) (len : Nat) :
    List Int × St :=
  let data := (List.range len).map (fun j => busByte inp (s.pos + j))
  (data, { s with pos := s.pos + len, trace := s.trace ++ [Ev.reads reg data] })

/-- A one byte `haptic_nv_i2c_reads`. -/
def read_byte (inp : Nat → Nat) (s : St) (reg : Int) : Int × St :=
  (busByte inp s.pos,
   { s with pos := s.pos + 1, trace := s.trace ++ [Ev.reads reg [busByte inp s.pos]] })

/-- Bus primitive `haptic_nv_i2c_writes(aw_haptic, reg, buf, len)`. -/
def haptic_nv_i2c_writes (s : St) (reg : Int) (data : List Int) : St :=
  { s with trace := s.trace ++ [Ev.writes reg data] }

/-- Bus primitive `haptic_nv_i2c_write_bits(aw_haptic, reg, mask, data)`. -/
def haptic_nv_i2c_write_bits (s : St) (reg mask data : Int) : St :=
  { s with trace := s.trace ++ [Ev.write_bits reg mask data] }

/-- The test `(val & AW_BIT_GLBRD_STATE_MASK) == AW_BIT_STATE_STANDBY`. -/
def reports_standby (K : Hdr) (val : Int) : Bool :=
  decide (Int.land val K.AW_BIT_GLBRD_STATE_MASK = K.AW_BIT_STATE_STANDBY)

/-! ## Play-mode state machine -/

/-- The `while (cnt)` loop of `aw862xx_play_stop`; the Boolean is
`force_flag` on exit. -/
def play_stop_poll (K : Hdr) (inp : Nat → Nat) : Nat → St → Bool × St
  | 0, s => (true, s)
  | cnt + 1, s =>
    let r := read_byte inp s K.AW862XX_REG_GLBRD5
    if reports_standby K r.1 then (false, r.2) else play_stop_poll K inp cnt r.2

/-- Function `aw862xx_play_stop`. -/
def aw862xx_play_stop (K : Hdr) (inp : Nat → Nat) (s : St) : St :=
  let s1 := { s with hap := { s.hap with play_mode := K.AW_STANDBY_MODE } }
  let s2 := haptic_nv_i2c_writes s1 K.AW862XX_REG_PLAYCFG4
              [toU8 K.AW862XX_BIT_PLAYCFG4_STOP_ON]
  let r := play_stop_poll K inp 40 s2
  if r.1 then
    let s3 := haptic_nv_i2c_write_bits r.2 K.AW862XX_REG_SYSCTRL2
                K.AW862XX_BIT_SYSCTRL2_STANDBY_MASK K.AW862XX_BIT_SYSCTRL2_STANDBY_ON
    haptic_nv_i2c_write_bits s3 K.AW862XX_REG_SYSCTRL2
      K.AW862XX_BIT_SYSCTRL2_STANDBY_MASK K.AW862XX_BIT_SYSCTRL2_STANDBY_OFF
  else r.2

/-- Function `aw862xx_set_pwm`. -/
def aw862xx_set_pwm (K : Hdr) (s : St) (mode : Int) : St :=
  if mode = K.AW_PWM_48K then
    haptic_nv_i2c_write_bits s K.AW862XX_REG_SYSCTRL2
      K.AW862XX_BIT_SYSCTRL2_WAVDAT_MODE_MASK K.AW862XX_BIT_SYSCTRL2_RATE_48K
  else if mode = K.AW_PWM_24K then
    haptic_nv_i2c_write_bits s K.AW862XX_REG_SYSCTRL2
      K.AW862XX_BIT_SYSCTRL2_WAVDAT_MODE_MASK K.AW862XX_BIT_SYSCTRL2_RATE_24K
  else if mode = K.AW_PWM_12K then
    haptic_nv_i2c_write_bits s K.AW862XX_REG_SYSCTRL2
      K.AW862XX_BIT_SYSCTRL2_WAVDAT_MODE_MASK K.AW862XX_BIT_SYSCTRL2_RATE_12K
  else s

/-- Function `aw862xx_auto_brk_config`; `flag` is the C truth value of the
argument. -/
def aw862xx_auto_brk_config (K : Hdr) (s : St) (flag : Bool) : St :=
  if flag then
    haptic_nv_i2c_write_bits s K.AW862XX_REG_PLAYCFG3
      K.AW862XX_BIT_PLAYCFG3_BRK_EN_MASK K.AW862XX_BIT_PLAYCFG3_BRK_ENABLE
  else
    haptic_nv_i2c_write_bits s K.AW862XX_REG_PLAYCFG3
      K.AW862XX_BIT_PLAYCFG3_BRK_EN_MASK K.AW862XX_BIT_PLAYCFG3_BRK_DISABLE

/-- The assignment `aw_haptic->play_mode = m`. -/
def set_play_mode (s : St) (m : Int) : St :=
  { s with hap := { s.hap with play_mode := m } }

/-- Function `aw862xx_play_mode`; the `switch` is read as a chain of tests in
the order of its labels. -/
def aw862xx_play_mode (K : Hdr) (inp : Nat → Nat) (s : St) (play_mode : Int) : St :=
  if play_mode = K.AW_STANDBY_MODE then
    aw862xx_play_stop K inp (set_play_mode s K.AW_STANDBY_MODE)
  else if play_mode = K.AW_RAM_MODE then
    let s1 := aw862xx_set_pwm K (set_play_mode s K.AW_RAM_MODE) K.AW_PWM_12K
    let s2 := aw862xx_auto_brk_config K s1 false
    haptic_nv_i2c_write_bits s2 K.AW862XX_REG_PLAYCFG3
      K.AW862XX_BIT_PLAYCFG3_PLAY_MODE_MASK K.AW862XX_BIT_PLAYCFG3_PLAY_MODE_RAM
  else if play_mode = K.AW_RAM_LOOP_MODE then
    let s1 := aw862xx_set_pwm K (set_play_mode s K.AW_RAM_LOOP_MODE) K.AW_PWM_12K
    let s2 := aw862xx_auto_brk_config K s1 true
    haptic_nv_i2c_write_bits s2 K.AW862XX_REG_PLAYCFG3
      K.AW862XX_BIT_PLAYCFG3_PLAY_MODE_MASK K.AW862XX_BIT_PLAYCFG3_PLAY_MODE_RAM
  else if play_mode = K.AW_CONT_MODE then
    let s1 := aw862xx_auto_brk_config K (set_play_mode s K.AW_CONT_MODE)
                s.hap.info.is_enabled_auto_brk
    haptic_nv_i2c_write_bits s1 K.AW862XX_REG_PLAYCFG3
      K.AW862XX_BIT_PLAYCFG3_PLAY_MODE_MASK K.AW862XX_BIT_PLAYCFG3_PLAY_MODE_CONT
  else if play_mode = K.AW_RTP_MODE then
    let s1 := aw862xx_set_pwm K (set_play_mode s K.AW_RTP_MODE) K.AW_PWM_12K
    let s2 := aw862xx_auto_brk_config K s1 true
    haptic_nv_i2c_write_bits s2 K.AW862XX_REG_PLAYCFG3
      K.AW862XX_BIT_PLAYCFG3_PLAY_MODE_MASK K.AW862XX_BIT_PLAYCFG3_PLAY_MODE_RTP
  else if play_mode = K.AW_TRIG_MODE then
    let s1 := aw862xx_set_pwm K (set_play_mode s K.AW_TRIG_MODE) K.AW_PWM_12K
    haptic_nv_i2c_write_bits s1 K.AW862XX_REG_PLAYCFG3
      K.AW862XX_BIT_PLAYCFG3_PLAY_MODE_MASK K.AW862XX_BIT_PLAYCFG3_PLAY_MODE_RAM
  else s

/-- Function `aw862xx_get_glb_state`. -/
def aw862xx_get_glb_state (K : Hdr) (inp : Nat → Nat) (s : St) : Int × St :=
  read_byte inp s K.AW862XX_REG_GLBRD5

/-- Function `aw862xx_play_go`. -/
def aw862xx_play_go (K : Hdr) (inp : Nat → Nat) (s : St) (flag : Bool) : St :=
  let s1 :=
    if flag then
      haptic_nv_i2c_writes s K.AW862XX_REG_PLAYCFG4 [toU8 K.AW862XX_BIT_PLAYCFG4_GO_ON]
    else
      haptic_nv_i2c_writes s K.AW862XX_REG_PLAYCFG4 [toU8 K.AW862XX_BIT_PLAYCFG4_STOP_ON]
  (aw862xx_get_glb_state K inp s1).2

/-- Function `aw862xx_raminit`. -/
def aw862xx_raminit (K : Hdr) (s : St) (flag : Bool) : St :=
  if flag then
    haptic_nv_i2c_write_bits s K.AW862XX_REG_SYSCTRL1
      K.AW862XX_BIT_SYSCTRL1_RAMINIT_MASK K.AW862XX_BIT_SYSCTRL1_RAMINIT_ON
  else
    haptic_nv_i2c_write_bits s K.AW862XX_REG_SYSCTRL1
      K.AW862XX_BIT_SYSCTRL1_RAMINIT_MASK K.AW862XX_BIT_SYSCTRL1_RAMINIT_OFF

/-! ## Calibration engine -/

/-- The C operator `x << n` on a non-negative `int` that does not overflow. -/
def shl (x : Int) (n : Nat) : Int := x * 2 ^ n

/-- The C operator `x >> n` on `int` (arithmetic shift). -/
def shr (x : Int) (n : Nat) : Int := x / 2 ^ n

/-- Function `aw862xx_select_d2s_gain`; the `switch` is read as a chain of
tests in the order of its labels. -/
def aw862xx_select_d2s_gain (K : Hdr) (reg : Int) : Int :=
  if reg = K.AW862XX_BIT_SYSCTRL7_D2S_GAIN_1 then 1
  else if reg = K.AW862XX_BIT_SYSCTRL7_D2S_GAIN_2 then 2
  else if reg = K.AW862XX_BIT_SYSCTRL7_D2S_GAIN_4 then 4
  else if reg = K.AW862XX_BIT_SYSCTRL7_D2S_GAIN_5 then 5
  else if reg = K.AW862XX_BIT_SYSCTRL7_D2S_GAIN_8 then 8
  else if reg = K.AW862XX_BIT_SYSCTRL7_D2S_GAIN_10 then 10
  else if reg = K.AW862XX_BIT_SYSCTRL7_D2S_GAIN_20 then 20
  else if reg = K.AW862XX_BIT_SYSCTRL7_D2S_GAIN_40 then 40
  else -1

/-- The gain field `(~AW862XX_BIT_SYSCTRL7_D2S_GAIN_MASK) & reg_val[0]` that
`aw862xx_offset_cali` stores back into the byte `reg_val[0]`. -/
def offset_cali_gain_field (K : Hdr) (sysctrl7 : Int) : Int :=
  toU8 (Int.land (Int.not K.AW862XX_BIT_SYSCTRL7_D2S_GAIN_MASK) sysctrl7)

/-- The raw offset code `aw862xx_offset_cali` assembles from the bytes read
from `DET_OS` (`reg_val[0]`) and `DET_LO` (`reg_val[1]`). -/
def offset_cali_code (K : Hdr) (det_os det_lo : Int) : Int :=
  let os_code := shr (Int.land det_lo (Int.not K.AW862XX_BIT_DET_LO_OS_MASK)) 2
  Int.lor (shl det_os 2) os_code

/-- Function `aw862xx_offset_cali`. -/
def aw862xx_offset_cali (K : Hdr) (inp : Nat → Nat) (s : St) : Int × St :=
  let r0 := read_byte inp s K.AW862XX_REG_SYSCTRL7
  let d2s_gain := aw862xx_select_d2s_gain K (offset_cali_gain_field K r0.1)
  if d2s_gain < 0 then (-K.ERANGE, r0.2)
  else
    let s1 := aw862xx_raminit K r0.2 true
    let s2 := haptic_nv_i2c_write_bits s1 K.AW862XX_REG_DETCFG1
                K.AW862XX_BIT_DETCFG1_RL_OS_MASK K.AW862XX_BIT_DETCFG1_OS
    let s3 := haptic_nv_i2c_write_bits s2 K.AW862XX_REG_DETCFG2
                K.AW862XX_BIT_DETCFG2_DIAG_GO_MASK K.AW862XX_BIT_DETCFG2_DIAG_GO_ON
    let r1 := read_byte inp s3 K.AW862XX_REG_DET_OS
    let r2 := read_byte inp r1.2 K.AW862XX_REG_DET_LO
    let s4 := aw862xx_raminit K r2.2 false
    let os_code := K.AW862XX_OS_FORMULA (offset_cali_code K r1.1 r2.1) d2s_gain
    if os_code > 15 ∨ os_code < -15 then (-K.ERANGE, s4) else (0, s4)

/-- The quotient `f0_cali_step` of `aw862xx_calculate_cali_data` before
rounding, in `int` arithmetic; `none` when the divisor is zero. -/
def f0_cali_step (K : Hdr) (f0 f0_pre : Nat) : Option Int :=
  let den := toInt32 (toInt32 f0_pre * K.AW862XX_F0_CALI_ACCURACY)
  if den = 0 then none
  else some (toInt32 (Int.tdiv (toInt32 (100000 * toInt32 (toInt32 f0 - toInt32 f0_pre))) den))

/-- The rounding branches of `aw862xx_calculate_cali_data`: the new value of
`f0_cali_step`. -/
def f0_cali_round (step : Int) : Int :=
  if step ≥ 0 then
    if Int.tmod step 10 ≥ 5 then 32 + (Int.tdiv step 10 + 1) else 32 + Int.tdiv step 10
  else
    if Int.tmod step 10 ≤ -5 then 32 + (Int.tdiv step 10 - 1) else 32 + Int.tdiv step 10

/-- The value of the `char f0_cali_lra` computed by
`aw862xx_calculate_cali_data` from the rounded step, converted back to `int`. -/
def f0_cali_lra (K : Hdr) (step : Int) : Int :=
  if step > 31 then toChar K.CHAR_SIGNED (toChar K.CHAR_SIGNED step - 32)
  else toChar K.CHAR_SIGNED (toChar K.CHAR_SIGNED step + 32)

/-- The byte `aw862xx_calculate_cali_data` derives from the measured and the
nominal frequency; `none` when the division is by zero. -/
def f0_cali_byte (K : Hdr) (f0 f0_pre : Nat) : Option Int :=
  (f0_cali_step K f0 f0_pre).map (fun step => f0_cali_lra K (f0_cali_round step))

/-- Function `aw862xx_calculate_cali_data`. -/
def aw862xx_calculate_cali_data (K : Hdr) (s : St) : Option St :=
  (f0_cali_byte K s.hap.f0 s.hap.info.f0_pre).map
    (fun b => { s with hap := { s.hap with f0_cali_data := b } })

/-- The 16 bit code `f0_reg` assembled from two bytes read off the chip. -/
def f0_reg_of (b0 b1 : Int) : Int := Int.lor (shl (Int.lor 0 b0) 8) (shl b1 0)

/-- Function `aw862xx_read_cont_f0`. -/
def aw862xx_read_cont_f0 (K : Hdr) (inp : Nat → Nat) (s : St) : St :=
  let r := haptic_nv_i2c_reads inp s K.AW862XX_REG_CONTRD16 2
  let f0_reg := f0_reg_of (r.1.getD 0 0) (r.1.getD 1 0)
  if f0_reg = 0 then { r.2 with hap := { r.2.hap with cont_f0 := 0 } }
  else { r.2 with hap := { r.2.hap with cont_f0 := (toU32 (K.AW862XX_F0_FORMULA f0_reg)).toNat } }

/-- Function `aw862xx_read_lra_f0`. -/
def aw862xx_read_lra_f0 (K : Hdr) (inp : Nat → Nat) (s : St) : Int × St :=
  let r := haptic_nv_i2c_reads inp s K.AW862XX_REG_CONTRD14 2
  let f0_reg := f0_reg_of (r.1.getD 0 0) (r.1.getD 1 0)
  if f0_reg = 0 then (-K.ERANGE, { r.2 with hap := { r.2.hap with f0 := 0 } })
  else (0, { r.2 with hap := { r.2.hap with f0 := (toU32 (K.AW862XX_F0_FORMULA f0_reg)).toNat } })

/-- The C truth value of a `bool` as an `int`. -/
def boolInt (b : Bool) : Int := if b then 1 else 0

/-- First part of `aw862xx_get_f0`: from entry up to and including the
`TRACK_MARGIN` block.  The integer is the local `brk_en_temp`. -/
def get_f0_prepare (K : Hdr) (inp : Nat → Nat) (s : St) : Int × St :=
  let s0 := { s with hap := { s.hap with f0 := s.hap.info.f0_pre } }
  let s1 := aw862xx_play_stop K inp s0
  let s2 := aw862xx_play_mode K inp s1 K.AW_CONT_MODE
  let s3 := haptic_nv_i2c_write_bits s2 K.AW862XX_REG_CONTCFG1
              K.AW862XX_BIT_CONTCFG1_EN_F0_DET_MASK K.AW862XX_BIT_CONTCFG1_F0_DET_ENABLE
  let s4 := haptic_nv_i2c_write_bits s3 K.AW862XX_REG_CONTCFG6
              K.AW862XX_BIT_CONTCFG6_TRACK_EN_MASK
              (shl (boolInt s3.hap.info.is_enabled_track_en) 7)
  let r := read_byte inp s4 K.AW862XX_REG_PLAYCFG3
  let brk_en_temp := toU8 (Int.land K.AW862XX_BIT_PLAYCFG3_BRK r.1)
  let s5 := haptic_nv_i2c_write_bits r.2 K.AW862XX_REG_PLAYCFG3
              K.AW862XX_BIT_PLAYCFG3_BRK_EN_MASK K.AW862XX_BIT_PLAYCFG3_BRK_ENABLE
  let s6 := haptic_nv_i2c_write_bits s5 K.AW862XX_REG_CONTCFG6
              K.AW862XX_BIT_CONTCFG6_DRV1_LVL_MASK s5.hap.info.cont_drv1_lvl
  let s7 := haptic_nv_i2c_writes s6 K.AW862XX_REG_CONTCFG7
              [toU8 s6.hap.info.cont_drv2_lvl]
  let s8 := haptic_nv_i2c_writes s7 K.AW862XX_REG_CONTCFG8
              [toU8 s7.hap.info.cont_drv1_time, toU8 s7.hap.info.cont_drv2_time]
  let s9 :=
    if s8.hap.info.cont_track_margin = 0 then s8
    else haptic_nv_i2c_writes s8 K.AW862XX_REG_CONTCFG11
           [toU8 s8.hap.info.cont_track_margin]
  (brk_en_temp, s9)

/-- The clamped `drv_width` of `aw862xx_get_f0`. -/
def get_f0_drv_width (K : Hdr) (info : aw_haptic_dts_info) : Int :=
  let w := K.AW862XX_DRV_WIDTH_FORMULA info.f0_pre info.cont_track_margin info.cont_brk_gain
  let w1 := if w < K.AW_DRV_WIDTH_MIN then K.AW_DRV_WIDTH_MIN else w
  if w1 > K.AW_DRV_WIDTH_MAX then K.AW_DRV_WIDTH_MAX else w1

/-- Second part of `aw862xx_get_f0`: the `DRV_WIDTH` block and `cont play go`. -/
def get_f0_go (K : Hdr) (inp : Nat → Nat) (s : St) : St :=
  let s1 := haptic_nv_i2c_writes s K.AW862XX_REG_CONTCFG3
              [toU8 (get_f0_drv_width K s.hap.info)]
  aw862xx_play_go K inp s1 true

/-- The `while (cnt)` loop of `aw862xx_get_f0`; the Boolean is `get_f0_flag`
on exit. -/
def get_f0_poll (K : Hdr) (inp : Nat → Nat) : Nat → St → Bool × St
  | 0, s => (false, s)
  | cnt + 1, s =>
    let r := read_byte inp s K.AW862XX_REG_GLBRD5
    if reports_standby K r.1 then (true, r.2) else get_f0_poll K inp cnt r.2

/-- Last part of `aw862xx_get_f0`: the two restoring masked writes. -/
def get_f0_finish (K : Hdr) (s : St) (brk_en_temp : Int) : St :=
  let s1 := haptic_nv_i2c_write_bits s K.AW862XX_REG_CONTCFG1
              K.AW862XX_BIT_CONTCFG1_EN_F0_DET_MASK K.AW862XX_BIT_CONTCFG1_F0_DET_DISABLE
  haptic_nv_i2c_write_bits s1 K.AW862XX_REG_PLAYCFG3
    K.AW862XX_BIT_PLAYCFG3_BRK_EN_MASK brk_en_temp

/-- Function `aw862xx_get_f0`. -/
def aw862xx_get_f0 (K : Hdr) (inp : Nat → Nat) (s : St) : Int × St :=
  let p := get_f0_prepare K inp s
  if p.2.hap.info.f0_pre = 0 then (-K.ERANGE, p.2)
  else
    let s1 := get_f0_go K inp p.2
    let w := get_f0_poll K inp 200 s1
    if w.1 then
      let r := aw862xx_read_lra_f0 K inp w.2
      (r.1, get_f0_finish K (aw862xx_read_cont_f0 K inp r.2) p.1)
    else (-K.ERANGE, get_f0_finish K w.2 p.1)

/-- The raw resistance code `aw862xx_get_lra_resistance` assembles from the
bytes read from `DET_RL` and `DET_LO`. -/
def lra_code_of (K : Hdr) (det_rl det_lo : Int) : Int :=
  Int.lor (shl (Int.lor 0 det_rl) 2) (Int.land det_lo K.AW862XX_BIT_DET_LO_RL)

/-- Function `aw862xx_get_lra_resistance`. -/
def aw862xx_get_lra_resistance (K : Hdr) (inp : Nat → Nat) (s : St) : St :=
  let s1 := aw862xx_play_stop K inp s
  let r0 := read_byte inp s1 K.AW862XX_REG_SYSCTRL7
  let d2s_gain_temp := toU8 (Int.land K.AW862XX_BIT_SYSCTRL7_GAIN r0.1)
  let s2 := haptic_nv_i2c_write_bits r0.2 K.AW862XX_REG_SYSCTRL7
              K.AW862XX_BIT_SYSCTRL7_D2S_GAIN_MASK r0.2.hap.info.d2s_gain
  let d2s_gain := aw862xx_select_d2s_gain K (toU8 s2.hap.info.d2s_gain)
  if d2s_gain ≤ 0 then s2
  else
    let s3 := aw862xx_raminit K s2 true
    let s4 := aw862xx_play_stop K inp s3
    let s5 := haptic_nv_i2c_write_bits s4 K.AW862XX_REG_SYSCTRL2
                K.AW862XX_BIT_SYSCTRL2_STANDBY_MASK K.AW862XX_BIT_SYSCTRL2_STANDBY_OFF
    let s6 := haptic_nv_i2c_write_bits s5 K.AW862XX_REG_DETCFG1
                K.AW862XX_BIT_DETCFG1_RL_OS_MASK K.AW862XX_BIT_DETCFG1_RL
    let s7 := haptic_nv_i2c_write_bits s6 K.AW862XX_REG_DETCFG2
                K.AW862XX_BIT_DETCFG2_DIAG_GO_MASK K.AW862XX_BIT_DETCFG2_DIAG_GO_ON
    let r1 := read_byte inp s7 K.AW862XX_REG_DET_RL
    let r2 := read_byte inp r1.2 K.AW862XX_REG_DET_LO
    let lra := toU32 (K.AW862XX_RL_FORMULA (lra_code_of K r1.1 r2.1) d2s_gain)
    let s8 := { r2.2 with hap := { r2.2.hap with lra := (toU32 (lra * 10)).toNat } }
    let s9 := aw862xx_raminit K s8 false
    haptic_nv_i2c_write_bits s9 K.AW862XX_REG_SYSCTRL7
      K.AW862XX_BIT_SYSCTRL7_D2S_GAIN_MASK d2s_gain_temp

/-- The raw battery code `aw862xx_get_vbat` assembles from the bytes read from
`DET_VBAT` and `DET_LO`. -/
def vbat_code_of (K : Hdr) (det_vbat det_lo : Int) : Int :=
  Int.lor (shl (Int.lor 0 det_vbat) 2) (shr (Int.land det_lo K.AW862XX_BIT_DET_LO_VBAT) 4)

/-- The two limit tests of `aw862xx_get_vbat`, in the order of the code. -/
def vbat_limit (K : Hdr) (v : Int) : Int :=
  let v1 := if v > K.AW_VBAT_MAX then K.AW_VBAT_MAX else v
  if v1 < K.AW_VBAT_MIN then K.AW_VBAT_MIN else v1

/-- Function `aw862xx_get_vbat`.  The macro parameter stands for the value the
conversion yields in the type of the field `vbat`. -/
def aw862xx_get_vbat (K : Hdr) (inp : Nat → Nat) (s : St) : St :=
  let s1 := aw862xx_play_stop K inp s
  let s2 := aw862xx_raminit K s1 true
  let s3 := haptic_nv_i2c_write_bits s2 K.AW862XX_REG_DETCFG2
              K.AW862XX_BIT_DETCFG2_VBAT_GO_MASK K.AW862XX_BIT_DETCFG2_VABT_GO_ON
  let r1 := read_byte inp s3 K.AW862XX_REG_DET_VBAT
  let r2 := read_byte inp r1.2 K.AW862XX_REG_DET_LO
  let vbat := vbat_limit K (K.AW862XX_VBAT_FORMULA (vbat_code_of K r1.1 r2.1))
  aw862xx_raminit K { r2.2 with hap := { r2.2.hap with vbat := vbat } } false

/-! ## Initialisation, continuous mode and playback time -/

/-- Function `aw862xx_sram_size`; the `switch` is read as a chain of tests in
the order of its labels. -/
def aw862xx_sram_size (K : Hdr) (s : St) (size_flag : Int) : St :=
  if size_flag = K.AW862XX_HAPTIC_SRAM_1K then
    let s1 := haptic_nv_i2c_write_bits s K.AW862XX_REG_RTPCFG1
                K.AW862XX_BIT_RTPCFG1_SRAM_SIZE_2K_MASK K.AW862XX_BIT_RTPCFG1_SRAM_SIZE_2K_DIS
    haptic_nv_i2c_write_bits s1 K.AW862XX_REG_RTPCFG1
      K.AW862XX_BIT_RTPCFG1_SRAM_SIZE_1K_MASK K.AW862XX_BIT_RTPCFG1_SRAM_SIZE_1K_EN
  else if size_flag = K.AW862XX_HAPTIC_SRAM_2K then
    let s1 := haptic_nv_i2c_write_bits s K.AW862XX_REG_RTPCFG1
                K.AW862XX_BIT_RTPCFG1_SRAM_SIZE_2K_MASK K.AW862XX_BIT_RTPCFG1_SRAM_SIZE_2K_EN
    haptic_nv_i2c_write_bits s1 K.AW862XX_REG_RTPCFG1
      K.AW862XX_BIT_RTPCFG1_SRAM_SIZE_1K_MASK K.AW862XX_BIT_RTPCFG1_SRAM_SIZE_1K_DIS
  else if size_flag = K.AW862XX_HAPTIC_SRAM_3K then
    let s1 := haptic_nv_i2c_write_bits s K.AW862XX_REG_RTPCFG1
                K.AW862XX_BIT_RTPCFG1_SRAM_SIZE_1K_MASK K.AW862XX_BIT_RTPCFG1_SRAM_SIZE_1K_EN
    haptic_nv_i2c_write_bits s1 K.AW862XX_REG_RTPCFG1
      K.AW862XX_BIT_RTPCFG1_SRAM_SIZE_2K_MASK K.AW862XX_BIT_RTPCFG1_SRAM_SIZE_2K_EN
  else s

/-- Function `aw862xx_config`. -/
def aw862xx_config (K : Hdr) (s : St) : St :=
  let s1 := aw862xx_sram_size K s (toU8 K.AW862XX_HAPTIC_SRAM_3K)
  let s2 := haptic_nv_i2c_write_bits s1 K.AW862XX_REG_TRGCFG8
              K.AW862XX_BIT_TRGCFG8_TRG_TRIG1_MODE_MASK K.AW862XX_BIT_TRGCFG8_TRIG1
  let s3 := haptic_nv_i2c_write_bits s2 K.AW862XX_REG_ANACFG8
              K.AW862XX_BIT_ANACFG8_TRTF_CTRL_HDRV_MASK K.AW862XX_BIT_ANACFG8_TRTF_CTRL_HDRV
  let s4 :=
    if s3.hap.info.cont_brk_time ≠ 0 then
      haptic_nv_i2c_writes s3 K.AW862XX_REG_CONTCFG10 [toU8 s3.hap.info.cont_brk_time]
    else s3
  if s4.hap.info.cont_brk_gain ≠ 0 then
    haptic_nv_i2c_write_bits s4 K.AW862XX_REG_CONTCFG5
      K.AW862XX_BIT_CONTCFG5_BRK_GAIN_MASK s4.hap.info.cont_brk_gain
  else s4

/-- Function `aw862xx_protect_config`; both arguments are bytes. -/
def aw862xx_protect_config (K : Hdr) (s : St) (prtime prlvl : Int) : St :=
  let s1 := haptic_nv_i2c_write_bits s K.AW862XX_REG_PWMCFG1
              K.AW862XX_BIT_PWMCFG1_PRC_EN_MASK K.AW862XX_BIT_PWMCFG1_PRC_DISABLE
  if prlvl ≠ 0 then
    let reg_val := toU8 (Int.lor K.AW862XX_BIT_PWMCFG3_PR_ENABLE
                     (Int.land prlvl (Int.not K.AW862XX_BIT_PWMCFG3_PRLVL_MASK)))
    let s2 := haptic_nv_i2c_writes s1 K.AW862XX_REG_PWMCFG3 [reg_val]
    haptic_nv_i2c_writes s2 K.AW862XX_REG_PWMCFG4 [prtime]
  else
    haptic_nv_i2c_write_bits s1 K.AW862XX_REG_PWMCFG3
      K.AW862XX_BIT_PWMCFG3_PR_EN_MASK K.AW862XX_BIT_PWMCFG3_PR_DISABLE

/-- The drive level `aw862xx_misc_para_init` stores in `info.cont_drv2_lvl`:
the value of the formula converted to the type of the field (`uint32_t`),
replaced by the maximum when it compares greater (an unsigned comparison). -/
def misc_para_drv2_lvl (K : Hdr) (info : aw_haptic_dts_info) : Nat :=
  let lvl := toU32 (K.AW862XX_DRV2_LVL_FORMULA info.f0_pre info.lra_vrms)
  if lvl > toU32 K.AW862XX_DRV2_LVL_MAX then (toU32 K.AW862XX_DRV2_LVL_MAX).toNat
  else lvl.toNat

/-- Function `aw862xx_misc_para_init`. -/
def aw862xx_misc_para_init (K : Hdr) (inp : Nat → Nat) (s : St) : St :=
  let r0 := read_byte inp s K.AW862XX_REG_WAVCFG1
  let s1 := { r0.2 with hap := { r0.2.hap with
              index := (Int.land r0.1 K.AW862XX_BIT_WAVCFG_SEQ).toNat } }
  let r1 := read_byte inp s1 K.AW862XX_REG_PLAYCFG2
  let s2 := { r1.2 with hap := { r1.2.hap with gain := r1.1.toNat } }
  let r2 := haptic_nv_i2c_reads inp s2 K.AW862XX_REG_WAVCFG1 K.AW_SEQUENCER_SIZE
  let s3 := { r2.2 with hap := { r2.2.hap with
              seq := r2.1.map Int.toNat ++ r2.2.hap.seq.drop K.AW_SEQUENCER_SIZE } }
  let s4 := haptic_nv_i2c_write_bits s3 K.AW862XX_REG_SYSCTRL7
              K.AW862XX_BIT_SYSCTRL7_GAIN_BYPASS_MASK (shl s3.hap.info.gain_bypass 6)
  let s5 :=
    if s4.hap.info.d2s_gain = 0 then s4
    else haptic_nv_i2c_write_bits s4 K.AW862XX_REG_SYSCTRL7
           K.AW862XX_BIT_SYSCTRL7_D2S_GAIN_MASK s4.hap.info.d2s_gain
  let s6 := { s5 with hap := { s5.hap with info := { s5.hap.info with
              cont_drv2_lvl := misc_para_drv2_lvl K s5.hap.info } } }
  let s7 := aw862xx_config K s6
  let s8 := aw862xx_set_pwm K s7 K.AW_PWM_12K
  aw862xx_protect_config K s8 (toU8 K.AW862XX_PWMCFG4_PRTIME_DEFAULT_VALUE)
    (toU8 K.AW862XX_BIT_PWMCFG3_PRLVL_DEFAULT_VALUE)

/-- Function `aw862xx_cont_config`. -/
def aw862xx_cont_config (K : Hdr) (inp : Nat → Nat) (s : St) : St :=
  let s1 := aw862xx_play_mode K inp s K.AW_CONT_MODE
  let s2 := haptic_nv_i2c_write_bits s1 K.AW862XX_REG_CONTCFG6
              (Int.land K.AW862XX_BIT_CONTCFG6_TRACK_EN_MASK K.AW862XX_BIT_CONTCFG6_DRV1_LVL_MASK)
              (Int.lor (shl (boolInt s1.hap.info.is_enabled_track_en) 7)
                (toU8 s1.hap.info.cont_drv1_lvl))
  let s3 := haptic_nv_i2c_writes s2 K.AW862XX_REG_CONTCFG7 [toU8 s2.hap.info.cont_drv2_lvl]
  let s4 := haptic_nv_i2c_writes s3 K.AW862XX_REG_CONTCFG9 [0xFF]
  aw862xx_play_go K inp s4 true

/-- The divisor `aw862xx_get_theory_time` selects from the rate field read
from `SYSCTRL2`. -/
def theory_time_div (K : Hdr) (reg_val : Int) : Nat :=
  let fre_val := toU32 (Int.land reg_val K.AW862XX_BIT_SYSCTRL2_RATE)
  if fre_val = toU32 K.AW862XX_BIT_SYSCTRL2_RATE_48K then 48
  else if fre_val = toU32 K.AW862XX_BIT_SYSCTRL2_RATE_24K then 24
  else 12

/-- Function `aw862xx_get_theory_time`.  The quotient and the product are
evaluated in the unsigned type of `rtp_len` and the result is then widened to
`uint64_t`. -/
def aw862xx_get_theory_time (K : Hdr) (inp : Nat → Nat) (s : St) : Nat × St :=
  let r := read_byte inp s K.AW862XX_REG_SYSCTRL2
  ((r.2.hap.rtp_len / theory_time_div K r.1) * 1000 % 2 ^ K.RTP_LEN_BITS, r.2)

/-- The attribute handler `cont_drv_lvl_store`, from the result of the `sscanf`
on: `parsed` holds the two values of `databuf` when both conversions
succeeded.  The device context and the bus are what the handler changes; its
return value is the byte count it was given. -/
def cont_drv_lvl_store (K : Hdr) (s : St) (parsed : Option (Nat × Nat)) : St :=
  match parsed with
  | none => s
  | some d =>
    let s1 := { s with hap := { s.hap with info := { s.hap.info with
                cont_drv1_lvl := (toU32 d.1).toNat, cont_drv2_lvl := (toU32 d.2).toNat } } }
    let s2 := haptic_nv_i2c_write_bits s1 K.AW862XX_REG_CONTCFG6
                K.AW862XX_BIT_CONTCFG6_DRV1_LVL_MASK s1.hap.info.cont_drv1_lvl
    haptic_nv_i2c_writes s2 K.AW862XX_REG_CONTCFG7 [toU8 s2.hap.info.cont_drv2_lvl]

/-! ## Trigger configuration -/

/-- Function `aw862xx_haptic_select_pin`. -/
def aw862xx_haptic_select_pin (K : Hdr) (s : St) (pin : Int) : St :=
  if pin = K.AW_TRIG1 then
    haptic_nv_i2c_write_bits s K.AW862XX_REG_SYSCTRL2
      K.AW862XX_BIT_SYSCTRL2_INTN_PIN_MASK K.AW862XX_BIT_SYSCTRL2_TRIG1
  else if pin = K.AW_IRQ then
    haptic_nv_i2c_write_bits s K.AW862XX_REG_SYSCTRL2
      K.AW862XX_BIT_SYSCTRL2_INTN_PIN_MASK K.AW862XX_BIT_SYSCTRL2_INTN
  else s

/-- Conversion of a `uint32_t` to the type of the fields of `struct trig`. -/
def trig_field_cast (K : Hdr) (v : Nat) : Nat := v % 2 ^ K.TRIG_FIELD_BITS

/-- The seven assignments of one case of `aw862xx_haptic_trig_param_init`, from
`info.trig_cfg[base + 0 .. base + 6]`. -/
def trig_of_cfg (K : Hdr) (cfg : List Nat) (base : Nat) : aw_trig :=
  { trig_level := trig_field_cast K (cfg.getD (base + 0) 0),
    trig_polar := trig_field_cast K (cfg.getD (base + 1) 0),
    pos_enable := trig_field_cast K (cfg.getD (base + 2) 0),
    pos_sequence := trig_field_cast K (cfg.getD (base + 3) 0),
    neg_enable := trig_field_cast K (cfg.getD (base + 4) 0),
    neg_sequence := trig_field_cast K (cfg.getD (base + 5) 0),
    trig_brk := trig_field_cast K (cfg.getD (base + 6) 0) }

/-- Function `aw862xx_haptic_trig_param_init`. -/
def aw862xx_haptic_trig_param_init (K : Hdr) (s : St) (pin : Int) : St :=
  if pin = K.AW_TRIG1 then
    { s with hap := { s.hap with trig0 := trig_of_cfg K s.hap.info.trig_cfg 0 } }
  else if pin = K.AW_TRIG2 then
    { s with hap := { s.hap with trig1 := trig_of_cfg K s.hap.info.trig_cfg 7 } }
  else if pin = K.AW_TRIG3 then
    { s with hap := { s.hap with trig2 := trig_of_cfg K s.hap.info.trig_cfg 14 } }
  else s

/-- The byte `trig_polar_lev_brk` of `aw862xx_haptic_trig_param_config`. -/
def trig_polar_lev_brk (t : aw_trig) : Int :=
  toU8 (Int.lor (Int.lor (shl t.trig_polar 2) (shl t.trig_level 1)) t.trig_brk)

/-- The byte `trig_pos_seq` of `aw862xx_haptic_trig_param_config`. -/
def trig_pos_seq (t : aw_trig) : Int := toU8 (Int.lor (shl t.pos_enable 7) t.pos_sequence)

/-- The byte `trig_neg_seq` of `aw862xx_haptic_trig_param_config`. -/
def trig_neg_seq (t : aw_trig) : Int := toU8 (Int.lor (shl t.neg_enable 7) t.neg_sequence)

/-- Function `aw862xx_haptic_trig_param_config`; the `switch` is read as a
chain of tests in the order of its labels. -/
def aw862xx_haptic_trig_param_config (K : Hdr) (s : St) (pin : Int) : Int × St :=
  if (s.hap.name = K.AW86224 ∨ s.hap.name = K.AW86225) ∧ s.hap.is_used_irq_pin = true then
    let s1 := aw862xx_haptic_trig_param_init K s K.AW_TRIG1
    (-K.ERANGE, aw862xx_haptic_select_pin K s1 K.AW_IRQ)
  else if pin = K.AW_TRIG1 then
    let s1 :=
      if s.hap.name = K.AW86224 ∨ s.hap.name = K.AW86225 then
        aw862xx_haptic_select_pin K s K.AW_TRIG1
      else s
    let s2 := haptic_nv_i2c_write_bits s1 K.AW862XX_REG_TRGCFG7
                K.AW862XX_BIT_TRGCFG7_TRG1_POR_LEV_BRK_MASK
                (shl (trig_polar_lev_brk s1.hap.trig0) 5)
    let s3 := haptic_nv_i2c_writes s2 K.AW862XX_REG_TRGCFG1 [trig_pos_seq s2.hap.trig0]
    (0, haptic_nv_i2c_writes s3 K.AW862XX_REG_TRGCFG4 [trig_neg_seq s3.hap.trig0])
  else if pin = K.AW_TRIG2 then
    let s2 := haptic_nv_i2c_write_bits s K.AW862XX_REG_TRGCFG7
                K.AW862XX_BIT_TRGCFG7_TRG2_POR_LEV_BRK_MASK
                (shl (trig_polar_lev_brk s.hap.trig1) 1)
    let s3 := haptic_nv_i2c_writes s2 K.AW862XX_REG_TRGCFG2 [trig_pos_seq s2.hap.trig1]
    (0, haptic_nv_i2c_writes s3 K.AW862XX_REG_TRGCFG5 [trig_neg_seq s3.hap.trig1])
  else if pin = K.AW_TRIG3 then
    let s2 := haptic_nv_i2c_write_bits s K.AW862XX_REG_TRGCFG8
                K.AW862XX_BIT_TRGCFG8_TRG3_POR_LEV_BRK_MASK
                (shl (trig_polar_lev_brk s.hap.trig2) 5)
    let s3 := haptic_nv_i2c_writes s2 K.AW862XX_REG_TRGCFG3 [trig_pos_seq s2.hap.trig2]
    (0, haptic_nv_i2c_writes s3 K.AW862XX_REG_TRGCFG6 [trig_neg_seq s3.hap.trig2])
  else (0, s)

/-- Function `aw862xx_set_trig`. -/
def aw862xx_set_trig (K : Hdr) (s : St) (pin : Int) : St :=
  (aw862xx_haptic_trig_param_config K (aw862xx_haptic_trig_param_init K s pin) pin).2

/-- Function `aw862xx_trig_init`; the `switch` is read as a chain of tests in
the order of its labels. -/
def aw862xx_trig_init (K : Hdr) (s : St) : St :=
  if s.hap.name = K.AW86223 then
    aw862xx_set_trig K (aw862xx_set_trig K (aw862xx_set_trig K s K.AW_TRIG1) K.AW_TRIG2)
      K.AW_TRIG3
  else if s.hap.name = K.AW86214 ∨ s.hap.name = K.AW86224 ∨ s.hap.name = K.AW86225 then
    aw862xx_set_trig K s K.AW_TRIG1
  else s

/-- The eight values `databuf[0 .. 7]` that `sscanf` delivers to `trig_store`. -/
structure trig_databuf where
  d0 : Nat
  d1 : Nat
  d2 : Nat
  d3 : Nat
  d4 : Nat
  d5 : Nat
  d6 : Nat
  d7 : Nat
deriving DecidableEq, Repr

/-- The assignment to the seven fields of `aw_haptic->trig[i]`, for `i <= 2`. -/
def set_trig_slot (h : aw_haptic) (i : Nat) (t : aw_trig) : aw_haptic :=
  if i = 0 then { h with trig0 := t }
  else if i = 1 then { h with trig1 := t }
  else { h with trig2 := t }

/-- The values `trig_store` assigns to the fields of `trig[databuf[0]]`. -/
def trig_of_databuf (K : Hdr) (d : trig_databuf) : aw_trig :=
  { trig_level := trig_field_cast K d.d1,
    trig_polar := trig_field_cast K d.d2,
    pos_enable := trig_field_cast K d.d3,
    pos_sequence := trig_field_cast K d.d4,
    neg_enable := trig_field_cast K d.d5,
    neg_sequence := trig_field_cast K d.d6,
    trig_brk := trig_field_cast K d.d7 }

/-- Attribute handler `trig_store`.  The argument is the outcome of `sscanf`:
`none` when it did not deliver eight values.  The handler returns `count` on
every path, and the result here is the state it leaves. -/
def trig_store (K : Hdr) (s : St) (parsed : Option trig_databuf) : St :=
  match parsed with
  | none => s
  | some d =>
    if (s.hap.name = K.AW86214 ∨ s.hap.name = K.AW86224 ∨ s.hap.name = K.AW86225) ∧
        d.d0 ≠ 0 then s
    else if d.d0 > 2 then s
    else if s.hap.ram_init = false then s
    else if d.d4 > s.hap.ram_num ∨ d.d6 > s.hap.ram_num then s
    else
      (aw862xx_haptic_trig_param_config K
        { s with hap := set_trig_slot s.hap d.d0 (trig_of_databuf K d) } d.d0).2

/-! ## Reference notions from the specification -/

/-- Nearest integer to a rational, halves rounded away from zero. -/
def roundHalfAway (q : ℚ) : Int :=
  if 0 ≤ q then ⌊q + 1 / 2⌋ else -⌊-q + 1 / 2⌋

/-- The eight permitted gain encodings paired with their multipliers. -/
def d2s_gain_table (K : Hdr) : List (Int × Int) :=
  [(K.AW862XX_BIT_SYSCTRL7_D2S_GAIN_1, 1), (K.AW862XX_BIT_SYSCTRL7_D2S_GAIN_2, 2),
   (K.AW862XX_BIT_SYSCTRL7_D2S_GAIN_4, 4), (K.AW862XX_BIT_SYSCTRL7_D2S_GAIN_5, 5),
   (K.AW862XX_BIT_SYSCTRL7_D2S_GAIN_8, 8), (K.AW862XX_BIT_SYSCTRL7_D2S_GAIN_10, 10),
   (K.AW862XX_BIT_SYSCTRL7_D2S_GAIN_20, 20), (K.AW862XX_BIT_SYSCTRL7_D2S_GAIN_40, 40)]

/-- Reference value of the calibration step in the words of the specification:
the exact quotient `10000 * (measured - nominal) / (nominal * accuracy)`,
rounded to the nearest integer with halves away from zero. -/
def cali_step_reference (K : Hdr) (f0 f0_pre : Nat) : Int :=
  roundHalfAway
    (10000 * ((f0 : ℚ) - (f0_pre : ℚ)) / ((f0_pre : ℚ) * (K.AW862XX_F0_CALI_ACCURACY : ℚ)))

/-- The bus operations of `k` successive polls of the global state register,
the first of which consumes input position `p`. -/
def poll_reads (K : Hdr) (inp : Nat → Nat) : Nat → Nat → List Ev
  | _, 0 => []
  | p, k + 1 => Ev.reads K.AW862XX_REG_GLBRD5 [busByte inp p] :: poll_reads K inp (p + 1) k

/-- The two masked writes with which `aw862xx_play_stop` forces idle, in the
order in which the code issues them. -/
def forced_idle_ops (K : Hdr) : List Ev :=
  [Ev.write_bits K.AW862XX_REG_SYSCTRL2 K.AW862XX_BIT_SYSCTRL2_STANDBY_MASK
     K.AW862XX_BIT_SYSCTRL2_STANDBY_ON,
   Ev.write_bits K.AW862XX_REG_SYSCTRL2 K.AW862XX_BIT_SYSCTRL2_STANDBY_MASK
     K.AW862XX_BIT_SYSCTRL2_STANDBY_OFF]

/-- The state in which `aw862xx_get_f0` enters its polling loop (reached only
when `f0_pre` is non-zero). -/
def get_f0_poll_start (K : Hdr) (inp : Nat → Nat) (s : St) : St :=
  get_f0_go K inp (get_f0_prepare K inp s).2

/-- The two masked writes with which `aw862xx_get_f0` ends. -/
def get_f0_finish_ops (K : Hdr) (brk_en_temp : Int) : List Ev :=
  [Ev.write_bits K.AW862XX_REG_CONTCFG1 K.AW862XX_BIT_CONTCFG1_EN_F0_DET_MASK
     K.AW862XX_BIT_CONTCFG1_F0_DET_DISABLE,
   Ev.write_bits K.AW862XX_REG_PLAYCFG3 K.AW862XX_BIT_PLAYCFG3_BRK_EN_MASK brk_en_temp]

/-- The value `x` limited to the range from `lo` to `hi`. -/
def clamp (x lo hi : Int) : Int := max lo (min x hi)

/-- The bus operations a call has added to the trace: those of `s'` beyond the
ones already in `s`. -/
def new_ops (s s' : St) : List Ev := s'.trace.drop s.trace.length

/-- Modelled from the spec: the byte a register holds after a masked write
(`haptic_nv_i2c_write_bits` is not among the sources).  The masked write
replaces exactly the field selected by the zero bits of the mask and keeps the
other bits of the old byte. -/
def masked_write (old mask data : Int) : Int :=
  Int.lor (Int.land (toU8 old) (toU8 mask)) (Int.land (toU8 data) (toU8 (Int.not mask)))

/-- Modelled from the spec: a write of several bytes stores them at consecutive
register addresses (`haptic_nv_i2c_writes` is not among the sources). -/
def reg_store (m : Int → Int) (reg : Int) : List Int → Int → Int
  | [] => m
  | b :: bs => reg_store (fun a => if a = reg then toU8 b else m a) (reg + 1) bs

/-- Modelled from the spec: the effect of one bus operation on the register
map of the chip (the register access port is not among the sources): a read
changes nothing, a write stores bytes, a masked write replaces a field. -/
def reg_apply (m : Int → Int) (e : Ev) : Int → Int :=
  match e with
  | Ev.reads _ _ => m
  | Ev.writes reg data => reg_store m reg data
  | Ev.write_bits reg mask data =>
    fun a => if a = reg then masked_write (m a) mask data else m a

/-- The register map after a sequence of bus operations. -/
def reg_run (m : Int → Int) (t : List Ev) : Int → Int := t.foldl reg_apply m

/-- Whether a bus operation can change the register at address `r`: a masked
write to `r`, or a write whose bytes reach `r` (a write of several bytes is
taken to reach the consecutive addresses).  A read changes no register. -/
def touches (r : Int) (e : Ev) : Bool :=
  match e with
  | Ev.reads _ _ => false
  | Ev.writes reg data => decide (reg ≤ r ∧ r < reg + data.length)
  | Ev.write_bits reg _ _ => decide (reg = r)

/-- The operations of a trace that can change the register at address `r`, in
the order of the trace. -/
def ops_on (r : Int) (l : List Ev) : List Ev := l.filter (touches r)

/-- The trace of `s'` is that of `s` followed by operations that all satisfy
`P`. -/
def ext_by (P : Ev → Prop) (s s' : St) : Prop :=
  ∃ l, s'.trace = s.trace ++ l ∧ ∀ e ∈ l, P e

/-- The kinds of bus operation that `aw862xx_play_stop` and `aw862xx_play_mode`
issue: reads, the stop command written to `PLAYCFG4`, and masked writes to
`SYSCTRL2` and `PLAYCFG3`. -/
def mode_op (K : Hdr) (e : Ev) : Prop :=
  match e with
  | Ev.reads _ _ => True
  | Ev.writes reg data =>
    reg = K.AW862XX_REG_PLAYCFG4 ∧ data = [toU8 K.AW862XX_BIT_PLAYCFG4_STOP_ON]
  | Ev.write_bits reg _ _ => reg = K.AW862XX_REG_SYSCTRL2 ∨ reg = K.AW862XX_REG_PLAYCFG3

/-- The masked write with which `aw862xx_raminit` turns the bit on. -/
def raminit_on_op (K : Hdr) : Ev :=
  Ev.write_bits K.AW862XX_REG_SYSCTRL1 K.AW862XX_BIT_SYSCTRL1_RAMINIT_MASK
    K.AW862XX_BIT_SYSCTRL1_RAMINIT_ON

/-- The masked write with which `aw862xx_raminit` turns the bit off. -/
def raminit_off_op (K : Hdr) : Ev :=
  Ev.write_bits K.AW862XX_REG_SYSCTRL1 K.AW862XX_BIT_SYSCTRL1_RAMINIT_MASK
    K.AW862XX_BIT_SYSCTRL1_RAMINIT_OFF

/-- The bit `RAMINIT` is off at the end of a trace: the last operation on
`SYSCTRL1`, if there is one, is the masked write of `RAMINIT_OFF`. -/
def raminit_is_off (K : Hdr) (t : List Ev) : Prop :=
  ∀ e, (ops_on K.AW862XX_REG_SYSCTRL1 t).getLast? = some e → e = raminit_off_op K

/-- Between `s` and `s'` the bit `RAMINIT` was handled in pairs: the
operations on `SYSCTRL1` added to the trace are none at all, or the masked
write of `RAMINIT_ON` followed by the masked write of `RAMINIT_OFF`; if
`RAMINIT_ON` was written, the last operation on `SYSCTRL1` is the write of
`RAMINIT_OFF`; and a bit that was off before is off afterwards. -/
def raminit_paired (K : Hdr) (s s' : St) : Prop :=
  (ops_on K.AW862XX_REG_SYSCTRL1 (new_ops s s') = [] ∨
    ops_on K.AW862XX_REG_SYSCTRL1 (new_ops s s') = [raminit_on_op K, raminit_off_op K]) ∧
  (raminit_on_op K ∈ new_ops s s' →
    (ops_on K.AW862XX_REG_SYSCTRL1 (new_ops s s')).getLast? = some (raminit_off_op K)) ∧
  (raminit_is_off K s.trace → raminit_is_off K s'.trace)

/-- Register `r` is none of the registers in `rs`. -/
def reg_apart (r : Int) (rs : List Int) : Prop := ∀ x ∈ rs, r ≠ x

/-- `SYSCTRL1` is apart from the other registers the three measurement
procedures write, and from the registers of the play-mode state machine. -/
def raminit_layout (K : Hdr) : Prop :=
  reg_apart K.AW862XX_REG_SYSCTRL1
    [K.AW862XX_REG_PLAYCFG4, K.AW862XX_REG_SYSCTRL2, K.AW862XX_REG_PLAYCFG3,
     K.AW862XX_REG_SYSCTRL7, K.AW862XX_REG_DETCFG1, K.AW862XX_REG_DETCFG2]

/-- `SYSCTRL7` is apart from the other registers `aw862xx_get_lra_resistance`
writes and from the registers of the play-mode state machine, and
`AW862XX_BIT_SYSCTRL7_GAIN` is the bit pattern of the field that the mask
`AW862XX_BIT_SYSCTRL7_D2S_GAIN_MASK` selects. -/
def gain_layout (K : Hdr) : Prop :=
  reg_apart K.AW862XX_REG_SYSCTRL7
    [K.AW862XX_REG_PLAYCFG4, K.AW862XX_REG_SYSCTRL2, K.AW862XX_REG_PLAYCFG3,
     K.AW862XX_REG_SYSCTRL1, K.AW862XX_REG_DETCFG1, K.AW862XX_REG_DETCFG2] ∧
  K.AW862XX_BIT_SYSCTRL7_GAIN = toU8 (Int.not K.AW862XX_BIT_SYSCTRL7_D2S_GAIN_MASK)

/-- The registers written by `aw862xx_get_f0` and `aw862xx_cont_config`, apart
from the register `r` under study. -/
def cont_regs_apart (K : Hdr) (r : Int) (rs : List Int) : Prop :=
  reg_apart r
    ([K.AW862XX_REG_PLAYCFG4, K.AW862XX_REG_SYSCTRL2, K.AW862XX_REG_PLAYCFG3,
      K.AW862XX_REG_CONTCFG1, K.AW862XX_REG_CONTCFG6] ++ rs)

/-- The bus operations of `aw862xx_get_f0` between the mode change and the
`DRV_WIDTH` block; `b` is the byte read from `PLAYCFG3`. -/
def get_f0_config_ops (K : Hdr) (info : aw_haptic_dts_info) (b : Int) : List Ev :=
  [Ev.write_bits K.AW862XX_REG_CONTCFG1 K.AW862XX_BIT_CONTCFG1_EN_F0_DET_MASK
     K.AW862XX_BIT_CONTCFG1_F0_DET_ENABLE,
   Ev.write_bits K.AW862XX_REG_CONTCFG6 K.AW862XX_BIT_CONTCFG6_TRACK_EN_MASK
     (shl (boolInt info.is_enabled_track_en) 7),
   Ev.reads K.AW862XX_REG_PLAYCFG3 [b],
   Ev.write_bits K.AW862XX_REG_PLAYCFG3 K.AW862XX_BIT_PLAYCFG3_BRK_EN_MASK
     K.AW862XX_BIT_PLAYCFG3_BRK_ENABLE,
   Ev.write_bits K.AW862XX_REG_CONTCFG6 K.AW862XX_BIT_CONTCFG6_DRV1_LVL_MASK
     info.cont_drv1_lvl,
   Ev.writes K.AW862XX_REG_CONTCFG7 [toU8 info.cont_drv2_lvl],
   Ev.writes K.AW862XX_REG_CONTCFG8 [toU8 info.cont_drv1_time, toU8 info.cont_drv2_time]]
  ++ (if info.cont_track_margin = 0 then []
      else [Ev.writes K.AW862XX_REG_CONTCFG11 [toU8 info.cont_track_margin]])

/-- The seven parsed values `databuf[1 .. 7]`, each reduced modulo `2 ^ w`
(what a conversion to an unsigned field of `w` bits keeps). -/
def trig_parsed_mod (w : Nat) (d : trig_databuf) : aw_trig :=
  { trig_level := d.d1 % 2 ^ w, trig_polar := d.d2 % 2 ^ w, pos_enable := d.d3 % 2 ^ w,
    pos_sequence := d.d4 % 2 ^ w, neg_enable := d.d5 % 2 ^ w, neg_sequence := d.d6 % 2 ^ w,
    trig_brk := d.d7 % 2 ^ w }

/-- The pin constant of trigger `i + 1`, for `i <= 2`. -/
def trig_pin (K : Hdr) (i : Nat) : Int :=
  if i = 0 then K.AW_TRIG1 else if i = 1 then K.AW_TRIG2 else K.AW_TRIG3

/-- The configuration `aw_haptic->trig[i]`, for `i <= 2`. -/
def trig_slot (h : aw_haptic) (i : Nat) : aw_trig :=
  if i = 0 then h.trig0 else if i = 1 then h.trig1 else h.trig2

/-- The positive-sequence register of trigger `i + 1`. -/
def trig_pos_reg (K : Hdr) (i : Nat) : Int :=
  if i = 0 then K.AW862XX_REG_TRGCFG1 else if i = 1 then K.AW862XX_REG_TRGCFG2
  else K.AW862XX_REG_TRGCFG3

/-- The negative-sequence register of trigger `i + 1`. -/
def trig_neg_reg (K : Hdr) (i : Nat) : Int :=
  if i = 0 then K.AW862XX_REG_TRGCFG4 else if i = 1 then K.AW862XX_REG_TRGCFG5
  else K.AW862XX_REG_TRGCFG6

/-- The three bit polarity, level and brake field of trigger `i + 1` in the
register map: bits 7..5 of `TRGCFG7`, bits 3..1 of `TRGCFG7`, bits 7..5 of
`TRGCFG8`, as the shifts in `aw862xx_haptic_trig_param_config` place them. -/
def trig_field (K : Hdr) (m : Int → Int) (i : Nat) : Int :=
  if i = 0 then shr (Int.land (m K.AW862XX_REG_TRGCFG7) 0xE0) 5
  else if i = 1 then shr (Int.land (m K.AW862XX_REG_TRGCFG7) 0x0E) 1
  else shr (Int.land (m K.AW862XX_REG_TRGCFG8) 0xE0) 5

/-- The seven trigger parameters read back from the three registers of
trigger `i + 1`. -/
def trig_readback (K : Hdr) (m : Int → Int) (i : Nat) : aw_trig :=
  { trig_level := (Int.land (shr (trig_field K m i) 1) 1).toNat,
    trig_polar := (Int.land (shr (trig_field K m i) 2) 1).toNat,
    pos_enable := (shr (m (trig_pos_reg K i)) 7).toNat,
    pos_sequence := (Int.land (m (trig_pos_reg K i)) 0x7F).toNat,
    neg_enable := (shr (m (trig_neg_reg K i)) 7).toNat,
    neg_sequence := (Int.land (m (trig_neg_reg K i)) 0x7F).toNat,
    trig_brk := (Int.land (trig_field K m i) 1).toNat }

/-- The header facts the trigger round trip rests on: each mask clears exactly
the three bit field at the shift the code uses, and the trigger registers, the
pin selection register and the pin constants are pairwise distinct. -/
def trig_layout (K : Hdr) : Prop :=
  K.AW862XX_BIT_TRGCFG7_TRG1_POR_LEV_BRK_MASK = -225 ∧
  K.AW862XX_BIT_TRGCFG7_TRG2_POR_LEV_BRK_MASK = -15 ∧
  K.AW862XX_BIT_TRGCFG8_TRG3_POR_LEV_BRK_MASK = -225 ∧
  [K.AW862XX_REG_TRGCFG1, K.AW862XX_REG_TRGCFG2, K.AW862XX_REG_TRGCFG3,
    K.AW862XX_REG_TRGCFG4, K.AW862XX_REG_TRGCFG5, K.AW862XX_REG_TRGCFG6,
    K.AW862XX_REG_TRGCFG7, K.AW862XX_REG_TRGCFG8, K.AW862XX_REG_SYSCTRL2].Nodup ∧
  [K.AW_TRIG1, K.AW_TRIG2, K.AW_TRIG3].Nodup

/-- The parameter ranges of a trigger configuration: five flags and two seven
bit sequence indices. -/
def trig_params_ok (t : aw_trig) : Prop :=
  t.trig_level ≤ 1 ∧ t.trig_polar ≤ 1 ∧ t.trig_brk ≤ 1 ∧ t.pos_enable ≤ 1 ∧
  t.neg_enable ≤ 1 ∧ t.pos_sequence < 128 ∧ t.neg_sequence < 128

/-- The labels of the `switch` in `aw862xx_play_mode` and of the one in
`aw862xx_set_pwm` are pairwise distinct, as C requires of case labels. -/
def mode_labels_distinct (K : Hdr) : Prop :=
  [K.AW_STANDBY_MODE, K.AW_RAM_MODE, K.AW_RAM_LOOP_MODE, K.AW_CONT_MODE, K.AW_RTP_MODE,
    K.AW_TRIG_MODE].Nodup ∧
  [K.AW_PWM_48K, K.AW_PWM_24K, K.AW_PWM_12K].Nodup

/-- Between `s` and `s'` the bus has seen masked writes only: no read and no
plain write (so no command written to `PLAYCFG4`). -/
def only_masked_writes (s s' : St) : Prop :=
  s'.pos = s.pos ∧
  ∃ l, s'.trace = s.trace ++ l ∧ ∀ e ∈ l, ∃ r k d, e = Ev.write_bits r k d

/-- The device is in the case in which `aw862xx_haptic_trig_param_config`
gives the pin to the interrupt line. -/
def irq_pin_case (K : Hdr) (h : aw_haptic) : Prop :=
  (h.name = K.AW86224 ∨ h.name = K.AW86225) ∧ h.is_used_irq_pin = true

/-- The device is one of the single-trigger variants. -/
def single_trigger (K : Hdr) (h : aw_haptic) : Prop :=
  h.name = K.AW86214 ∨ h.name = K.AW86224 ∨ h.name = K.AW86225

/-- A device context and bus state to evaluate the model on. -/
def st0 : St where
  hap :=
    { name := 0, play_mode := 1, gain := 0x80, index := 0, seq := [], f0 := 1750,
      cont_f0 := 0,
      f0_cali_data := 0, vbat := 0, lra := 0, rtp_len := 0, ram_init := true,
      ram_num := 4, base_addr := 0, is_used_irq_pin := false,
      trig0 := ⟨0, 0, 0, 0, 0, 0, 0⟩, trig1 := ⟨0, 0, 0, 0, 0, 0, 0⟩,
      trig2 := ⟨0, 0, 0, 0, 0, 0, 0⟩,
      info :=
        { f0_pre := 1700, d2s_gain := 4, lra_vrms := 1000, gain_bypass := 0,
          cont_drv1_lvl := 0x7F, cont_drv2_lvl := 0x36, cont_drv1_time := 4,
          cont_drv2_time := 20, cont_brk_time := 6, cont_brk_gain := 8,
          cont_track_margin := 12, is_enabled_track_en := true,
          is_enabled_auto_brk := false, trig_cfg := [] } }
  pos := 0
  trace := []

/-- A header whose gain field of `SYSCTRL7` is four bits wide, so that field
values outside the eight encodings exist. -/
def hdr1 : Hdr := { hdr0 with AW862XX_BIT_SYSCTRL7_D2S_GAIN_MASK := -16 }

/-- The sample context as a single-trigger device (`AW86214`). -/
def st1 : St := { st0 with hap := { st0.hap with name := 3 } }

/-- A trigger configuration within the parameter ranges. -/
def trig_sample : aw_trig :=
  { trig_level := 1, trig_polar := 0, pos_enable := 1, pos_sequence := 3,
    neg_enable := 0, neg_sequence := 2, trig_brk := 1 }

end Aw862xx

/-!
# Parade touchscreen I2C transport

A shallow embedding of the two read functions of
`drivers/input/touchscreen/pt/pt_i2c.c`.

* The bus is an oracle: for the `k`-th transfer it gives the value the kernel
  call returns and the bytes it leaves in the buffer.  The state counts the
  transfers made and records them in order.
* The buffer is followed only as far as the functions read it back (the two
  header bytes); whether the pointer is `NULL` is an argument.
* `pt_regs.h` and the kernel headers are not among the sources, so their
  constants, the build switch `CYPSOC_PICOLEAF_ENABLE` and the helper
  `get_unaligned_le16` are fields of the parameter `PtHdr`.
-/

namespace PtI2c

/-- Constants, build switch and helper that `pt_i2c.c` takes from `pt_regs.h`
and the kernel headers. -/
structure PtHdr where
  EINVAL : Int
  EIO : Int
  PT_PIP_1P7_EMPTY_BUF : Int
  /-- Whether the build defines `CYPSOC_PICOLEAF_ENABLE`. -/
  CYPSOC_PICOLEAF_ENABLE : Bool
  CYPSOC_PICOLEAF_STATUS_FW_UPDATING : Int
  /-- The helper `get_unaligned_le16`, as a function of the two bytes at the
  address. -/
  get_unaligned_le16 : Int → Int → Int

/-- One concrete choice of the header parameters, with the firmware-update
guard compiled in.  The values are illustrative. -/
def pt_hdr0 : PtHdr where
  EINVAL := 22
  EIO := 5
  PT_PIP_1P7_EMPTY_BUF := 0xFF00
  CYPSOC_PICOLEAF_ENABLE := true
  CYPSOC_PICOLEAF_STATUS_FW_UPDATING := 2
  get_unaligned_le16 := fun b0 b1 => b0 + 256 * b1

/-- The macro `PT_I2C_DATA_SIZE`. -/
def PT_I2C_DATA_SIZE : Int := 2 * 256

/-- A transfer on the I2C bus, as requested by the driver. -/
inductive Xfer where
  /-- The call `i2c_master_recv(client, buf, count)`. -/
  | master_recv (count : Int)
  /-- The call `i2c_transfer` with one read message of the given length. -/
  | transfer_read (len : Int)
deriving DecidableEq, Repr

/-- The bus as seen by the driver: the value the `k`-th transfer returns, and
byte `i` of what it leaves in the buffer. -/
structure Bus where
  rc : Nat → Int
  data : Nat → Nat → Nat

/-- The number of transfers made so far and their record (oldest first). -/
structure PtSt where
  done : Nat
  trace : List Xfer
deriving DecidableEq, Repr

/-- The guard compiled in under `CYPSOC_PICOLEAF_ENABLE`: the companion data is
present (`psoc` holds its status) and the status is `FW_UPDATING`. -/
def fw_updating (P : PtHdr) (psoc : Option Int) : Bool :=
  P.CYPSOC_PICOLEAF_ENABLE &&
    (match psoc with
     | some status => decide (status = P.CYPSOC_PICOLEAF_STATUS_FW_UPDATING)
     | none => false)

/-- The expression `(rc < 0) ? rc : rc != want ? -EIO : 0`. -/
def recv_result (P : PtHdr) (rc want : Int) : Int :=
  if rc < 0 then rc else if rc ≠ want then -P.EIO else 0

/-- Function `pt_i2c_read_default`; `buf_null` says whether `buf` is `NULL`. -/
def pt_i2c_read_default (P : PtHdr) (bus : Bus) (psoc : Option Int) (s : PtSt)
    (buf_null : Bool) (size : Int) : Int × PtSt :=
  if fw_updating P psoc then (0, s)
  else if buf_null = true ∨ size = 0 ∨ size > PT_I2C_DATA_SIZE then (-P.EINVAL, s)
  else
    (recv_result P (bus.rc s.done) size,
     { done := s.done + 1, trace := s.trace ++ [Xfer.master_recv size] })

/-- The length field that `pt_i2c_read_default_nosize` reads back from the
buffer after transfer `k`, as a `u32`. -/
def header_size (P : PtHdr) (bus : Bus) (k : Nat) : Int :=
  Aw862xx.toU32 (P.get_unaligned_le16 ((bus.data k 0 % 256 : Nat) : Int)
    ((bus.data k 1 % 256 : Nat) : Int))

/-- Function `pt_i2c_read_default_nosize`; `buf_null` says whether `buf` is
`NULL`, `max` is a `u32`. -/
def pt_i2c_read_default_nosize (P : PtHdr) (bus : Bus) (psoc : Option Int) (s : PtSt)
    (buf_null : Bool) (max : Int) : Int × PtSt :=
  if fw_updating P psoc then (0, s)
  else if buf_null = true then (-P.EINVAL, s)
  else
    let rc := bus.rc s.done
    let s1 : PtSt := { done := s.done + 1, trace := s.trace ++ [Xfer.transfer_read 2] }
    if rc < 0 ∨ rc ≠ 1 then (if rc < 0 then rc else -P.EIO, s1)
    else
      let size := header_size P bus s.done
      if size = 0 ∨ size = 2 ∨ size ≥ Aw862xx.toU32 P.PT_PIP_1P7_EMPTY_BUF then (0, s1)
      else if size > max then (-P.EINVAL, s1)
      else
        (recv_result P (bus.rc s1.done) (Aw862xx.toInt32 size),
         { done := s1.done + 1,
           trace := s1.trace ++ [Xfer.master_recv (Aw862xx.toInt32 size)] })

/-- A bus on which every transfer succeeds in full: the header transfer
returns 1 and announces 7 bytes, a receive returns the 7 bytes. -/
def bus_ok : Bus where
  rc := fun k => if k = 0 then 1 else 7
  data := fun _ i => if i = 0 then 7 else 0

/-- The state before any transfer. -/
def pt_st0 : PtSt := { done := 0, trace := [] }

end PtI2c

namespace Aw862xx

/-! ## Arithmetic of the calibration step -/

theorem f0_cali_round_nonneg (t : Int) (ht : 0 ≤ t) :
    f0_cali_round t = 32 + (t + 5) / 10 := by
  unfold f0_cali_round
  rw [Int.tdiv_eq_ediv ht (by decide), Int.tmod_eq_emod ht (by decide)]
  split_ifs <;> omega

theorem f0_cali_round_neg (t : Int) (ht : 0 ≤ t) :
    f0_cali_round (-t) = 32 - (t + 5) / 10 := by
  rcases eq_or_lt_of_le ht with h0 | hpos
  · subst h0; decide
  · unfold f0_cali_round
    have hm : Int.tmod (-t) 10 = -(t % 10) := by
      have h1 := Int.tmod_def (-t) 10
      rw [Int.neg_tdiv, Int.tdiv_eq_ediv ht (by decide)] at h1
      omega
    rw [hm, Int.neg_tdiv, Int.tdiv_eq_ediv ht (by decide)]
    split_ifs <;> omega

theorem ediv_ediv_ten (A D : Int) (hD : 0 < D) : A / D / 10 = A / (10 * D) := by
  have h1 := Int.emod_add_ediv A D
  have h2 := Int.emod_nonneg A (ne_of_gt hD)
  have h3 := Int.emod_lt_of_pos A hD
  have h4 := Int.emod_add_ediv (A / D) 10
  have h5 := Int.emod_nonneg (A / D) (by decide : (10:Int) ≠ 0)
  have h6 := Int.emod_lt_of_pos (A / D) (by decide : (0:Int) < 10)
  have hpos : 0 < 10 * D := by omega
  have key : (A % D + D * (A / D % 10)) + (10 * D) * (A / D / 10) = A ∧
      0 ≤ A % D + D * (A / D % 10) ∧ A % D + D * (A / D % 10) < 10 * D := by
    refine ⟨?_, ?_, ?_⟩
    · nlinarith
    · nlinarith
    · nlinarith
  exact ((Int.ediv_emod_unique hpos).mpr key).1.symm

theorem div_add_five_div_ten (M D : Int) (hD : 0 < D) :
    (M / D + 5) / 10 = (M + 5 * D) / (10 * D) := by
  rw [← Int.add_mul_ediv_right M 5 (ne_of_gt hD), ediv_ediv_ten _ D hD]

theorem floor_half_pos (M D : Int) (hD : 0 < D) :
    ⌊(M : ℚ) / (10 * (D : ℚ)) + 1 / 2⌋ = (M + 5 * D) / (10 * D) := by
  have hDq : (D : ℚ) ≠ 0 := by exact_mod_cast ne_of_gt hD
  have h : (M : ℚ) / (10 * (D : ℚ)) + 1 / 2
      = (((M + 5 * D : Int)) : ℚ) / (((10 * D).toNat : ℕ) : ℚ) := by
    have : (((10 * D).toNat : ℕ) : ℚ) = 10 * (D : ℚ) := by
      have h2 : (((10 * D).toNat : ℕ) : Int) = 10 * D := Int.toNat_of_nonneg (by omega)
      exact_mod_cast h2
    rw [this]
    push_cast
    field_simp
    ring
  rw [h, Rat.floor_intCast_div_natCast, Int.toNat_of_nonneg (by omega)]

theorem f0_cali_round_tdiv_pos (N D : Int) (hD : 0 < D) :
    f0_cali_round (Int.tdiv N D) = 32 + roundHalfAway ((N : ℚ) / (10 * (D : ℚ))) := by
  have hDq : (0 : ℚ) < 10 * (D : ℚ) := by
    have : (0 : ℚ) < (D : ℚ) := by exact_mod_cast hD
    linarith
  unfold roundHalfAway
  by_cases hN : 0 ≤ N
  · have hx : (0 : ℚ) ≤ (N : ℚ) / (10 * (D : ℚ)) :=
      div_nonneg (by exact_mod_cast hN) (le_of_lt hDq)
    rw [if_pos hx, floor_half_pos N D hD, Int.tdiv_eq_ediv hN (le_of_lt hD),
      f0_cali_round_nonneg _ (Int.ediv_nonneg hN (le_of_lt hD)), div_add_five_div_ten N D hD]
  · have hN' : N < 0 := not_le.mp hN
    have hx : ¬ (0 : ℚ) ≤ (N : ℚ) / (10 * (D : ℚ)) := by
      rw [not_le]
      exact div_neg_of_neg_of_pos (by exact_mod_cast hN') hDq
    have hneg : -((N : ℚ) / (10 * (D : ℚ))) = ((-N : Int) : ℚ) / (10 * (D : ℚ)) := by
      push_cast; ring
    have hM : 0 ≤ -N := by omega
    have ht : Int.tdiv N D = -((-N) / D) := by
      have := Int.neg_tdiv (-N) D
      rw [neg_neg] at this
      rw [this, Int.tdiv_eq_ediv hM (le_of_lt hD)]
    rw [if_neg hx, hneg, floor_half_pos (-N) D hD, ht,
      f0_cali_round_neg _ (Int.ediv_nonneg hM (le_of_lt hD)), div_add_five_div_ten (-N) D hD]
    ring

theorem f0_cali_round_tdiv (N D : Int) (hD : D ≠ 0) :
    f0_cali_round (Int.tdiv N D) = 32 + roundHalfAway ((N : ℚ) / (10 * (D : ℚ))) := by
  rcases lt_or_gt_of_ne hD with hneg | hpos
  · have h := f0_cali_round_tdiv_pos (-N) (-D) (by omega)
    rw [Int.neg_tdiv_neg] at h
    rw [h]
    congr 2
    push_cast
    rw [mul_neg, neg_div_neg_eq]
  · exact f0_cali_round_tdiv_pos N D hpos

theorem toInt32_of_fits (x : Int) (h : -2147483648 ≤ x ∧ x ≤ 2147483647) : toInt32 x = x := by
  unfold toInt32; omega

theorem toInt32_sub_toInt32 (a b : Int) : toInt32 (toInt32 a - toInt32 b) = toInt32 (a - b) := by
  unfold toInt32; omega

theorem toInt32_mul_left (a b : Int) : toInt32 (toInt32 a * b) = toInt32 (a * b) := by
  have h : toInt32 a = a - 4294967296 * ((a + 2147483648) / 4294967296) := by
    unfold toInt32; omega
  rw [h, sub_mul, mul_assoc]
  generalize a * b = P
  generalize (a + 2147483648) / 4294967296 * b = Q
  unfold toInt32; omega

theorem tdiv_fits (N D : Int) (h : -2147483647 ≤ N ∧ N ≤ 2147483647) :
    -2147483648 ≤ Int.tdiv N D ∧ Int.tdiv N D ≤ 2147483647 := by
  have h1 : (Int.tdiv N D).natAbs ≤ N.natAbs := by
    rw [Int.natAbs_tdiv]; exact Nat.div_le_self _ _
  omega

theorem f0_cali_step_exact (K : Hdr) (f0 f0_pre : Nat)
    (hpre : 0 < f0_pre) (hacc : K.AW862XX_F0_CALI_ACCURACY ≠ 0)
    (hnum : -2147483648 ≤ 100000 * ((f0 : Int) - (f0_pre : Int)) ∧
      100000 * ((f0 : Int) - (f0_pre : Int)) ≤ 2147483647)
    (hden : -2147483648 ≤ (f0_pre : Int) * K.AW862XX_F0_CALI_ACCURACY ∧
      (f0_pre : Int) * K.AW862XX_F0_CALI_ACCURACY ≤ 2147483647) :
    f0_cali_step K f0 f0_pre =
      some (Int.tdiv (100000 * ((f0 : Int) - (f0_pre : Int)))
        ((f0_pre : Int) * K.AW862XX_F0_CALI_ACCURACY)) := by
  have hD : (f0_pre : Int) * K.AW862XX_F0_CALI_ACCURACY ≠ 0 :=
    mul_ne_zero (by exact_mod_cast (ne_of_gt hpre)) hacc
  have hd : toInt32 (toInt32 (f0 : Int) - toInt32 (f0_pre : Int)) = (f0 : Int) - (f0_pre : Int) := by
    rw [toInt32_sub_toInt32]; exact toInt32_of_fits _ (by omega)
  unfold f0_cali_step
  simp only []
  rw [toInt32_mul_left, toInt32_of_fits _ hden, if_neg hD, hd, toInt32_of_fits _ hnum,
    toInt32_of_fits _ (tdiv_fits _ _ (by omega))]

theorem f0_cali_lra_in_window (K : Hdr) (r : Int) (hr : -32 ≤ r ∧ r ≤ 31) :
    f0_cali_lra K (32 + r) = r % 64 := by
  unfold f0_cali_lra toChar
  cases K.CHAR_SIGNED <;> simp <;> split_ifs <;> omega

theorem f0_cali_round_reference (K : Hdr) (f0 f0_pre : Nat)
    (hpre : 0 < f0_pre) (hacc : K.AW862XX_F0_CALI_ACCURACY ≠ 0) :
    f0_cali_round (Int.tdiv (100000 * ((f0 : Int) - (f0_pre : Int)))
        ((f0_pre : Int) * K.AW862XX_F0_CALI_ACCURACY))
      = 32 + cali_step_reference K f0 f0_pre := by
  have hD : (f0_pre : Int) * K.AW862XX_F0_CALI_ACCURACY ≠ 0 :=
    mul_ne_zero (by exact_mod_cast (ne_of_gt hpre)) hacc
  rw [f0_cali_round_tdiv _ _ hD]
  unfold cali_step_reference
  congr 2
  push_cast
  rw [show (100000 : ℚ) * ((f0 : ℚ) - (f0_pre : ℚ)) = 10 * (10000 * ((f0 : ℚ) - (f0_pre : ℚ))) by ring]
  exact mul_div_mul_left _ _ (by norm_num)


/-! ## The polling loops -/

theorem poll_reads_succ_right (K : Hdr) (inp : Nat → Nat) (p k : Nat) :
    poll_reads K inp p (k + 1)
      = poll_reads K inp p k ++ [Ev.reads K.AW862XX_REG_GLBRD5 [busByte inp (p + k)]] := by
  induction k generalizing p with
  | zero => simp [poll_reads]
  | succ n ih =>
    rw [poll_reads, ih (p + 1), poll_reads]
    simp [Nat.add_assoc, Nat.add_comm 1 n]

theorem play_stop_poll_busy (K : Hdr) (inp : Nat → Nat) (n : Nat) (s : St)
    (h : ∀ i, i < n → reports_standby K (busByte inp (s.pos + i)) = false) :
    play_stop_poll K inp n s
      = (true, { s with pos := s.pos + n, trace := s.trace ++ poll_reads K inp s.pos n }) := by
  induction n generalizing s with
  | zero => simp [play_stop_poll, poll_reads]
  | succ n ih =>
    have h0 : reports_standby K (busByte inp s.pos) = false := h 0 (Nat.succ_pos n)
    have hn : ∀ i, i < n →
        reports_standby K (busByte inp ((read_byte inp s K.AW862XX_REG_GLBRD5).2.pos + i)) = false := by
      intro i hi
      have := h (i + 1) (Nat.succ_lt_succ hi)
      simpa [read_byte, Nat.add_assoc, Nat.add_comm 1 i] using this
    rw [play_stop_poll]
    simp only [read_byte] at hn ⊢
    rw [h0]
    simp only [Bool.false_eq_true, if_false]
    rw [ih _ hn]
    simp [poll_reads, Nat.add_assoc, Nat.add_comm 1 n]

theorem play_stop_poll_hit (K : Hdr) (inp : Nat → Nat) (n : Nat) (s : St) (j : Nat)
    (hj : j < n) (hs : reports_standby K (busByte inp (s.pos + j)) = true)
    (h : ∀ i, i < j → reports_standby K (busByte inp (s.pos + i)) = false) :
    play_stop_poll K inp n s
      = (false, { s with pos := s.pos + (j + 1),
                         trace := s.trace ++ poll_reads K inp s.pos (j + 1) }) := by
  induction n generalizing s j with
  | zero => exact absurd hj (Nat.not_lt_zero j)
  | succ n ih =>
    rw [play_stop_poll]
    cases j with
    | zero =>
      simp only [read_byte]
      rw [show busByte inp s.pos = busByte inp (s.pos + 0) from rfl, hs]
      simp [poll_reads]
    | succ j =>
      have h0 : reports_standby K (busByte inp s.pos) = false := h 0 (Nat.succ_pos j)
      have hs' : reports_standby K
          (busByte inp ((read_byte inp s K.AW862XX_REG_GLBRD5).2.pos + j)) = true := by
        simpa [read_byte, Nat.add_assoc, Nat.add_comm 1 j] using hs
      have hn : ∀ i, i < j →
          reports_standby K
            (busByte inp ((read_byte inp s K.AW862XX_REG_GLBRD5).2.pos + i)) = false := by
        intro i hi
        have := h (i + 1) (Nat.succ_lt_succ hi)
        simpa [read_byte, Nat.add_assoc, Nat.add_comm 1 i] using this
      simp only [read_byte] at hn hs' ⊢
      rw [h0]
      simp only [Bool.false_eq_true, if_false]
      rw [ih _ j (Nat.lt_of_succ_lt_succ hj) hs' hn]
      simp [poll_reads, Nat.add_assoc, Nat.add_comm 1 j, Nat.add_comm 1 (j+1)]

theorem get_f0_poll_eq (K : Hdr) (inp : Nat → Nat) (n : Nat) (s : St) :
    get_f0_poll K inp n s = (!(play_stop_poll K inp n s).1, (play_stop_poll K inp n s).2) := by
  induction n generalizing s with
  | zero => rfl
  | succ n ih =>
    rw [get_f0_poll, play_stop_poll]
    by_cases hb : reports_standby K (read_byte inp s K.AW862XX_REG_GLBRD5).1 = true
    · simp [hb]
    · simp [hb, ih]

/-- Either some read among the first `n` reports standby (and there is a first
such), or none does. -/
theorem first_standby_or_none (K : Hdr) (inp : Nat → Nat) (p n : Nat) :
    (∀ i, i < n → reports_standby K (busByte inp (p + i)) = false) ∨
    ∃ j, j < n ∧ reports_standby K (busByte inp (p + j)) = true ∧
      ∀ i, i < j → reports_standby K (busByte inp (p + i)) = false := by
  induction n with
  | zero => left; intro i hi; exact absurd hi (Nat.not_lt_zero i)
  | succ n ih =>
    rcases ih with hall | ⟨j, hj, hs, hb⟩
    · by_cases hn : reports_standby K (busByte inp (p + n)) = true
      · right; exact ⟨n, Nat.lt_succ_self n, hn, hall⟩
      · left
        intro i hi
        rcases Nat.lt_succ_iff_lt_or_eq.mp hi with h1 | h1
        · exact hall i h1
        · subst h1; simpa using hn
    · right; exact ⟨j, Nat.lt_succ_of_lt hj, hs, hb⟩


/-! ## Calibration offset derivation (C1, C2, C3) -/

/-- C1: for a nominal frequency `f0_pre > 0` and a measured frequency such that
`100000 * (measured - nominal)` and `nominal * AW862XX_F0_CALI_ACCURACY` fit in
a 32 bit `int` (the accuracy constant being non-zero), and such that the
reference rounding `r` of `10000 * (measured - nominal) / (nominal * accuracy)`
(nearest integer, halves away from zero) lies in `-32 .. 31`, the C sequence
truncating divide, `% 10` test, `/ 10` plus or minus one yields `32 + r`, and
`aw862xx_calculate_cali_data` stores `f0_cali_data = r mod 64`, which is `r`
for `r >= 0` and `64 + r` for `r < 0`. -/
theorem calculate_cali_data_rounds_half_away (K : Hdr) (s : St)
    (hpre : 0 < s.hap.info.f0_pre) (hacc : K.AW862XX_F0_CALI_ACCURACY ≠ 0)
    (hnum : -2147483648 ≤ 100000 * ((s.hap.f0 : Int) - (s.hap.info.f0_pre : Int)) ∧
      100000 * ((s.hap.f0 : Int) - (s.hap.info.f0_pre : Int)) ≤ 2147483647)
    (hden : -2147483648 ≤ (s.hap.info.f0_pre : Int) * K.AW862XX_F0_CALI_ACCURACY ∧
      (s.hap.info.f0_pre : Int) * K.AW862XX_F0_CALI_ACCURACY ≤ 2147483647)
    (hr : -32 ≤ cali_step_reference K s.hap.f0 s.hap.info.f0_pre ∧
      cali_step_reference K s.hap.f0 s.hap.info.f0_pre ≤ 31) :
    (f0_cali_step K s.hap.f0 s.hap.info.f0_pre).map f0_cali_round
        = some (32 + cali_step_reference K s.hap.f0 s.hap.info.f0_pre) ∧
    aw862xx_calculate_cali_data K s
        = some { s with hap := { s.hap with
                  f0_cali_data := cali_step_reference K s.hap.f0 s.hap.info.f0_pre % 64 } } ∧
    (0 ≤ cali_step_reference K s.hap.f0 s.hap.info.f0_pre →
      cali_step_reference K s.hap.f0 s.hap.info.f0_pre % 64
        = cali_step_reference K s.hap.f0 s.hap.info.f0_pre) ∧
    (cali_step_reference K s.hap.f0 s.hap.info.f0_pre < 0 →
      cali_step_reference K s.hap.f0 s.hap.info.f0_pre % 64
        = 64 + cali_step_reference K s.hap.f0 s.hap.info.f0_pre) := by
  have hs := f0_cali_step_exact K s.hap.f0 s.hap.info.f0_pre hpre hacc hnum hden
  have hrd := f0_cali_round_reference K s.hap.f0 s.hap.info.f0_pre hpre hacc
  refine ⟨?_, ?_, ?_, ?_⟩
  · rw [hs, Option.map_some', hrd]
  · unfold aw862xx_calculate_cali_data f0_cali_byte
    rw [hs]
    simp only [Option.map_some']
    rw [hrd, f0_cali_lra_in_window K _ hr]
  · intro h; omega
  · intro h; omega

/-- The reference rounding at measured 1650, nominal 1700, accuracy 24. -/
theorem cali_step_reference_1650 :
    cali_step_reference hdr0 1650 1700 = -12 := by
  unfold cali_step_reference roundHalfAway
  norm_num [hdr0]

/-- Witness for C1: measured 1650 against nominal 1700 with accuracy 24 gives
the reference step `-12`, stored as the byte `52 = 64 - 12`. -/
theorem calculate_cali_data_rounds_half_away_witness :
    (0 < (1700 : Nat) ∧ hdr0.AW862XX_F0_CALI_ACCURACY ≠ 0 ∧
      cali_step_reference hdr0 1650 1700 = -12) ∧
    aw862xx_calculate_cali_data hdr0
        { st0 with hap := { st0.hap with f0 := 1650 } }
      = some { st0 with hap := { st0.hap with f0 := 1650, f0_cali_data := 52 } } := by
  have h := calculate_cali_data_rounds_half_away hdr0
    { st0 with hap := { st0.hap with f0 := 1650 } } (by decide) (by decide) (by decide)
    (by decide)
    (by
      rw [show ({ st0 with hap := { st0.hap with f0 := 1650 } } : St).hap.f0 = 1650 from rfl,
        show ({ st0 with hap := { st0.hap with f0 := 1650 } } : St).hap.info.f0_pre = 1700
          from rfl, cali_step_reference_1650]
      decide)
  refine ⟨⟨by decide, by decide, cali_step_reference_1650⟩, ?_⟩
  rw [h.2.1]
  rw [show ({ st0 with hap := { st0.hap with f0 := 1650 } } : St).hap.f0 = 1650 from rfl,
    show ({ st0 with hap := { st0.hap with f0 := 1650 } } : St).hap.info.f0_pre = 1700
      from rfl, cali_step_reference_1650]
  rfl

/-- Counterexample to C2: with nominal 1700 and measured 3400 (accuracy 24) the
stored value is 161 when `char` is unsigned and -95 when it is signed; neither
lies in `0 .. 63`. -/
theorem cali_byte_leaves_six_bit_range :
    0 < (1700 : Nat) ∧
    (aw862xx_calculate_cali_data hdr0
        { st0 with hap := { st0.hap with f0 := 3400 } }).map (fun t => t.hap.f0_cali_data)
      = some 161 ∧
    (aw862xx_calculate_cali_data { hdr0 with CHAR_SIGNED := true }
        { st0 with hap := { st0.hap with f0 := 3400 } }).map (fun t => t.hap.f0_cali_data)
      = some (-95) ∧
    ¬ ((0 : Int) ≤ 161 ∧ (161 : Int) ≤ 63) ∧ ¬ ((0 : Int) ≤ -95 ∧ (-95 : Int) ≤ 63) := by
  refine ⟨by decide, ?_, ?_, by decide, by decide⟩ <;> rfl

/-- C2 (amended): whenever the division is defined and the rounded step value
computed by the code (`32 + r`) lies in `0 .. 63`, `aw862xx_calculate_cali_data`
stores a byte in `0 .. 63`, namely `(32 + r + 32) mod 64`.  No clamp is applied
outside that window. -/
theorem cali_byte_six_bit_in_window (K : Hdr) (s : St) (step : Int)
    (hs : f0_cali_step K s.hap.f0 s.hap.info.f0_pre = some step)
    (hw : 0 ≤ f0_cali_round step ∧ f0_cali_round step ≤ 63) :
    ∃ b : Int, aw862xx_calculate_cali_data K s
        = some { s with hap := { s.hap with f0_cali_data := b } } ∧
      b = (f0_cali_round step + 32) % 64 ∧ 0 ≤ b ∧ b ≤ 63 := by
  refine ⟨f0_cali_lra K (f0_cali_round step), ?_, ?_⟩
  · unfold aw862xx_calculate_cali_data f0_cali_byte
    rw [hs]; rfl
  · have h := f0_cali_lra_in_window K (f0_cali_round step - 32) (by omega)
    rw [show 32 + (f0_cali_round step - 32) = f0_cali_round step by ring] at h
    rw [h]
    omega

/-- Witness for C2 (amended): measured 1690 against nominal 1700. -/
theorem cali_byte_six_bit_in_window_witness :
    f0_cali_step hdr0 1690 1700 = some (-24) ∧ f0_cali_round (-24) = 30 ∧
    ∃ b : Int, aw862xx_calculate_cali_data hdr0
        { st0 with hap := { st0.hap with f0 := 1690 } }
        = some { st0 with hap := { st0.hap with f0 := 1690, f0_cali_data := b } } ∧
      b = (f0_cali_round (-24) + 32) % 64 ∧ 0 ≤ b ∧ b ≤ 63 :=
  ⟨by rfl, by decide,
    cali_byte_six_bit_in_window hdr0 { st0 with hap := { st0.hap with f0 := 1690 } } (-24)
      (by rfl) (by decide)⟩

/-- Counterexample to C3: with nominal 1700, measured 1750 and accuracy 24 the
stored byte is 12, which is not in `33 .. 63`. -/
theorem cali_byte_1750_not_in_upper_half :
    (aw862xx_calculate_cali_data hdr0 st0).map (fun t => t.hap.f0_cali_data) = some 12 ∧
    (aw862xx_calculate_cali_data { hdr0 with CHAR_SIGNED := true } st0).map
      (fun t => t.hap.f0_cali_data) = some 12 ∧
    st0.hap.f0 = 1750 ∧ st0.hap.info.f0_pre = 1700 ∧
    ¬ ((33 : Int) ≤ 12 ∧ (12 : Int) ≤ 63) := by
  refine ⟨?_, ?_, rfl, rfl, by decide⟩ <;> rfl

/-- C3 (amended): with nominal 1700 and measured 1750, for every accuracy
constant from 10 up to 1263225 (the largest for which `1700 * accuracy` fits an
`int`), `aw862xx_calculate_cali_data` stores a byte in `0 .. 30`, whatever the
signedness of `char`: a positive deviation maps into the lower half.  For the
accuracy constant 24 the byte is 12. -/
theorem cali_byte_1750_in_lower_half (K : Hdr) (s : St)
    (hacc : 10 ≤ K.AW862XX_F0_CALI_ACCURACY ∧ K.AW862XX_F0_CALI_ACCURACY ≤ 1263225)
    (hf : s.hap.f0 = 1750) (hp : s.hap.info.f0_pre = 1700) :
    ∃ b : Int, aw862xx_calculate_cali_data K s
        = some { s with hap := { s.hap with f0_cali_data := b } } ∧
      0 ≤ b ∧ b ≤ 30 ∧ (K.AW862XX_F0_CALI_ACCURACY = 24 → b = 12) := by
  have hD : (0 : Int) < 1700 * K.AW862XX_F0_CALI_ACCURACY := by omega
  have hs := f0_cali_step_exact K 1750 1700 (by decide) (by omega) (by decide)
    (by constructor <;> push_cast <;> omega)
  have hq : Int.tdiv (100000 * (((1750 : Nat) : Int) - ((1700 : Nat) : Int)))
      (((1700 : Nat) : Int) * K.AW862XX_F0_CALI_ACCURACY)
      = 5000000 / (1700 * K.AW862XX_F0_CALI_ACCURACY) := by
    rw [Int.tdiv_eq_ediv (by decide) (by push_cast; omega)]
    norm_num
  rw [hq] at hs
  have h0 : 0 ≤ 5000000 / (1700 * K.AW862XX_F0_CALI_ACCURACY) :=
    Int.ediv_nonneg (by decide) (le_of_lt hD)
  have h1 : 5000000 / (1700 * K.AW862XX_F0_CALI_ACCURACY) < 295 :=
    Int.ediv_lt_of_lt_mul hD (by omega)
  have hr := f0_cali_round_nonneg _ h0
  refine ⟨(5000000 / (1700 * K.AW862XX_F0_CALI_ACCURACY) + 5) / 10, ?_, by omega, by omega, ?_⟩
  · unfold aw862xx_calculate_cali_data f0_cali_byte
    rw [hf, hp, hs]
    simp only [Option.map_some']
    rw [hr, f0_cali_lra_in_window K _ (by omega)]
    congr 3
    omega
  · intro h24
    rw [h24]; decide

/-- Witness for C3 (amended): the sample header (accuracy 24) and the sample
context (measured 1750, nominal 1700). -/
theorem cali_byte_1750_in_lower_half_witness :
    ((10 ≤ hdr0.AW862XX_F0_CALI_ACCURACY ∧ hdr0.AW862XX_F0_CALI_ACCURACY ≤ 1263225) ∧
      st0.hap.f0 = 1750 ∧ st0.hap.info.f0_pre = 1700) ∧
    ∃ b : Int, aw862xx_calculate_cali_data hdr0 st0
        = some { st0 with hap := { st0.hap with f0_cali_data := b } } ∧
      0 ≤ b ∧ b ≤ 30 ∧ (hdr0.AW862XX_F0_CALI_ACCURACY = 24 → b = 12) :=
  ⟨⟨by decide, rfl, rfl⟩, cali_byte_1750_in_lower_half hdr0 st0 (by decide) rfl rfl⟩

/-! ## Gain lookup (C4) -/

/-- C4: `aw862xx_select_d2s_gain` is total; provided the eight encodings
`AW862XX_BIT_SYSCTRL7_D2S_GAIN_*` are pairwise distinct (as the labels of a C
`switch` must be), it maps each encoding to its multiplier, is injective on the
encodings, reaches each of the multipliers 1, 2, 4, 5, 8, 10, 20, 40, and
returns -1 (never a positive value) on every other argument. -/
theorem select_d2s_gain_bijection (K : Hdr)
    (hd : ((d2s_gain_table K).map Prod.fst).Nodup) :
    (∀ p ∈ d2s_gain_table K, aw862xx_select_d2s_gain K p.1 = p.2) ∧
    (∀ p ∈ d2s_gain_table K, ∀ q ∈ d2s_gain_table K,
      aw862xx_select_d2s_gain K p.1 = aw862xx_select_d2s_gain K q.1 → p.1 = q.1) ∧
    (∀ g ∈ ([1, 2, 4, 5, 8, 10, 20, 40] : List Int),
      ∃ p ∈ d2s_gain_table K, aw862xx_select_d2s_gain K p.1 = g) ∧
    (∀ reg : Int, (∀ p ∈ d2s_gain_table K, reg ≠ p.1) →
      aw862xx_select_d2s_gain K reg = -1) ∧
    (∀ reg : Int, aw862xx_select_d2s_gain K reg = -1 ∨
      aw862xx_select_d2s_gain K reg ∈ ([1, 2, 4, 5, 8, 10, 20, 40] : List Int)) := by
  have hdec : ∀ p ∈ d2s_gain_table K, aw862xx_select_d2s_gain K p.1 = p.2 := by
    simp only [d2s_gain_table, List.map, List.nodup_cons, List.mem_cons, List.mem_singleton,
      List.not_mem_nil, not_or, or_false] at hd
    obtain ⟨⟨h12, h13, h14, h15, h16, h17, h18⟩, ⟨h23, h24, h25, h26, h27, h28⟩,
      ⟨h34, h35, h36, h37, h38⟩, ⟨h45, h46, h47, h48⟩, ⟨h56, h57, h58⟩, ⟨h67, h68⟩, h78, -⟩ := hd
    intro p hp
    simp only [d2s_gain_table, List.mem_cons, List.mem_singleton, List.not_mem_nil,
      or_false] at hp
    unfold aw862xx_select_d2s_gain
    rcases hp with h | h | h | h | h | h | h | h <;> subst h <;>
      simp [*, Ne.symm, eq_comm]
  refine ⟨hdec, ?_, ?_, ?_, ?_⟩
  · intro p hp q hq h
    rw [hdec p hp, hdec q hq] at h
    simp only [d2s_gain_table, List.mem_cons, List.mem_singleton, List.not_mem_nil,
      or_false] at hp hq
    rcases hp with hp | hp | hp | hp | hp | hp | hp | hp <;>
      rcases hq with hq | hq | hq | hq | hq | hq | hq | hq <;>
      subst hp <;> subst hq <;> first | rfl | (exact absurd h (by norm_num))
  · intro g hg
    simp only [List.mem_cons, List.mem_singleton, List.not_mem_nil, or_false] at hg
    rcases hg with h | h | h | h | h | h | h | h <;> subst h
    · exact ⟨(K.AW862XX_BIT_SYSCTRL7_D2S_GAIN_1, 1), by simp [d2s_gain_table], hdec _ (by simp [d2s_gain_table])⟩
    · exact ⟨(K.AW862XX_BIT_SYSCTRL7_D2S_GAIN_2, 2), by simp [d2s_gain_table], hdec _ (by simp [d2s_gain_table])⟩
    · exact ⟨(K.AW862XX_BIT_SYSCTRL7_D2S_GAIN_4, 4), by simp [d2s_gain_table], hdec _ (by simp [d2s_gain_table])⟩
    · exact ⟨(K.AW862XX_BIT_SYSCTRL7_D2S_GAIN_5, 5), by simp [d2s_gain_table], hdec _ (by simp [d2s_gain_table])⟩
    · exact ⟨(K.AW862XX_BIT_SYSCTRL7_D2S_GAIN_8, 8), by simp [d2s_gain_table], hdec _ (by simp [d2s_gain_table])⟩
    · exact ⟨(K.AW862XX_BIT_SYSCTRL7_D2S_GAIN_10, 10), by simp [d2s_gain_table], hdec _ (by simp [d2s_gain_table])⟩
    · exact ⟨(K.AW862XX_BIT_SYSCTRL7_D2S_GAIN_20, 20), by simp [d2s_gain_table], hdec _ (by simp [d2s_gain_table])⟩
    · exact ⟨(K.AW862XX_BIT_SYSCTRL7_D2S_GAIN_40, 40), by simp [d2s_gain_table], hdec _ (by simp [d2s_gain_table])⟩
  · intro reg hreg
    simp only [d2s_gain_table, List.mem_cons, List.mem_singleton, List.not_mem_nil, or_false,
      forall_eq_or_imp, forall_eq] at hreg
    unfold aw862xx_select_d2s_gain
    simp [hreg]
  · intro reg
    unfold aw862xx_select_d2s_gain
    split_ifs <;> simp

/-- Witness for C4: the sample encodings 0 .. 7 are pairwise distinct, and the
encoding 3 decodes to the multiplier 5. -/
theorem select_d2s_gain_bijection_witness :
    ((d2s_gain_table hdr0).map Prod.fst).Nodup ∧
    aw862xx_select_d2s_gain hdr0 3 = 5 ∧ aw862xx_select_d2s_gain hdr0 8 = -1 :=
  ⟨by decide,
    (select_d2s_gain_bijection hdr0 (by decide)).1 (3, 5) (by decide),
    (select_d2s_gain_bijection hdr0 (by decide)).2.2.2.1 8 (by decide)⟩

/-! ## Stop sequence (C5, C6) -/

theorem play_stop_poll_hap (K : Hdr) (inp : Nat → Nat) (n : Nat) (s : St) :
    (play_stop_poll K inp n s).2.hap = s.hap := by
  induction n generalizing s with
  | zero => rfl
  | succ n ih =>
    rw [play_stop_poll]
    by_cases hb : reports_standby K (busByte inp s.pos) = true
    · simp [hb, read_byte]
    · simp [hb, ih, read_byte]

theorem play_stop_hap (K : Hdr) (inp : Nat → Nat) (s : St) :
    (aw862xx_play_stop K inp s).hap = { s.hap with play_mode := K.AW_STANDBY_MODE } := by
  unfold aw862xx_play_stop
  simp only []
  split_ifs <;>
    simp [haptic_nv_i2c_write_bits, haptic_nv_i2c_writes, play_stop_poll_hap]

theorem play_stop_busy (K : Hdr) (inp : Nat → Nat) (s : St)
    (h : ∀ i, i < 40 → reports_standby K (busByte inp (s.pos + i)) = false) :
    aw862xx_play_stop K inp s =
      { hap := { s.hap with play_mode := K.AW_STANDBY_MODE },
        pos := s.pos + 40,
        trace := s.trace ++ [Ev.writes K.AW862XX_REG_PLAYCFG4 [toU8 K.AW862XX_BIT_PLAYCFG4_STOP_ON]]
          ++ poll_reads K inp s.pos 40 ++ forced_idle_ops K } := by
  unfold aw862xx_play_stop
  simp only []
  rw [play_stop_poll_busy]
  · simp [haptic_nv_i2c_write_bits, haptic_nv_i2c_writes, forced_idle_ops]
  · exact h

theorem play_stop_hit (K : Hdr) (inp : Nat → Nat) (s : St) (j : Nat) (hj : j < 40)
    (hs : reports_standby K (busByte inp (s.pos + j)) = true)
    (h : ∀ i, i < j → reports_standby K (busByte inp (s.pos + i)) = false) :
    aw862xx_play_stop K inp s =
      { hap := { s.hap with play_mode := K.AW_STANDBY_MODE },
        pos := s.pos + (j + 1),
        trace := s.trace ++ [Ev.writes K.AW862XX_REG_PLAYCFG4 [toU8 K.AW862XX_BIT_PLAYCFG4_STOP_ON]]
          ++ poll_reads K inp s.pos (j + 1) } := by
  unfold aw862xx_play_stop
  simp only []
  rw [play_stop_poll_hit K inp 40 _ j hj]
  · simp [haptic_nv_i2c_writes]
  · exact hs
  · exact h

/-- Counterexample to C5: on a bus that never reports standby the two masked
writes come in the order standby ON, then standby OFF. -/
theorem play_stop_forced_order_example :
    (∀ i, i < 40 → reports_standby hdr0 (busByte (fun _ => 1) (st0.pos + i)) = false) ∧
    (aw862xx_play_stop hdr0 (fun _ => 1) st0).trace.drop 41
      = [Ev.write_bits hdr0.AW862XX_REG_SYSCTRL2 hdr0.AW862XX_BIT_SYSCTRL2_STANDBY_MASK
           hdr0.AW862XX_BIT_SYSCTRL2_STANDBY_ON,
         Ev.write_bits hdr0.AW862XX_REG_SYSCTRL2 hdr0.AW862XX_BIT_SYSCTRL2_STANDBY_MASK
           hdr0.AW862XX_BIT_SYSCTRL2_STANDBY_OFF] ∧
    (aw862xx_play_stop hdr0 (fun _ => 1) st0).trace.drop 41
      ≠ [Ev.write_bits hdr0.AW862XX_REG_SYSCTRL2 hdr0.AW862XX_BIT_SYSCTRL2_STANDBY_MASK
           hdr0.AW862XX_BIT_SYSCTRL2_STANDBY_OFF,
         Ev.write_bits hdr0.AW862XX_REG_SYSCTRL2 hdr0.AW862XX_BIT_SYSCTRL2_STANDBY_MASK
           hdr0.AW862XX_BIT_SYSCTRL2_STANDBY_ON] := by
  have hb : ∀ i, i < 40 → reports_standby hdr0 (busByte (fun _ => 1) (st0.pos + i)) = false :=
    fun _ _ => by simp only [busByte]; decide
  refine ⟨hb, ?_, ?_⟩
  · rw [play_stop_busy hdr0 _ st0 hb]; rfl
  · rw [play_stop_busy hdr0 _ st0 hb]; decide

/-- C5 (amended): when none of the 40 polled reads of the global state reports
standby, `aw862xx_play_stop` writes the stop command, performs the 40 reads,
and then forces idle with exactly two masked writes to the standby bit of
`SYSCTRL2`, first standby ON, then standby OFF; it then returns (the function
is `void`), with `play_mode` set to standby. -/
theorem play_stop_forces_on_then_off (K : Hdr) (inp : Nat → Nat) (s : St)
    (h : ∀ i, i < 40 → reports_standby K (busByte inp (s.pos + i)) = false) :
    aw862xx_play_stop K inp s =
      { hap := { s.hap with play_mode := K.AW_STANDBY_MODE },
        pos := s.pos + 40,
        trace := s.trace ++ [Ev.writes K.AW862XX_REG_PLAYCFG4 [toU8 K.AW862XX_BIT_PLAYCFG4_STOP_ON]]
          ++ poll_reads K inp s.pos 40
          ++ [Ev.write_bits K.AW862XX_REG_SYSCTRL2 K.AW862XX_BIT_SYSCTRL2_STANDBY_MASK
                K.AW862XX_BIT_SYSCTRL2_STANDBY_ON,
              Ev.write_bits K.AW862XX_REG_SYSCTRL2 K.AW862XX_BIT_SYSCTRL2_STANDBY_MASK
                K.AW862XX_BIT_SYSCTRL2_STANDBY_OFF] } :=
  play_stop_busy K inp s h

/-- Witness for C5 (amended): a bus that answers every read with 1. -/
theorem play_stop_forces_on_then_off_witness :
    (∀ i, i < 40 → reports_standby hdr0 (busByte (fun _ => 1) (st0.pos + i)) = false) ∧
    (aw862xx_play_stop hdr0 (fun _ => 1) st0).trace.length = 43 ∧
    (aw862xx_play_stop hdr0 (fun _ => 1) st0).hap.play_mode = 0 := by
  have h := play_stop_forces_on_then_off hdr0 (fun _ => 1) st0
    (fun _ _ => by simp only [busByte]; decide)
  refine ⟨fun _ _ => by simp only [busByte]; decide, ?_, ?_⟩
  · rw [h]; rfl
  · rw [h]; rfl

/-- C6: `aw862xx_play_stop` is total.  It sets `play_mode` to standby, writes
`STOP_ON` to `PLAYCFG4` and then either (a) all of its 40 reads of `GLBRD5` are
non-standby and it ends with the forced-idle writes, or (b) it stops at the
first read `j < 40` reporting standby, after `j + 1` reads, without the forced
writes.  The forced-idle writes end the trace exactly when all 40 reads are
non-standby. -/
theorem play_stop_terminates (K : Hdr) (inp : Nat → Nat) (s : St) :
    (aw862xx_play_stop K inp s).hap = { s.hap with play_mode := K.AW_STANDBY_MODE } ∧
    (((∀ i, i < 40 → reports_standby K (busByte inp (s.pos + i)) = false) ∧
        (aw862xx_play_stop K inp s).pos = s.pos + 40 ∧
        (aw862xx_play_stop K inp s).trace =
          s.trace ++ [Ev.writes K.AW862XX_REG_PLAYCFG4 [toU8 K.AW862XX_BIT_PLAYCFG4_STOP_ON]]
            ++ poll_reads K inp s.pos 40 ++ forced_idle_ops K) ∨
      (∃ j, j < 40 ∧ reports_standby K (busByte inp (s.pos + j)) = true ∧
        (∀ i, i < j → reports_standby K (busByte inp (s.pos + i)) = false) ∧
        (aw862xx_play_stop K inp s).pos = s.pos + (j + 1) ∧
        (aw862xx_play_stop K inp s).trace =
          s.trace ++ [Ev.writes K.AW862XX_REG_PLAYCFG4 [toU8 K.AW862XX_BIT_PLAYCFG4_STOP_ON]]
            ++ poll_reads K inp s.pos (j + 1))) ∧
    ((∃ t, (aw862xx_play_stop K inp s).trace = t ++ forced_idle_ops K) ↔
      ∀ i, i < 40 → reports_standby K (busByte inp (s.pos + i)) = false) := by
  refine ⟨play_stop_hap K inp s, ?_, ?_⟩
  · rcases first_standby_or_none K inp s.pos 40 with hall | ⟨j, hj, hs, hb⟩
    · left
      rw [play_stop_busy K inp s hall]
      exact ⟨hall, rfl, rfl⟩
    · right
      rw [play_stop_hit K inp s j hj hs hb]
      exact ⟨j, hj, hs, hb, rfl, rfl⟩
  · constructor
    · rintro ⟨t, ht⟩
      rcases first_standby_or_none K inp s.pos 40 with hall | ⟨j, hj, hs, hb⟩
      · exact hall
      · exfalso
        rw [play_stop_hit K inp s j hj hs hb] at ht
        simp only [poll_reads_succ_right, forced_idle_ops] at ht
        have h2 : (s.trace ++ [Ev.writes K.AW862XX_REG_PLAYCFG4
              [toU8 K.AW862XX_BIT_PLAYCFG4_STOP_ON]] ++ poll_reads K inp s.pos j)
            ++ [Ev.reads K.AW862XX_REG_GLBRD5 [busByte inp (s.pos + j)]]
            = (t ++ [Ev.write_bits K.AW862XX_REG_SYSCTRL2 K.AW862XX_BIT_SYSCTRL2_STANDBY_MASK
                K.AW862XX_BIT_SYSCTRL2_STANDBY_ON])
              ++ [Ev.write_bits K.AW862XX_REG_SYSCTRL2 K.AW862XX_BIT_SYSCTRL2_STANDBY_MASK
                K.AW862XX_BIT_SYSCTRL2_STANDBY_OFF] := by
          simpa [List.append_assoc] using ht
        have h3 := (List.append_inj' h2 rfl).2
        simp at h3
    · intro hall
      rw [play_stop_busy K inp s hall]
      exact ⟨_, rfl⟩

/-! ## Resonance frequency detection (C7, C8) -/

theorem set_pwm_hap (K : Hdr) (s : St) (m : Int) : (aw862xx_set_pwm K s m).hap = s.hap := by
  unfold aw862xx_set_pwm
  split_ifs <;> rfl

theorem auto_brk_config_hap (K : Hdr) (s : St) (b : Bool) :
    (aw862xx_auto_brk_config K s b).hap = s.hap := by
  unfold aw862xx_auto_brk_config
  split_ifs <;> rfl

theorem play_mode_hap_info (K : Hdr) (inp : Nat → Nat) (s : St) (m : Int) :
    (aw862xx_play_mode K inp s m).hap.info = s.hap.info ∧
    (aw862xx_play_mode K inp s m).hap.f0 = s.hap.f0 ∧
    (aw862xx_play_mode K inp s m).hap.lra = s.hap.lra := by
  unfold aw862xx_play_mode
  split_ifs <;>
    simp [haptic_nv_i2c_write_bits, set_pwm_hap, auto_brk_config_hap, play_stop_hap,
      set_play_mode]

theorem get_f0_prepare_hap (K : Hdr) (inp : Nat → Nat) (s : St) :
    (get_f0_prepare K inp s).2.hap.info = s.hap.info ∧
    (get_f0_prepare K inp s).2.hap.f0 = s.hap.info.f0_pre := by
  unfold get_f0_prepare
  simp only []
  split_ifs <;>
    simp [haptic_nv_i2c_write_bits, haptic_nv_i2c_writes, read_byte, play_mode_hap_info,
      play_stop_hap]

theorem get_f0_go_hap (K : Hdr) (inp : Nat → Nat) (s : St) :
    (get_f0_go K inp s).hap = s.hap := by
  simp [get_f0_go, aw862xx_play_go, aw862xx_get_glb_state, read_byte, haptic_nv_i2c_writes]

theorem get_f0_zero_pre (K : Hdr) (inp : Nat → Nat) (s : St) (h : s.hap.info.f0_pre = 0) :
    aw862xx_get_f0 K inp s = (-K.ERANGE, (get_f0_prepare K inp s).2) := by
  unfold aw862xx_get_f0
  simp only []
  rw [if_pos (by rw [(get_f0_prepare_hap K inp s).1]; exact h)]

theorem get_f0_busy (K : Hdr) (inp : Nat → Nat) (s : St) (h : s.hap.info.f0_pre ≠ 0)
    (hb : ∀ i, i < 200 →
      reports_standby K (busByte inp ((get_f0_poll_start K inp s).pos + i)) = false) :
    aw862xx_get_f0 K inp s =
      (-K.ERANGE,
        get_f0_finish K
          { get_f0_poll_start K inp s with
            pos := (get_f0_poll_start K inp s).pos + 200,
            trace := (get_f0_poll_start K inp s).trace
              ++ poll_reads K inp (get_f0_poll_start K inp s).pos 200 }
          (get_f0_prepare K inp s).1) := by
  unfold aw862xx_get_f0
  simp only []
  have e : get_f0_go K inp (get_f0_prepare K inp s).2 = get_f0_poll_start K inp s := rfl
  rw [if_neg (by rw [(get_f0_prepare_hap K inp s).1]; exact h), get_f0_poll_eq, e,
    play_stop_poll_busy K inp 200 _ hb]
  simp

theorem get_f0_hit (K : Hdr) (inp : Nat → Nat) (s : St) (h : s.hap.info.f0_pre ≠ 0)
    (j : Nat) (hj : j < 200)
    (hs : reports_standby K (busByte inp ((get_f0_poll_start K inp s).pos + j)) = true)
    (hb : ∀ i, i < j →
      reports_standby K (busByte inp ((get_f0_poll_start K inp s).pos + i)) = false) :
    aw862xx_get_f0 K inp s =
      ((aw862xx_read_lra_f0 K inp
          { get_f0_poll_start K inp s with
            pos := (get_f0_poll_start K inp s).pos + (j + 1),
            trace := (get_f0_poll_start K inp s).trace
              ++ poll_reads K inp (get_f0_poll_start K inp s).pos (j + 1) }).1,
        get_f0_finish K
          (aw862xx_read_cont_f0 K inp
            (aw862xx_read_lra_f0 K inp
              { get_f0_poll_start K inp s with
                pos := (get_f0_poll_start K inp s).pos + (j + 1),
                trace := (get_f0_poll_start K inp s).trace
                  ++ poll_reads K inp (get_f0_poll_start K inp s).pos (j + 1) }).2)
          (get_f0_prepare K inp s).1) := by
  unfold aw862xx_get_f0
  simp only []
  have e : get_f0_go K inp (get_f0_prepare K inp s).2 = get_f0_poll_start K inp s := rfl
  rw [if_neg (by rw [(get_f0_prepare_hap K inp s).1]; exact h), get_f0_poll_eq, e,
    play_stop_poll_hit K inp 200 _ j hj hs hb]
  simp

theorem read_lra_f0_ret (K : Hdr) (inp : Nat → Nat) (s : St) :
    (aw862xx_read_lra_f0 K inp s).1 =
      if f0_reg_of (busByte inp s.pos) (busByte inp (s.pos + 1)) = 0 then -K.ERANGE else 0 := by
  unfold aw862xx_read_lra_f0 haptic_nv_i2c_reads
  simp only [List.range_succ, List.range_zero, List.nil_append, List.map_cons, List.map_nil,
    List.getD_cons_zero, List.getD_cons_succ, List.cons_append, Nat.add_zero]
  split_ifs <;> rfl

theorem read_lra_f0_trace (K : Hdr) (inp : Nat → Nat) (s : St) :
    (aw862xx_read_lra_f0 K inp s).2.trace =
      s.trace ++ [Ev.reads K.AW862XX_REG_CONTRD14 [busByte inp s.pos, busByte inp (s.pos + 1)]] ∧
    (aw862xx_read_lra_f0 K inp s).2.pos = s.pos + 2 := by
  unfold aw862xx_read_lra_f0 haptic_nv_i2c_reads
  simp only [List.range_succ, List.range_zero, List.nil_append, List.map_cons, List.map_nil,
    List.getD_cons_zero, List.getD_cons_succ, List.cons_append, Nat.add_zero]
  split_ifs <;> exact ⟨rfl, rfl⟩

theorem read_cont_f0_trace (K : Hdr) (inp : Nat → Nat) (s : St) :
    (aw862xx_read_cont_f0 K inp s).trace =
      s.trace ++ [Ev.reads K.AW862XX_REG_CONTRD16 [busByte inp s.pos, busByte inp (s.pos + 1)]] := by
  unfold aw862xx_read_cont_f0 haptic_nv_i2c_reads
  simp only [List.range_succ, List.range_zero, List.nil_append, List.map_cons, List.map_nil,
    List.getD_cons_zero, List.getD_cons_succ, List.cons_append, Nat.add_zero]
  split_ifs <;> rfl

theorem get_f0_finish_trace (K : Hdr) (s : St) (brk : Int) :
    (get_f0_finish K s brk).trace = s.trace ++ get_f0_finish_ops K brk ∧
    (get_f0_finish K s brk).hap = s.hap := ⟨by simp [get_f0_finish, get_f0_finish_ops,
      haptic_nv_i2c_write_bits], rfl⟩


theorem get_f0_busy_result (K : Hdr) (inp : Nat → Nat) (s : St) (hpre : s.hap.info.f0_pre ≠ 0)
    (hb : ∀ i, i < 200 →
      reports_standby K (busByte inp ((get_f0_poll_start K inp s).pos + i)) = false) :
    (aw862xx_get_f0 K inp s).1 = -K.ERANGE ∧
    (aw862xx_get_f0 K inp s).2.hap.f0 = s.hap.info.f0_pre := by
  rw [get_f0_busy K inp s hpre hb]
  refine ⟨rfl, ?_⟩
  simp only [(get_f0_finish_trace K _ _).2]
  show (get_f0_poll_start K inp s).hap.f0 = _
  rw [get_f0_poll_start, get_f0_go_hap, (get_f0_prepare_hap K inp s).2]

/-- Counterexample to C7: the cached frequency is 1750 before the call, the
nominal frequency is 1700 and the bus never reports standby; the call returns
`-ERANGE` and the cached frequency is 1700 afterwards. -/
theorem get_f0_timeout_overwrites_f0 :
    st0.hap.info.f0_pre ≠ 0 ∧
    (∀ i, i < 200 → reports_standby hdr0
      (busByte (fun _ => 1) ((get_f0_poll_start hdr0 (fun _ => 1) st0).pos + i)) = false) ∧
    (aw862xx_get_f0 hdr0 (fun _ => 1) st0).1 = -34 ∧
    st0.hap.f0 = 1750 ∧
    (aw862xx_get_f0 hdr0 (fun _ => 1) st0).2.hap.f0 = 1700 ∧
    (aw862xx_get_f0 hdr0 (fun _ => 1) st0).2.hap.f0 ≠ st0.hap.f0 := by
  have hp : st0.hap.info.f0_pre ≠ 0 := by decide
  have hb : ∀ i, i < 200 → reports_standby hdr0
      (busByte (fun _ => 1) ((get_f0_poll_start hdr0 (fun _ => 1) st0).pos + i)) = false :=
    fun _ _ => by simp only [busByte]; decide
  have h := get_f0_busy_result hdr0 (fun _ => 1) st0 hp hb
  refine ⟨hp, hb, h.1, rfl, h.2, ?_⟩
  rw [h.2]; decide

/-- C7 (amended): if `f0_pre` is non-zero and none of the 200 polls of the
global state reports standby, `aw862xx_get_f0` returns `-ERANGE` and the cached
resonance frequency `aw_haptic->f0` after the call equals the nominal value
`info.f0_pre`, to which the function sets it on entry (the value cached before
the call is not kept). -/
theorem get_f0_timeout_sets_nominal (K : Hdr) (inp : Nat → Nat) (s : St)
    (hpre : s.hap.info.f0_pre ≠ 0)
    (hb : ∀ i, i < 200 →
      reports_standby K (busByte inp ((get_f0_poll_start K inp s).pos + i)) = false) :
    (aw862xx_get_f0 K inp s).1 = -K.ERANGE ∧
    (aw862xx_get_f0 K inp s).2.hap.f0 = s.hap.info.f0_pre :=
  get_f0_busy_result K inp s hpre hb

/-- Witness for C7 (amended): a bus that answers every read with 2. -/
theorem get_f0_timeout_sets_nominal_witness :
    (st0.hap.info.f0_pre ≠ 0 ∧
      ∀ i, i < 200 → reports_standby hdr0
        (busByte (fun _ => 2) ((get_f0_poll_start hdr0 (fun _ => 2) st0).pos + i)) = false) ∧
    (aw862xx_get_f0 hdr0 (fun _ => 2) st0).1 = -34 ∧
    (aw862xx_get_f0 hdr0 (fun _ => 2) st0).2.hap.f0 = 1700 :=
  ⟨⟨by decide, fun _ _ => by simp only [busByte]; decide⟩,
    get_f0_timeout_sets_nominal hdr0 (fun _ => 2) st0 (by decide)
      (fun _ _ => by simp only [busByte]; decide)⟩

/-- C8: `aw862xx_get_f0` is total and returns `0` or `-ERANGE`.  It returns `0`
exactly when `f0_pre` is non-zero, one of its at most 200 polling reads of
`GLBRD5` reports standby, and the 16 bit code assembled from the two bytes read
from `CONTRD14` right after the first such read is non-zero.  When `f0_pre` is
zero it returns before polling; otherwise the bus traffic after the start of
the loop consists of `k <= 200` polling reads followed either by the two final
masked writes, or by the reads of `CONTRD14` and `CONTRD16` and the two final
masked writes. -/
theorem get_f0_result (K : Hdr) (inp : Nat → Nat) (s : St) (hE : K.ERANGE ≠ 0) :
    ((aw862xx_get_f0 K inp s).1 = 0 ∨ (aw862xx_get_f0 K inp s).1 = -K.ERANGE) ∧
    ((aw862xx_get_f0 K inp s).1 = 0 ↔
      s.hap.info.f0_pre ≠ 0 ∧
      ∃ j, j < 200 ∧
        reports_standby K (busByte inp ((get_f0_poll_start K inp s).pos + j)) = true ∧
        (∀ i, i < j →
          reports_standby K (busByte inp ((get_f0_poll_start K inp s).pos + i)) = false) ∧
        f0_reg_of (busByte inp ((get_f0_poll_start K inp s).pos + (j + 1)))
          (busByte inp ((get_f0_poll_start K inp s).pos + (j + 1) + 1)) ≠ 0) ∧
    ((s.hap.info.f0_pre = 0 ∧ (aw862xx_get_f0 K inp s).2 = (get_f0_prepare K inp s).2) ∨
      (s.hap.info.f0_pre ≠ 0 ∧ ∃ k, k ≤ 200 ∧
        ((aw862xx_get_f0 K inp s).2.trace =
            (get_f0_poll_start K inp s).trace
              ++ poll_reads K inp (get_f0_poll_start K inp s).pos k
              ++ get_f0_finish_ops K (get_f0_prepare K inp s).1 ∨
          (aw862xx_get_f0 K inp s).2.trace =
            (get_f0_poll_start K inp s).trace
              ++ poll_reads K inp (get_f0_poll_start K inp s).pos k
              ++ [Ev.reads K.AW862XX_REG_CONTRD14
                    [busByte inp ((get_f0_poll_start K inp s).pos + k),
                     busByte inp ((get_f0_poll_start K inp s).pos + k + 1)],
                  Ev.reads K.AW862XX_REG_CONTRD16
                    [busByte inp ((get_f0_poll_start K inp s).pos + k + 2),
                     busByte inp ((get_f0_poll_start K inp s).pos + k + 2 + 1)]]
              ++ get_f0_finish_ops K (get_f0_prepare K inp s).1))) := by
  have hE' : -K.ERANGE ≠ 0 := neg_ne_zero.mpr hE
  by_cases hpre : s.hap.info.f0_pre = 0
  · have h := get_f0_zero_pre K inp s hpre
    rw [h]
    refine ⟨Or.inr rfl, ?_, Or.inl ⟨hpre, rfl⟩⟩
    constructor
    · intro h0; exact absurd h0 hE'
    · rintro ⟨h1, -⟩; exact absurd hpre h1
  · rcases first_standby_or_none K inp (get_f0_poll_start K inp s).pos 200 with
      hall | ⟨j, hj, hs, hb⟩
    · have h := get_f0_busy K inp s hpre hall
      rw [h]
      refine ⟨Or.inr rfl, ?_, Or.inr ⟨hpre, 200, le_refl _, Or.inl ?_⟩⟩
      · constructor
        · intro h0; exact absurd h0 hE'
        · rintro ⟨-, j, hj, hs, -, -⟩
          rw [hall j hj] at hs
          exact absurd hs (by decide)
      · simp only [(get_f0_finish_trace K _ _).1]
    · have h := get_f0_hit K inp s hpre j hj hs hb
      rw [h]
      simp only [read_lra_f0_ret]
      refine ⟨?_, ?_, Or.inr ⟨hpre, j + 1, hj, Or.inr ?_⟩⟩
      · split_ifs
        · exact Or.inr rfl
        · exact Or.inl rfl
      · constructor
        · intro h0
          refine ⟨hpre, j, hj, hs, hb, ?_⟩
          intro hz
          rw [if_pos hz] at h0
          exact absurd h0 hE'
        · rintro ⟨-, j', hj', hs', hb', hz'⟩
          have hjj : j' = j := by
            rcases Nat.lt_trichotomy j' j with hlt | heq | hgt
            · rw [hb j' hlt] at hs'; exact absurd hs' (by decide)
            · exact heq
            · rw [hb' j hgt] at hs; exact absurd hs (by decide)
          subst hjj
          rw [if_neg hz']
      · simp only [(get_f0_finish_trace K _ _).1, read_cont_f0_trace,
          (read_lra_f0_trace K inp _).1, (read_lra_f0_trace K inp _).2]
        simp [List.append_assoc, Nat.add_assoc]

/-- Witness for C8: the sample header has `ERANGE = 34`; on a bus whose byte 50
is the first to report standby (polling starts at byte 42) the code read from
`CONTRD14` is `0x0101` and the call returns 0. -/
theorem get_f0_result_witness :
    hdr0.ERANGE ≠ 0 ∧
    (get_f0_poll_start hdr0 (fun i => if i = 50 then 0 else 1) st0).pos = 42 ∧
    (aw862xx_get_f0 hdr0 (fun i => if i = 50 then 0 else 1) st0).1 = 0 := by
  have hp : (get_f0_poll_start hdr0 (fun i => if i = 50 then 0 else 1) st0).pos = 42 := by
    rfl
  refine ⟨by decide, hp, ?_⟩
  refine (get_f0_result hdr0 (fun i => if i = 50 then 0 else 1) st0 (by decide)).2.1.mpr
    ⟨by decide, 8, by decide, ?_, ?_, ?_⟩
  · rw [hp]; decide
  · intro i hi
    rw [hp]
    interval_cases i <;> decide
  · rw [hp]; decide

/-! ## Coil resistance and offset calibration (C9, C10) -/

theorem select_d2s_gain_invalid (K : Hdr) (reg : Int)
    (h : ∀ p ∈ d2s_gain_table K, reg ≠ p.1) : aw862xx_select_d2s_gain K reg = -1 := by
  simp only [d2s_gain_table, List.mem_cons, List.mem_singleton, List.not_mem_nil, or_false,
    forall_eq_or_imp, forall_eq] at h
  unfold aw862xx_select_d2s_gain
  simp [h]

theorem select_d2s_gain_valid_iff (K : Hdr) (reg : Int) :
    ¬ aw862xx_select_d2s_gain K reg < 0 ↔ ∃ p ∈ d2s_gain_table K, reg = p.1 := by
  constructor
  · intro h
    by_contra hne
    have hall : ∀ p ∈ d2s_gain_table K, reg ≠ p.1 := fun p hp he => hne ⟨p, hp, he⟩
    rw [select_d2s_gain_invalid K reg hall] at h
    exact h (by decide)
  · rintro ⟨p, hp, he⟩
    simp only [d2s_gain_table, List.mem_cons, List.mem_singleton, List.not_mem_nil,
      or_false] at hp
    unfold aw862xx_select_d2s_gain
    split_ifs <;> first | decide | skip
    rcases hp with h | h | h | h | h | h | h | h <;> subst h <;> simp_all

/-- Counterexample to C9: with the gain code 9 (not one of the eight
encodings) on a bus answering 0, the stop command is written before the
initial read of `SYSCTRL7`, and the masked write of the code 9 to `SYSCTRL7`
follows that read. -/
theorem get_lra_resistance_writes_invalid_gain :
    aw862xx_select_d2s_gain hdr0
      (toU8 (({ st0.hap.info with d2s_gain := 9 } : aw_haptic_dts_info).d2s_gain)) = -1 ∧
    (aw862xx_get_lra_resistance hdr0 (fun _ => 0)
        { st0 with hap := { st0.hap with info := { st0.hap.info with d2s_gain := 9 } } }).trace
      = [Ev.writes hdr0.AW862XX_REG_PLAYCFG4 [2], Ev.reads hdr0.AW862XX_REG_GLBRD5 [0],
         Ev.reads hdr0.AW862XX_REG_SYSCTRL7 [0],
         Ev.write_bits hdr0.AW862XX_REG_SYSCTRL7 hdr0.AW862XX_BIT_SYSCTRL7_D2S_GAIN_MASK 9] := by
  constructor
  · decide
  · rfl

/-- C9 (amended): when `info.d2s_gain` (as a byte) is not one of the eight
valid encodings, `aw862xx_get_lra_resistance` returns without starting a
measurement: after the stop sequence and the initial read of `SYSCTRL7` it
issues at most one further bus operation, and any such operation is a masked
write to the gain field of `SYSCTRL7`; in particular it never writes `RAMINIT`,
the standby bit or the detection registers and never reads `DET_RL` or
`DET_LO`.  The device context is unchanged apart from `play_mode` (set by the
stop sequence), so the cached resistance `lra` is kept.  The function is
`void`: nothing is reported to the caller. -/
theorem get_lra_resistance_invalid_gain (K : Hdr) (inp : Nat → Nat) (s : St)
    (hbad : ∀ p ∈ d2s_gain_table K, toU8 s.hap.info.d2s_gain ≠ p.1) :
    (aw862xx_get_lra_resistance K inp s).hap
        = { s.hap with play_mode := K.AW_STANDBY_MODE } ∧
    (aw862xx_get_lra_resistance K inp s).hap.lra = s.hap.lra ∧
    (aw862xx_get_lra_resistance K inp s).pos = (aw862xx_play_stop K inp s).pos + 1 ∧
    ∃ rest : List Ev,
      (aw862xx_get_lra_resistance K inp s).trace
        = (aw862xx_play_stop K inp s).trace
          ++ [Ev.reads K.AW862XX_REG_SYSCTRL7 [busByte inp (aw862xx_play_stop K inp s).pos]]
          ++ rest ∧
      rest.length ≤ 1 ∧
      ∀ e ∈ rest, ∃ d : Int,
        e = Ev.write_bits K.AW862XX_REG_SYSCTRL7 K.AW862XX_BIT_SYSCTRL7_D2S_GAIN_MASK d := by
  have hinfo : (aw862xx_play_stop K inp s).hap.info = s.hap.info := by
    rw [play_stop_hap]
  have hsel : aw862xx_select_d2s_gain K (toU8 (aw862xx_play_stop K inp s).hap.info.d2s_gain)
      = -1 := by
    rw [hinfo]; exact select_d2s_gain_invalid K _ hbad
  have hres : aw862xx_get_lra_resistance K inp s
      = haptic_nv_i2c_write_bits (read_byte inp (aw862xx_play_stop K inp s)
            K.AW862XX_REG_SYSCTRL7).2 K.AW862XX_REG_SYSCTRL7
          K.AW862XX_BIT_SYSCTRL7_D2S_GAIN_MASK
          (aw862xx_play_stop K inp s).hap.info.d2s_gain := by
    unfold aw862xx_get_lra_resistance
    simp only []
    rw [if_pos]
    · rfl
    · show aw862xx_select_d2s_gain K (toU8 (aw862xx_play_stop K inp s).hap.info.d2s_gain) ≤ 0
      rw [hsel]; decide
  rw [hres]
  refine ⟨?_, ?_, rfl, ?_⟩
  · show (aw862xx_play_stop K inp s).hap = _
    rw [play_stop_hap]
  · show (aw862xx_play_stop K inp s).hap.lra = _
    rw [play_stop_hap]
  · refine ⟨[Ev.write_bits K.AW862XX_REG_SYSCTRL7 K.AW862XX_BIT_SYSCTRL7_D2S_GAIN_MASK
        (aw862xx_play_stop K inp s).hap.info.d2s_gain], ?_, by simp, ?_⟩
    · simp [haptic_nv_i2c_write_bits, read_byte]
    · intro e he
      exact ⟨_, List.mem_singleton.mp he⟩

/-- Witness for C9 (amended): the gain code 9 under the sample header. -/
theorem get_lra_resistance_invalid_gain_witness :
    (∀ p ∈ d2s_gain_table hdr0, toU8 (9 : Nat) ≠ p.1) ∧
    (aw862xx_get_lra_resistance hdr0 (fun _ => 0)
        { st0 with hap := { st0.hap with info := { st0.hap.info with d2s_gain := 9 } } }).hap.lra
      = st0.hap.lra :=
  ⟨by decide,
    (get_lra_resistance_invalid_gain hdr0 (fun _ => 0)
      { st0 with hap := { st0.hap with info := { st0.hap.info with d2s_gain := 9 } } }
      (by decide)).2.1⟩

/-- C10: `aw862xx_offset_cali` is total and returns `0` or `-ERANGE`; it returns
`0` exactly when the gain field of the byte read from `SYSCTRL7` is one of the
eight encodings and the converted offset `AW862XX_OS_FORMULA(code, gain)` lies
in `-15 .. 15`, where `gain` is the decoded multiplier and
`code = (DET_OS << 2) | ((DET_LO & ~AW862XX_BIT_DET_LO_OS_MASK) >> 2)` is built
from the two bytes read next. -/
theorem offset_cali_result (K : Hdr) (inp : Nat → Nat) (s : St) (hE : K.ERANGE ≠ 0) :
    ((aw862xx_offset_cali K inp s).1 = 0 ∨ (aw862xx_offset_cali K inp s).1 = -K.ERANGE) ∧
    ((aw862xx_offset_cali K inp s).1 = 0 ↔
      (∃ p ∈ d2s_gain_table K, offset_cali_gain_field K (busByte inp s.pos) = p.1) ∧
      -15 ≤ K.AW862XX_OS_FORMULA
          (Int.lor (shl (busByte inp (s.pos + 1)) 2)
            (shr (Int.land (busByte inp (s.pos + 1 + 1))
              (Int.not K.AW862XX_BIT_DET_LO_OS_MASK)) 2))
          (aw862xx_select_d2s_gain K (offset_cali_gain_field K (busByte inp s.pos))) ∧
      K.AW862XX_OS_FORMULA
          (Int.lor (shl (busByte inp (s.pos + 1)) 2)
            (shr (Int.land (busByte inp (s.pos + 1 + 1))
              (Int.not K.AW862XX_BIT_DET_LO_OS_MASK)) 2))
          (aw862xx_select_d2s_gain K (offset_cali_gain_field K (busByte inp s.pos))) ≤ 15) := by
  have hE' : -K.ERANGE ≠ 0 := neg_ne_zero.mpr hE
  have hv := select_d2s_gain_valid_iff K (offset_cali_gain_field K (busByte inp s.pos))
  unfold aw862xx_offset_cali
  simp only [read_byte, aw862xx_raminit, haptic_nv_i2c_write_bits, if_true, Bool.false_eq_true,
    if_false, offset_cali_code]
  by_cases hg : aw862xx_select_d2s_gain K (offset_cali_gain_field K (busByte inp s.pos)) < 0
  · rw [if_pos hg]
    refine ⟨Or.inr rfl, ?_⟩
    constructor
    · intro h0; exact absurd h0 hE'
    · rintro ⟨hp, -⟩; exact absurd hg (hv.mpr hp)
  · rw [if_neg hg]
    split_ifs with hr
    · refine ⟨Or.inr rfl, ?_⟩
      constructor
      · intro h0; exact absurd h0 hE'
      · rintro ⟨-, h1, h2⟩
        rcases hr with hr | hr <;> omega
    · refine ⟨Or.inl rfl, ?_⟩
      constructor
      · intro _
        refine ⟨hv.mp hg, ?_, ?_⟩ <;> omega
      · intro _; rfl

/-- Witness for C10: the sample header has `ERANGE = 34`; on a bus answering
`0x80` the gain field is 0 (multiplier 1), the code is 512 and the call
returns 0. -/
theorem offset_cali_result_witness :
    hdr0.ERANGE ≠ 0 ∧ (aw862xx_offset_cali hdr0 (fun _ => 0x80) st0).1 = 0 :=
  ⟨by decide,
    (offset_cali_result hdr0 (fun _ => 0x80) st0 (by decide)).2.mpr
      ⟨⟨(0, 1), by decide, by decide⟩, by decide, by decide⟩⟩

/-! ## Offset calibration rejects before writing (C11) -/

theorem offset_cali_invalid (K : Hdr) (inp : Nat → Nat) (s : St)
    (hbad : ∀ p ∈ d2s_gain_table K, offset_cali_gain_field K (busByte inp s.pos) ≠ p.1) :
    aw862xx_offset_cali K inp s =
      (-K.ERANGE,
        { s with pos := s.pos + 1,
                 trace := s.trace ++ [Ev.reads K.AW862XX_REG_SYSCTRL7 [busByte inp s.pos]] }) := by
  unfold aw862xx_offset_cali
  simp only [read_byte]
  rw [if_pos (by rw [select_d2s_gain_invalid K _ hbad]; decide)]

/-- C11: when the gain field of the byte read from `SYSCTRL7` is not one of the
eight valid encodings, `aw862xx_offset_cali` returns `-ERANGE`, and the only
bus operation it has performed is that one read of `SYSCTRL7`: there is no
register write at all, in particular none turning `RAMINIT` on.  The device
context is unchanged. -/
theorem offset_cali_rejects_before_write (K : Hdr) (inp : Nat → Nat) (s : St)
    (hbad : ∀ p ∈ d2s_gain_table K, offset_cali_gain_field K (busByte inp s.pos) ≠ p.1) :
    (aw862xx_offset_cali K inp s).1 = -K.ERANGE ∧
    (aw862xx_offset_cali K inp s).2.hap = s.hap ∧
    new_ops s (aw862xx_offset_cali K inp s).2
      = [Ev.reads K.AW862XX_REG_SYSCTRL7 [busByte inp s.pos]] ∧
    (∀ e ∈ new_ops s (aw862xx_offset_cali K inp s).2,
      (∀ r d, e ≠ Ev.writes r d) ∧ (∀ r m d, e ≠ Ev.write_bits r m d)) := by
  rw [offset_cali_invalid K inp s hbad]
  have hn : new_ops s
      ({ s with pos := s.pos + 1,
                trace := s.trace ++ [Ev.reads K.AW862XX_REG_SYSCTRL7 [busByte inp s.pos]] } : St)
      = [Ev.reads K.AW862XX_REG_SYSCTRL7 [busByte inp s.pos]] := by
    simp [new_ops]
  refine ⟨rfl, rfl, hn, ?_⟩
  intro e he
  rw [hn, List.mem_singleton] at he
  subst he
  exact ⟨fun _ _ h => Ev.noConfusion h, fun _ _ _ h => Ev.noConfusion h⟩

/-- Witness for C11: with a four bit gain field, the byte 8 read from
`SYSCTRL7` is not one of the encodings 0 .. 7. -/
theorem offset_cali_rejects_before_write_witness :
    (∀ p ∈ d2s_gain_table hdr1,
      offset_cali_gain_field hdr1 (busByte (fun _ => 8) st0.pos) ≠ p.1) ∧
    (aw862xx_offset_cali hdr1 (fun _ => 8) st0).1 = -34 ∧
    new_ops st0 (aw862xx_offset_cali hdr1 (fun _ => 8) st0).2
      = [Ev.reads hdr1.AW862XX_REG_SYSCTRL7 [8]] :=
  ⟨by decide,
    (offset_cali_rejects_before_write hdr1 (fun _ => 8) st0 (by decide)).1,
    (offset_cali_rejects_before_write hdr1 (fun _ => 8) st0 (by decide)).2.2.1⟩

/-! ## Battery voltage (C12) -/

theorem lor_zero_busByte (inp : Nat → Nat) (i : Nat) :
    Int.lor 0 (busByte inp i) = busByte inp i := by
  unfold busByte
  show Int.lor (Int.ofNat 0) (Int.ofNat (inp i % 256)) = _
  simp [Int.lor]

theorem vbat_limit_eq_clamp (K : Hdr) (v : Int) :
    vbat_limit K v = clamp v K.AW_VBAT_MIN K.AW_VBAT_MAX := by
  unfold vbat_limit clamp
  simp only []
  split_ifs <;> omega

theorem get_vbat_hap (K : Hdr) (inp : Nat → Nat) (s : St) :
    (aw862xx_get_vbat K inp s).hap =
      { s.hap with
        play_mode := K.AW_STANDBY_MODE,
        vbat := vbat_limit K (K.AW862XX_VBAT_FORMULA
          (vbat_code_of K (busByte inp (aw862xx_play_stop K inp s).pos)
            (busByte inp ((aw862xx_play_stop K inp s).pos + 1)))) } := by
  unfold aw862xx_get_vbat
  simp [aw862xx_raminit, haptic_nv_i2c_write_bits, read_byte, play_stop_hap]

/-- C12: for every pair of bytes `b0` (read from `DET_VBAT`) and `b1` (read
from `DET_LO`), `aw862xx_get_vbat` stores
`vbat = clamp(AW862XX_VBAT_FORMULA(code), AW_VBAT_MIN, AW_VBAT_MAX)` with
`code = (b0 << 2) | ((b1 & AW862XX_BIT_DET_LO_VBAT) >> 4)`; given
`AW_VBAT_MIN <= AW_VBAT_MAX` the stored value lies between the two limits, and
it equals the formula value whenever that value is already in range. -/
theorem get_vbat_clamps (K : Hdr) (inp : Nat → Nat) (s : St)
    (hmm : K.AW_VBAT_MIN ≤ K.AW_VBAT_MAX) :
    (aw862xx_get_vbat K inp s).hap.vbat =
        clamp (K.AW862XX_VBAT_FORMULA
          (Int.lor (shl (busByte inp (aw862xx_play_stop K inp s).pos) 2)
            (shr (Int.land (busByte inp ((aw862xx_play_stop K inp s).pos + 1))
              K.AW862XX_BIT_DET_LO_VBAT) 4)))
          K.AW_VBAT_MIN K.AW_VBAT_MAX ∧
    K.AW_VBAT_MIN ≤ (aw862xx_get_vbat K inp s).hap.vbat ∧
    (aw862xx_get_vbat K inp s).hap.vbat ≤ K.AW_VBAT_MAX ∧
    (K.AW_VBAT_MIN ≤ K.AW862XX_VBAT_FORMULA
          (Int.lor (shl (busByte inp (aw862xx_play_stop K inp s).pos) 2)
            (shr (Int.land (busByte inp ((aw862xx_play_stop K inp s).pos + 1))
              K.AW862XX_BIT_DET_LO_VBAT) 4)) →
      K.AW862XX_VBAT_FORMULA
          (Int.lor (shl (busByte inp (aw862xx_play_stop K inp s).pos) 2)
            (shr (Int.land (busByte inp ((aw862xx_play_stop K inp s).pos + 1))
              K.AW862XX_BIT_DET_LO_VBAT) 4)) ≤ K.AW_VBAT_MAX →
      (aw862xx_get_vbat K inp s).hap.vbat =
        K.AW862XX_VBAT_FORMULA
          (Int.lor (shl (busByte inp (aw862xx_play_stop K inp s).pos) 2)
            (shr (Int.land (busByte inp ((aw862xx_play_stop K inp s).pos + 1))
              K.AW862XX_BIT_DET_LO_VBAT) 4))) := by
  have h1 : (aw862xx_get_vbat K inp s).hap.vbat =
      clamp (K.AW862XX_VBAT_FORMULA
          (Int.lor (shl (busByte inp (aw862xx_play_stop K inp s).pos) 2)
            (shr (Int.land (busByte inp ((aw862xx_play_stop K inp s).pos + 1))
              K.AW862XX_BIT_DET_LO_VBAT) 4)))
        K.AW_VBAT_MIN K.AW_VBAT_MAX := by
    rw [get_vbat_hap]
    simp only [vbat_limit_eq_clamp, vbat_code_of, lor_zero_busByte]
  rw [h1]
  unfold clamp
  refine ⟨rfl, le_max_left _ _, max_le hmm (min_le_right _ _), ?_⟩
  intro h2 h3
  rw [min_eq_left h3, max_eq_right h2]

/-- Witness for C12: the sample limits are 3000 and 4500; on a bus answering
`0xA0` the code is 642 and the stored voltage is 3824. -/
theorem get_vbat_clamps_witness :
    hdr0.AW_VBAT_MIN ≤ hdr0.AW_VBAT_MAX ∧
    (aw862xx_get_vbat hdr0 (fun i => if i = 0 then 0 else 0xA0) st0).hap.vbat = 3824 := by
  have h := (get_vbat_clamps hdr0 (fun i => if i = 0 then 0 else 0xA0) st0 (by decide)).1
  refine ⟨by decide, ?_⟩
  rw [h]
  have hp : (aw862xx_play_stop hdr0 (fun i => if i = 0 then 0 else 0xA0) st0).pos = 1 := by
    rfl
  rw [hp]
  decide

/-! ## Play-mode transitions (C16, C17, C18, C19) -/

theorem mode_labels_ne (K : Hdr) (h : mode_labels_distinct K) :
    (K.AW_RAM_MODE ≠ K.AW_STANDBY_MODE) ∧
    (K.AW_RAM_LOOP_MODE ≠ K.AW_STANDBY_MODE ∧ K.AW_RAM_LOOP_MODE ≠ K.AW_RAM_MODE) ∧
    (K.AW_CONT_MODE ≠ K.AW_STANDBY_MODE ∧ K.AW_CONT_MODE ≠ K.AW_RAM_MODE ∧
      K.AW_CONT_MODE ≠ K.AW_RAM_LOOP_MODE) ∧
    (K.AW_RTP_MODE ≠ K.AW_STANDBY_MODE ∧ K.AW_RTP_MODE ≠ K.AW_RAM_MODE ∧
      K.AW_RTP_MODE ≠ K.AW_RAM_LOOP_MODE ∧ K.AW_RTP_MODE ≠ K.AW_CONT_MODE) ∧
    (K.AW_PWM_12K ≠ K.AW_PWM_48K ∧ K.AW_PWM_12K ≠ K.AW_PWM_24K) := by
  unfold mode_labels_distinct at h
  simp only [List.nodup_cons, List.mem_cons, List.mem_singleton, List.not_mem_nil, not_or,
    or_false] at h
  obtain ⟨⟨⟨a1, a2, a3, a4, a5⟩, ⟨b2, b3, b4, b5⟩, ⟨c3, c4, c5⟩, ⟨d4, d5⟩, e5, -⟩,
    ⟨p1, p2⟩, p3, -⟩ := h
  exact ⟨Ne.symm a1, ⟨Ne.symm a2, Ne.symm b2⟩, ⟨Ne.symm a3, Ne.symm b3, Ne.symm c3⟩,
    ⟨Ne.symm a4, Ne.symm b4, Ne.symm c4, Ne.symm d4⟩, ⟨Ne.symm p2, Ne.symm p3⟩⟩

theorem set_pwm_12k (K : Hdr) (s : St) (h : mode_labels_distinct K) :
    aw862xx_set_pwm K s K.AW_PWM_12K =
      haptic_nv_i2c_write_bits s K.AW862XX_REG_SYSCTRL2
        K.AW862XX_BIT_SYSCTRL2_WAVDAT_MODE_MASK K.AW862XX_BIT_SYSCTRL2_RATE_12K := by
  obtain ⟨-, -, -, -, p1, p2⟩ := mode_labels_ne K h
  unfold aw862xx_set_pwm
  rw [if_neg p1, if_neg p2, if_pos rfl]

theorem play_mode_ram_eq (K : Hdr) (inp : Nat → Nat) (s : St) (h : mode_labels_distinct K) :
    aw862xx_play_mode K inp s K.AW_RAM_MODE =
      { s with
        hap := { s.hap with play_mode := K.AW_RAM_MODE },
        trace := s.trace ++
          [Ev.write_bits K.AW862XX_REG_SYSCTRL2 K.AW862XX_BIT_SYSCTRL2_WAVDAT_MODE_MASK
             K.AW862XX_BIT_SYSCTRL2_RATE_12K,
           Ev.write_bits K.AW862XX_REG_PLAYCFG3 K.AW862XX_BIT_PLAYCFG3_BRK_EN_MASK
             K.AW862XX_BIT_PLAYCFG3_BRK_DISABLE,
           Ev.write_bits K.AW862XX_REG_PLAYCFG3 K.AW862XX_BIT_PLAYCFG3_PLAY_MODE_MASK
             K.AW862XX_BIT_PLAYCFG3_PLAY_MODE_RAM] } := by
  obtain ⟨a, -, -, -, -⟩ := mode_labels_ne K h
  unfold aw862xx_play_mode
  rw [if_neg a, if_pos rfl]
  simp [set_pwm_12k K _ h, aw862xx_auto_brk_config, haptic_nv_i2c_write_bits, set_play_mode]

theorem play_mode_loop_eq (K : Hdr) (inp : Nat → Nat) (s : St) (h : mode_labels_distinct K) :
    aw862xx_play_mode K inp s K.AW_RAM_LOOP_MODE =
      { s with
        hap := { s.hap with play_mode := K.AW_RAM_LOOP_MODE },
        trace := s.trace ++
          [Ev.write_bits K.AW862XX_REG_SYSCTRL2 K.AW862XX_BIT_SYSCTRL2_WAVDAT_MODE_MASK
             K.AW862XX_BIT_SYSCTRL2_RATE_12K,
           Ev.write_bits K.AW862XX_REG_PLAYCFG3 K.AW862XX_BIT_PLAYCFG3_BRK_EN_MASK
             K.AW862XX_BIT_PLAYCFG3_BRK_ENABLE,
           Ev.write_bits K.AW862XX_REG_PLAYCFG3 K.AW862XX_BIT_PLAYCFG3_PLAY_MODE_MASK
             K.AW862XX_BIT_PLAYCFG3_PLAY_MODE_RAM] } := by
  obtain ⟨-, ⟨a, b⟩, -, -, -⟩ := mode_labels_ne K h
  unfold aw862xx_play_mode
  rw [if_neg a, if_neg b, if_pos rfl]
  simp [set_pwm_12k K _ h, aw862xx_auto_brk_config, haptic_nv_i2c_write_bits, set_play_mode]

theorem play_mode_cont_eq (K : Hdr) (inp : Nat → Nat) (s : St) (h : mode_labels_distinct K) :
    aw862xx_play_mode K inp s K.AW_CONT_MODE =
      { s with
        hap := { s.hap with play_mode := K.AW_CONT_MODE },
        trace := s.trace ++
          [Ev.write_bits K.AW862XX_REG_PLAYCFG3 K.AW862XX_BIT_PLAYCFG3_BRK_EN_MASK
             (if s.hap.info.is_enabled_auto_brk = true then K.AW862XX_BIT_PLAYCFG3_BRK_ENABLE
              else K.AW862XX_BIT_PLAYCFG3_BRK_DISABLE),
           Ev.write_bits K.AW862XX_REG_PLAYCFG3 K.AW862XX_BIT_PLAYCFG3_PLAY_MODE_MASK
             K.AW862XX_BIT_PLAYCFG3_PLAY_MODE_CONT] } := by
  obtain ⟨-, -, ⟨a, b, c⟩, -, -⟩ := mode_labels_ne K h
  unfold aw862xx_play_mode
  rw [if_neg a, if_neg b, if_neg c, if_pos rfl]
  cases hb : s.hap.info.is_enabled_auto_brk <;>
    simp [aw862xx_auto_brk_config, haptic_nv_i2c_write_bits, set_play_mode, hb]

theorem play_mode_rtp_eq (K : Hdr) (inp : Nat → Nat) (s : St) (h : mode_labels_distinct K) :
    aw862xx_play_mode K inp s K.AW_RTP_MODE =
      { s with
        hap := { s.hap with play_mode := K.AW_RTP_MODE },
        trace := s.trace ++
          [Ev.write_bits K.AW862XX_REG_SYSCTRL2 K.AW862XX_BIT_SYSCTRL2_WAVDAT_MODE_MASK
             K.AW862XX_BIT_SYSCTRL2_RATE_12K,
           Ev.write_bits K.AW862XX_REG_PLAYCFG3 K.AW862XX_BIT_PLAYCFG3_BRK_EN_MASK
             K.AW862XX_BIT_PLAYCFG3_BRK_ENABLE,
           Ev.write_bits K.AW862XX_REG_PLAYCFG3 K.AW862XX_BIT_PLAYCFG3_PLAY_MODE_MASK
             K.AW862XX_BIT_PLAYCFG3_PLAY_MODE_RTP] } := by
  obtain ⟨-, -, -, ⟨a, b, c, d⟩, -⟩ := mode_labels_ne K h
  unfold aw862xx_play_mode
  rw [if_neg a, if_neg b, if_neg c, if_neg d, if_pos rfl]
  simp [set_pwm_12k K _ h, aw862xx_auto_brk_config, haptic_nv_i2c_write_bits, set_play_mode]

theorem omw_refl (s : St) : only_masked_writes s s :=
  ⟨rfl, [], by simp, by simp⟩

theorem omw_trans {a b c : St} (h1 : only_masked_writes a b) (h2 : only_masked_writes b c) :
    only_masked_writes a c := by
  obtain ⟨p1, l1, t1, w1⟩ := h1
  obtain ⟨p2, l2, t2, w2⟩ := h2
  refine ⟨by rw [p2, p1], l1 ++ l2, by rw [t2, t1, List.append_assoc], ?_⟩
  intro e he
  rcases List.mem_append.mp he with h | h
  · exact w1 e h
  · exact w2 e h

theorem omw_write_bits (s : St) (r k d : Int) :
    only_masked_writes s (haptic_nv_i2c_write_bits s r k d) :=
  ⟨rfl, [Ev.write_bits r k d], rfl, by
    intro e he
    exact ⟨r, k, d, List.mem_singleton.mp he⟩⟩

theorem omw_set_play_mode (s : St) (m : Int) : only_masked_writes s (set_play_mode s m) :=
  ⟨rfl, [], by simp [set_play_mode], by simp⟩

theorem omw_set_pwm (K : Hdr) (s : St) (m : Int) :
    only_masked_writes s (aw862xx_set_pwm K s m) := by
  unfold aw862xx_set_pwm
  split_ifs
  · exact omw_write_bits _ _ _ _
  · exact omw_write_bits _ _ _ _
  · exact omw_write_bits _ _ _ _
  · exact omw_refl s

theorem omw_auto_brk (K : Hdr) (s : St) (b : Bool) :
    only_masked_writes s (aw862xx_auto_brk_config K s b) := by
  unfold aw862xx_auto_brk_config
  split_ifs
  · exact omw_write_bits _ _ _ _
  · exact omw_write_bits _ _ _ _

theorem play_mode_non_standby_ops (K : Hdr) (inp : Nat → Nat) (s : St) (m : Int)
    (hm : m ≠ K.AW_STANDBY_MODE) :
    only_masked_writes s (aw862xx_play_mode K inp s m) := by
  unfold aw862xx_play_mode
  rw [if_neg hm]
  split_ifs
  · exact omw_trans (omw_set_play_mode s _) (omw_trans (omw_set_pwm K _ _)
      (omw_trans (omw_auto_brk K _ _) (omw_write_bits _ _ _ _)))
  · exact omw_trans (omw_set_play_mode s _) (omw_trans (omw_set_pwm K _ _)
      (omw_trans (omw_auto_brk K _ _) (omw_write_bits _ _ _ _)))
  · exact omw_trans (omw_set_play_mode s _)
      (omw_trans (omw_auto_brk K _ _) (omw_write_bits _ _ _ _))
  · exact omw_trans (omw_set_play_mode s _) (omw_trans (omw_set_pwm K _ _)
      (omw_trans (omw_auto_brk K _ _) (omw_write_bits _ _ _ _)))
  · exact omw_trans (omw_set_play_mode s _) (omw_trans (omw_set_pwm K _ _)
      (omw_write_bits _ _ _ _))
  · exact omw_refl s


theorem new_ops_append (s s' : St) (l : List Ev) (h : s'.trace = s.trace ++ l) :
    new_ops s s' = l := by
  unfold new_ops
  rw [h, List.drop_left]

/-- Counterexample to C16: entering RAM mode from the sample context adds
exactly three masked writes to the trace; the stop command (`STOP_ON` written
to `PLAYCFG4`) is not among the bus operations. -/
theorem play_mode_ram_without_stop :
    hdr0.AW_RAM_MODE ≠ hdr0.AW_STANDBY_MODE ∧
    (aw862xx_play_mode hdr0 (fun _ => 0) st0 hdr0.AW_RAM_MODE).trace
      = [Ev.write_bits hdr0.AW862XX_REG_SYSCTRL2 hdr0.AW862XX_BIT_SYSCTRL2_WAVDAT_MODE_MASK
           hdr0.AW862XX_BIT_SYSCTRL2_RATE_12K,
         Ev.write_bits hdr0.AW862XX_REG_PLAYCFG3 hdr0.AW862XX_BIT_PLAYCFG3_BRK_EN_MASK
           hdr0.AW862XX_BIT_PLAYCFG3_BRK_DISABLE,
         Ev.write_bits hdr0.AW862XX_REG_PLAYCFG3 hdr0.AW862XX_BIT_PLAYCFG3_PLAY_MODE_MASK
           hdr0.AW862XX_BIT_PLAYCFG3_PLAY_MODE_RAM] ∧
    Ev.writes hdr0.AW862XX_REG_PLAYCFG4 [toU8 hdr0.AW862XX_BIT_PLAYCFG4_STOP_ON]
      ∉ (aw862xx_play_mode hdr0 (fun _ => 0) st0 hdr0.AW_RAM_MODE).trace := by
  have h : (aw862xx_play_mode hdr0 (fun _ => 0) st0 hdr0.AW_RAM_MODE).trace
      = [Ev.write_bits hdr0.AW862XX_REG_SYSCTRL2 hdr0.AW862XX_BIT_SYSCTRL2_WAVDAT_MODE_MASK
           hdr0.AW862XX_BIT_SYSCTRL2_RATE_12K,
         Ev.write_bits hdr0.AW862XX_REG_PLAYCFG3 hdr0.AW862XX_BIT_PLAYCFG3_BRK_EN_MASK
           hdr0.AW862XX_BIT_PLAYCFG3_BRK_DISABLE,
         Ev.write_bits hdr0.AW862XX_REG_PLAYCFG3 hdr0.AW862XX_BIT_PLAYCFG3_PLAY_MODE_MASK
           hdr0.AW862XX_BIT_PLAYCFG3_PLAY_MODE_RAM] := by
    rfl
  refine ⟨by decide, h, ?_⟩
  rw [h]
  decide

/-- C16 (amended): for every target mode other than standby (RAM, RAM loop,
continuous, RTP, trigger), `aw862xx_play_mode` issues no stop command and does
not wait for standby: the only bus operations it performs are masked writes
(of the rate, auto-brake and play-mode fields), so nothing is written to
`PLAYCFG4` and nothing is read.  Stopping first is left to the caller; only
the target `AW_STANDBY_MODE` runs the stop sequence. -/
theorem play_mode_issues_no_stop (K : Hdr) (inp : Nat → Nat) (s : St) (m : Int)
    (hm : m ≠ K.AW_STANDBY_MODE) :
    (aw862xx_play_mode K inp s m).pos = s.pos ∧
    (∀ e ∈ new_ops s (aw862xx_play_mode K inp s m), ∃ r k d, e = Ev.write_bits r k d) ∧
    (∀ d, Ev.writes K.AW862XX_REG_PLAYCFG4 d ∉ new_ops s (aw862xx_play_mode K inp s m)) ∧
    aw862xx_play_mode K inp s K.AW_STANDBY_MODE = aw862xx_play_stop K inp s := by
  obtain ⟨hp, l, hl, hw⟩ := play_mode_non_standby_ops K inp s m hm
  rw [new_ops_append s _ l hl]
  refine ⟨hp, hw, ?_, ?_⟩
  · intro d hd
    obtain ⟨r, k, x, hx⟩ := hw _ hd
    exact Ev.noConfusion hx
  · unfold aw862xx_play_mode
    rw [if_pos rfl]
    rfl

/-- Witness for C16 (amended): RAM mode under the sample header. -/
theorem play_mode_issues_no_stop_witness :
    hdr0.AW_RAM_MODE ≠ hdr0.AW_STANDBY_MODE ∧
    (aw862xx_play_mode hdr0 (fun _ => 0) st0 hdr0.AW_RAM_MODE).pos = st0.pos ∧
    (∀ d, Ev.writes hdr0.AW862XX_REG_PLAYCFG4 d
      ∉ new_ops st0 (aw862xx_play_mode hdr0 (fun _ => 0) st0 hdr0.AW_RAM_MODE)) :=
  ⟨by decide,
    (play_mode_issues_no_stop hdr0 (fun _ => 0) st0 hdr0.AW_RAM_MODE (by decide)).1,
    (play_mode_issues_no_stop hdr0 (fun _ => 0) st0 hdr0.AW_RAM_MODE (by decide)).2.2.1⟩

/-- C17: provided the labels of the two `switch` statements are pairwise
distinct, `aw862xx_play_mode` with target `AW_RAM_MODE` (resp.
`AW_RAM_LOOP_MODE`) sets `play_mode` to that mode and performs exactly three
bus operations, all masked writes, in this order: the data-rate field of
`SYSCTRL2` set to 12K, the auto-brake field of `PLAYCFG3` set to disabled
(resp. enabled), the play-mode field of `PLAYCFG3` set to RAM.  Nothing else
changes: no other register is written and nothing is read. -/
theorem play_mode_ram_three_writes (K : Hdr) (inp : Nat → Nat) (s : St)
    (h : mode_labels_distinct K) :
    aw862xx_play_mode K inp s K.AW_RAM_MODE =
      { s with
        hap := { s.hap with play_mode := K.AW_RAM_MODE },
        trace := s.trace ++
          [Ev.write_bits K.AW862XX_REG_SYSCTRL2 K.AW862XX_BIT_SYSCTRL2_WAVDAT_MODE_MASK
             K.AW862XX_BIT_SYSCTRL2_RATE_12K,
           Ev.write_bits K.AW862XX_REG_PLAYCFG3 K.AW862XX_BIT_PLAYCFG3_BRK_EN_MASK
             K.AW862XX_BIT_PLAYCFG3_BRK_DISABLE,
           Ev.write_bits K.AW862XX_REG_PLAYCFG3 K.AW862XX_BIT_PLAYCFG3_PLAY_MODE_MASK
             K.AW862XX_BIT_PLAYCFG3_PLAY_MODE_RAM] } ∧
    aw862xx_play_mode K inp s K.AW_RAM_LOOP_MODE =
      { s with
        hap := { s.hap with play_mode := K.AW_RAM_LOOP_MODE },
        trace := s.trace ++
          [Ev.write_bits K.AW862XX_REG_SYSCTRL2 K.AW862XX_BIT_SYSCTRL2_WAVDAT_MODE_MASK
             K.AW862XX_BIT_SYSCTRL2_RATE_12K,
           Ev.write_bits K.AW862XX_REG_PLAYCFG3 K.AW862XX_BIT_PLAYCFG3_BRK_EN_MASK
             K.AW862XX_BIT_PLAYCFG3_BRK_ENABLE,
           Ev.write_bits K.AW862XX_REG_PLAYCFG3 K.AW862XX_BIT_PLAYCFG3_PLAY_MODE_MASK
             K.AW862XX_BIT_PLAYCFG3_PLAY_MODE_RAM] } :=
  ⟨play_mode_ram_eq K inp s h, play_mode_loop_eq K inp s h⟩

/-- Witness for C17: the labels of the sample header are distinct; entering RAM
loop mode adds three operations and sets `play_mode` to 2. -/
theorem play_mode_ram_three_writes_witness :
    mode_labels_distinct hdr0 ∧
    (aw862xx_play_mode hdr0 (fun _ => 0) st0 hdr0.AW_RAM_LOOP_MODE).trace.length = 3 ∧
    (aw862xx_play_mode hdr0 (fun _ => 0) st0 hdr0.AW_RAM_LOOP_MODE).hap.play_mode = 2 := by
  have hd : mode_labels_distinct hdr0 := by unfold mode_labels_distinct; decide
  have h := (play_mode_ram_three_writes hdr0 (fun _ => 0) st0 hd).2
  refine ⟨hd, ?_, ?_⟩
  · rw [h]; rfl
  · rw [h]; rfl

/-- C18: provided the labels of the two `switch` statements are pairwise
distinct, `aw862xx_play_mode` with target `AW_RTP_MODE` sets `play_mode` to
`AW_RTP_MODE`, programs the data-rate field of `SYSCTRL2` (12K), writes the
auto-brake field of `PLAYCFG3` as enabled, and sets the play-mode field of
`PLAYCFG3` to RTP.  This holds for every context, so for either value of the
configuration flag `info.is_enabled_auto_brk`, which the three operations do
not depend on. -/
theorem play_mode_rtp_forces_brake (K : Hdr) (inp : Nat → Nat) (s : St)
    (h : mode_labels_distinct K) :
    aw862xx_play_mode K inp s K.AW_RTP_MODE =
      { s with
        hap := { s.hap with play_mode := K.AW_RTP_MODE },
        trace := s.trace ++
          [Ev.write_bits K.AW862XX_REG_SYSCTRL2 K.AW862XX_BIT_SYSCTRL2_WAVDAT_MODE_MASK
             K.AW862XX_BIT_SYSCTRL2_RATE_12K,
           Ev.write_bits K.AW862XX_REG_PLAYCFG3 K.AW862XX_BIT_PLAYCFG3_BRK_EN_MASK
             K.AW862XX_BIT_PLAYCFG3_BRK_ENABLE,
           Ev.write_bits K.AW862XX_REG_PLAYCFG3 K.AW862XX_BIT_PLAYCFG3_PLAY_MODE_MASK
             K.AW862XX_BIT_PLAYCFG3_PLAY_MODE_RTP] } :=
  play_mode_rtp_eq K inp s h

/-- Witness for C18: the sample context has the flag cleared, and the auto-brake
field is written as enabled all the same. -/
theorem play_mode_rtp_forces_brake_witness :
    (mode_labels_distinct hdr0 ∧ st0.hap.info.is_enabled_auto_brk = false) ∧
    (aw862xx_play_mode hdr0 (fun _ => 0) st0 hdr0.AW_RTP_MODE).trace
      = [Ev.write_bits 0x44 (-4) 2, Ev.write_bits 0x08 (-5) 4, Ev.write_bits 0x08 (-4) 1] := by
  have hd : mode_labels_distinct hdr0 := by unfold mode_labels_distinct; decide
  have h := play_mode_rtp_forces_brake hdr0 (fun _ => 0) st0 hd
  refine ⟨⟨hd, rfl⟩, ?_⟩
  rw [h]; rfl

/-- C19: provided the labels of the `switch` are pairwise distinct,
`aw862xx_play_mode` with target `AW_CONT_MODE` sets `play_mode` to
`AW_CONT_MODE` and performs exactly two bus operations: a masked write of the
auto-brake field of `PLAYCFG3`, enabled if `info.is_enabled_auto_brk` is set
and disabled otherwise, and a masked write setting the play-mode field of
`PLAYCFG3` to continuous drive.  If `PLAYCFG3` and `SYSCTRL2` are different
registers, no operation addresses `SYSCTRL2`: the data-rate field is not
written. -/
theorem play_mode_cont_brake_by_flag (K : Hdr) (inp : Nat → Nat) (s : St)
    (h : mode_labels_distinct K)
    (hreg : K.AW862XX_REG_PLAYCFG3 ≠ K.AW862XX_REG_SYSCTRL2) :
    aw862xx_play_mode K inp s K.AW_CONT_MODE =
      { s with
        hap := { s.hap with play_mode := K.AW_CONT_MODE },
        trace := s.trace ++
          [Ev.write_bits K.AW862XX_REG_PLAYCFG3 K.AW862XX_BIT_PLAYCFG3_BRK_EN_MASK
             (if s.hap.info.is_enabled_auto_brk = true then K.AW862XX_BIT_PLAYCFG3_BRK_ENABLE
              else K.AW862XX_BIT_PLAYCFG3_BRK_DISABLE),
           Ev.write_bits K.AW862XX_REG_PLAYCFG3 K.AW862XX_BIT_PLAYCFG3_PLAY_MODE_MASK
             K.AW862XX_BIT_PLAYCFG3_PLAY_MODE_CONT] } ∧
    (∀ e ∈ new_ops s (aw862xx_play_mode K inp s K.AW_CONT_MODE),
      ∀ k d, e ≠ Ev.write_bits K.AW862XX_REG_SYSCTRL2 k d) := by
  have he := play_mode_cont_eq K inp s h
  refine ⟨he, ?_⟩
  rw [new_ops_append s _ _ (by rw [he])]
  intro e hmem k d heq
  subst heq
  simp only [List.mem_cons, List.mem_singleton, Ev.write_bits.injEq, List.not_mem_nil,
    or_false] at hmem
  rcases hmem with h1 | h1
  · exact hreg h1.1.symm
  · exact hreg h1.1.symm

/-- Witness for C19: the sample context has the flag cleared, so the auto-brake
field is written as disabled. -/
theorem play_mode_cont_brake_by_flag_witness :
    (mode_labels_distinct hdr0 ∧ hdr0.AW862XX_REG_PLAYCFG3 ≠ hdr0.AW862XX_REG_SYSCTRL2) ∧
    (aw862xx_play_mode hdr0 (fun _ => 0) st0 hdr0.AW_CONT_MODE).trace
      = [Ev.write_bits 0x08 (-5) 0, Ev.write_bits 0x08 (-4) 2] := by
  have hd : mode_labels_distinct hdr0 := by unfold mode_labels_distinct; decide
  have h := (play_mode_cont_brake_by_flag hdr0 (fun _ => 0) st0 hd (by decide)).1
  refine ⟨⟨hd, by decide⟩, ?_⟩
  rw [h]; rfl

/-! ## No status flag for a forced stop (C20) -/

/-- Counterexample to C20: started from the sample context, a run on a bus that
never reports standby takes the forced-idle path and a run on a bus that
reports standby at once does not, yet the two returned device contexts are
equal. -/
theorem play_stop_contexts_equal_example :
    (∃ t, (aw862xx_play_stop hdr0 (fun _ => 1) st0).trace = t ++ forced_idle_ops hdr0) ∧
    reports_standby hdr0 (busByte (fun _ => 0) st0.pos) = true ∧
    (aw862xx_play_stop hdr0 (fun _ => 0) st0).trace
      = [Ev.writes hdr0.AW862XX_REG_PLAYCFG4 [2], Ev.reads hdr0.AW862XX_REG_GLBRD5 [0]] ∧
    (aw862xx_play_stop hdr0 (fun _ => 1) st0).hap
      = (aw862xx_play_stop hdr0 (fun _ => 0) st0).hap := by
  refine ⟨?_, by decide, by rfl, ?_⟩
  · rw [play_stop_busy hdr0 (fun _ => 1) st0 (fun _ _ => by simp only [busByte]; decide)]
    exact ⟨_, rfl⟩
  · rw [play_stop_hap, play_stop_hap]

/-- C20 (amended): the device context returned by `aw862xx_play_stop` does not
depend on what the bus answered: after a run that needed the forced-idle path
and after a run in which a poll reported standby (started from the same
context) it is the same context, the one on entry with `play_mode` set to
standby.  There is no status flag; a timeout shows only in the log and in the
two extra masked writes on the bus. -/
theorem play_stop_context_independent_of_bus (K : Hdr) (inp1 inp2 : Nat → Nat) (s : St) :
    (aw862xx_play_stop K inp1 s).hap = (aw862xx_play_stop K inp2 s).hap ∧
    (aw862xx_play_stop K inp1 s).hap = { s.hap with play_mode := K.AW_STANDBY_MODE } := by
  rw [play_stop_hap, play_stop_hap]
  exact ⟨rfl, rfl⟩


/-! ## Trigger configuration (C13, C14, C15) -/

theorem set_trig_slot_frame (h : aw_haptic) (i : Nat) (t : aw_trig) (hi : i ≤ 2) :
    trig_slot (set_trig_slot h i t) i = t ∧
    (∀ j, j ≤ 2 → j ≠ i → trig_slot (set_trig_slot h i t) j = trig_slot h j) ∧
    { set_trig_slot h i t with trig0 := h.trig0, trig1 := h.trig1, trig2 := h.trig2 } = h := by
  have h3 : i = 0 ∨ i = 1 ∨ i = 2 := by omega
  rcases h3 with h0 | h0 | h0 <;> subst h0
  · refine ⟨rfl, ?_, rfl⟩
    intro j hj hne
    have : j = 1 ∨ j = 2 := by omega
    rcases this with hj | hj <;> subst hj <;> rfl
  · refine ⟨rfl, ?_, rfl⟩
    intro j hj hne
    have : j = 0 ∨ j = 2 := by omega
    rcases this with hj | hj <;> subst hj <;> rfl
  · refine ⟨rfl, ?_, rfl⟩
    intro j hj hne
    have : j = 0 ∨ j = 1 := by omega
    rcases this with hj | hj <;> subst hj <;> rfl

theorem trig_field_cast_fits (K : Hdr) (v : Nat) (h : v < 2 ^ K.TRIG_FIELD_BITS) :
    trig_field_cast K v = v := Nat.mod_eq_of_lt h

theorem trig_param_config_other_pin (K : Hdr) (s : St) (pin : Int)
    (hirq : ¬ irq_pin_case K s.hap)
    (hp : pin ≠ K.AW_TRIG1 ∧ pin ≠ K.AW_TRIG2 ∧ pin ≠ K.AW_TRIG3) :
    aw862xx_haptic_trig_param_config K s pin = (0, s) := by
  unfold aw862xx_haptic_trig_param_config
  unfold irq_pin_case at hirq
  rw [if_neg hirq, if_neg hp.1, if_neg hp.2.1, if_neg hp.2.2]

theorem trig_param_config_ret (K : Hdr) (s : St) (pin : Int)
    (hirq : ¬ irq_pin_case K s.hap) :
    (aw862xx_haptic_trig_param_config K s pin).1 = 0 := by
  unfold aw862xx_haptic_trig_param_config
  unfold irq_pin_case at hirq
  rw [if_neg hirq]
  split_ifs <;> rfl

/-- Counterexample to C15: on the three-trigger sample device the pin value 7
(not a trigger pin) is answered with 0, and on the single-trigger sample device
(`AW86214`) the pin `AW_TRIG2` is answered with 0 after its three trigger
registers have been written. -/
theorem trig_param_config_accepts_unsupported_pin :
    (aw862xx_haptic_trig_param_config hdr0 st0 7).1 = 0 ∧
    single_trigger hdr0 st1.hap ∧
    (aw862xx_haptic_trig_param_config hdr0 st1 hdr0.AW_TRIG2).1 = 0 ∧
    (aw862xx_haptic_trig_param_config hdr0 st1 hdr0.AW_TRIG2).2.trace
      = [Ev.write_bits hdr0.AW862XX_REG_TRGCFG7
           hdr0.AW862XX_BIT_TRGCFG7_TRG2_POR_LEV_BRK_MASK 0,
         Ev.writes hdr0.AW862XX_REG_TRGCFG2 [0], Ev.writes hdr0.AW862XX_REG_TRGCFG5 [0]] := by
  refine ⟨by rfl, ?_, by rfl, by rfl⟩
  unfold single_trigger
  decide

/-- C15 (amended): `aw862xx_haptic_trig_param_config` does not check the pin
against the device variant.  Outside the AW86224/AW86225 IRQ-pin case it
returns 0 for every pin value; for a value other than `AW_TRIG1`, `AW_TRIG2`
and `AW_TRIG3` it performs no bus operation and leaves the state unchanged.
Unsupported pins are kept out by the callers: on a single-trigger variant
`aw862xx_trig_init` configures `AW_TRIG1` only, and `trig_store` returns
without any effect when the pin index is non-zero on a single-trigger variant
or greater than 2. -/
theorem trig_param_config_leaves_pin_check_to_callers (K : Hdr) (s : St) (pin : Int)
    (hirq : ¬ irq_pin_case K s.hap) :
    (aw862xx_haptic_trig_param_config K s pin).1 = 0 ∧
    (pin ≠ K.AW_TRIG1 ∧ pin ≠ K.AW_TRIG2 ∧ pin ≠ K.AW_TRIG3 →
      (aw862xx_haptic_trig_param_config K s pin).2 = s) ∧
    (single_trigger K s.hap → s.hap.name ≠ K.AW86223 →
      aw862xx_trig_init K s = aw862xx_set_trig K s K.AW_TRIG1) ∧
    (∀ d : trig_databuf, (single_trigger K s.hap ∧ d.d0 ≠ 0) ∨ d.d0 > 2 →
      trig_store K s (some d) = s) := by
  refine ⟨trig_param_config_ret K s pin hirq, ?_, ?_, ?_⟩
  · intro hp
    rw [trig_param_config_other_pin K s pin hirq hp]
  · intro hs hn
    unfold aw862xx_trig_init
    unfold single_trigger at hs
    rw [if_neg hn, if_pos hs]
  · intro d hd
    unfold trig_store
    unfold single_trigger at hd
    simp only []
    split_ifs with h1 h2
    · rfl
    · rfl
    · rfl
    · rfl
    · rcases hd with hd | hd
      · exact absurd hd h1
      · exact absurd hd h2

/-- Witness for C15 (amended): the sample device is not in the IRQ-pin case;
the pin value 7 changes nothing. -/
theorem trig_param_config_leaves_pin_check_to_callers_witness :
    ¬ irq_pin_case hdr0 st0.hap ∧
    (aw862xx_haptic_trig_param_config hdr0 st0 7).2 = st0 :=
  ⟨by unfold irq_pin_case; decide,
    (trig_param_config_leaves_pin_check_to_callers hdr0 st0 7
      (by unfold irq_pin_case; decide)).2.1 (by decide)⟩

set_option maxRecDepth 100000 in
theorem masked_write_field_hi_fin : ∀ o : Fin 256, ∀ v : Fin 8,
    shr (Int.land (masked_write ((o : Nat) : Int) (-225) (shl ((v : Nat) : Int) 5)) 0xE0) 5
      = ((v : Nat) : Int) ∧
    shr (Int.land (masked_write ((o : Nat) : Int) (-225) (shl ((v : Nat) : Int) 5)) 0x0E) 1
      = shr (Int.land ((o : Nat) : Int) 0x0E) 1 := by
  decide

set_option maxRecDepth 100000 in
theorem masked_write_field_lo_fin : ∀ o : Fin 256, ∀ v : Fin 8,
    shr (Int.land (masked_write ((o : Nat) : Int) (-15) (shl ((v : Nat) : Int) 1)) 0x0E) 1
      = ((v : Nat) : Int) ∧
    shr (Int.land (masked_write ((o : Nat) : Int) (-15) (shl ((v : Nat) : Int) 1)) 0xE0) 5
      = shr (Int.land ((o : Nat) : Int) 0xE0) 5 := by
  decide

theorem polar_lev_brk_fin : ∀ p l b : Fin 2,
    toU8 (Int.lor (Int.lor (shl ((p : Nat) : Int) 2) (shl ((l : Nat) : Int) 1)) ((b : Nat) : Int))
      = Int.lor (Int.lor (shl ((p : Nat) : Int) 2) (shl ((l : Nat) : Int) 1)) ((b : Nat) : Int) ∧
    0 ≤ Int.lor (Int.lor (shl ((p : Nat) : Int) 2) (shl ((l : Nat) : Int) 1)) ((b : Nat) : Int) ∧
    Int.lor (Int.lor (shl ((p : Nat) : Int) 2) (shl ((l : Nat) : Int) 1)) ((b : Nat) : Int) < 8 ∧
    (Int.land (shr (Int.lor (Int.lor (shl ((p : Nat) : Int) 2) (shl ((l : Nat) : Int) 1))
      ((b : Nat) : Int)) 1) 1).toNat = (l : Nat) ∧
    (Int.land (shr (Int.lor (Int.lor (shl ((p : Nat) : Int) 2) (shl ((l : Nat) : Int) 1))
      ((b : Nat) : Int)) 2) 1).toNat = (p : Nat) ∧
    (Int.land (Int.lor (Int.lor (shl ((p : Nat) : Int) 2) (shl ((l : Nat) : Int) 1))
      ((b : Nat) : Int)) 1).toNat = (b : Nat) := by
  decide

theorem enable_seq_fin : ∀ e : Fin 2, ∀ q : Fin 128,
    toU8 (toU8 (Int.lor (shl ((e : Nat) : Int) 7) ((q : Nat) : Int)))
      = Int.lor (shl ((e : Nat) : Int) 7) ((q : Nat) : Int) ∧
    (shr (Int.lor (shl ((e : Nat) : Int) 7) ((q : Nat) : Int)) 7).toNat = (e : Nat) ∧
    (Int.land (Int.lor (shl ((e : Nat) : Int) 7) ((q : Nat) : Int)) 0x7F).toNat = (q : Nat) := by
  decide

theorem masked_write_field_hi (o v : Int) (ho : 0 ≤ o ∧ o < 256) (hv : 0 ≤ v ∧ v < 8) :
    shr (Int.land (masked_write o (-225) (shl v 5)) 0xE0) 5 = v ∧
    shr (Int.land (masked_write o (-225) (shl v 5)) 0x0E) 1 = shr (Int.land o 0x0E) 1 := by
  obtain ⟨ho1, ho2⟩ := ho
  obtain ⟨hv1, hv2⟩ := hv
  lift o to ℕ using ho1
  lift v to ℕ using hv1
  exact masked_write_field_hi_fin ⟨o, by omega⟩ ⟨v, by omega⟩

theorem masked_write_field_lo (o v : Int) (ho : 0 ≤ o ∧ o < 256) (hv : 0 ≤ v ∧ v < 8) :
    shr (Int.land (masked_write o (-15) (shl v 1)) 0x0E) 1 = v ∧
    shr (Int.land (masked_write o (-15) (shl v 1)) 0xE0) 5 = shr (Int.land o 0xE0) 5 := by
  obtain ⟨ho1, ho2⟩ := ho
  obtain ⟨hv1, hv2⟩ := hv
  lift o to ℕ using ho1
  lift v to ℕ using hv1
  exact masked_write_field_lo_fin ⟨o, by omega⟩ ⟨v, by omega⟩

theorem polar_lev_brk_bits (t : aw_trig) (h : trig_params_ok t) :
    trig_polar_lev_brk t
      = Int.lor (Int.lor (shl t.trig_polar 2) (shl t.trig_level 1)) t.trig_brk ∧
    0 ≤ trig_polar_lev_brk t ∧ trig_polar_lev_brk t < 8 ∧
    (Int.land (shr (trig_polar_lev_brk t) 1) 1).toNat = t.trig_level ∧
    (Int.land (shr (trig_polar_lev_brk t) 2) 1).toNat = t.trig_polar ∧
    (Int.land (trig_polar_lev_brk t) 1).toNat = t.trig_brk := by
  obtain ⟨h1, h2, h3, -, -, -, -⟩ := h
  have := polar_lev_brk_fin ⟨t.trig_polar, by omega⟩ ⟨t.trig_level, by omega⟩
    ⟨t.trig_brk, by omega⟩
  simp only [] at this
  obtain ⟨e, r⟩ := this
  unfold trig_polar_lev_brk
  rw [e]
  exact ⟨rfl, r⟩

theorem pos_seq_bits (t : aw_trig) (h : trig_params_ok t) :
    toU8 (trig_pos_seq t) = Int.lor (shl t.pos_enable 7) t.pos_sequence ∧
    (shr (toU8 (trig_pos_seq t)) 7).toNat = t.pos_enable ∧
    (Int.land (toU8 (trig_pos_seq t)) 0x7F).toNat = t.pos_sequence := by
  obtain ⟨-, -, -, h4, -, h6, -⟩ := h
  have := enable_seq_fin ⟨t.pos_enable, by omega⟩ ⟨t.pos_sequence, by omega⟩
  simp only [] at this
  obtain ⟨e, r⟩ := this
  unfold trig_pos_seq
  rw [e]
  exact ⟨rfl, r⟩

theorem neg_seq_bits (t : aw_trig) (h : trig_params_ok t) :
    toU8 (trig_neg_seq t) = Int.lor (shl t.neg_enable 7) t.neg_sequence ∧
    (shr (toU8 (trig_neg_seq t)) 7).toNat = t.neg_enable ∧
    (Int.land (toU8 (trig_neg_seq t)) 0x7F).toNat = t.neg_sequence := by
  obtain ⟨-, -, -, -, h5, -, h7⟩ := h
  have := enable_seq_fin ⟨t.neg_enable, by omega⟩ ⟨t.neg_sequence, by omega⟩
  simp only [] at this
  obtain ⟨e, r⟩ := this
  unfold trig_neg_seq
  rw [e]
  exact ⟨rfl, r⟩

theorem reg_run_trig_ops (m : Int → Int) (pre : List Ev) (R7 M D P pv N nv a : Int) :
    reg_run m (pre ++ [Ev.write_bits R7 M D, Ev.writes P [pv], Ev.writes N [nv]]) a =
      if a = N then toU8 nv
      else if a = P then toU8 pv
      else if a = R7 then masked_write (reg_run m pre R7) M D
      else reg_run m pre a := by
  simp only [reg_run, List.foldl_append, List.foldl_cons, List.foldl_nil, reg_apply, reg_store]
  split_ifs with h1 h2 h3
  · rfl
  · rfl
  · rw [h3]
  · rfl

theorem reg_run_select (m : Int → Int) (R M D a : Int) (b : Prop) [Decidable b]
    (ha : a ≠ R) :
    reg_run m (if b then [Ev.write_bits R M D] else []) a = m a := by
  split_ifs
  · simp [reg_run, reg_apply, ha]
  · rfl

theorem trig_param_config_trig1 (K : Hdr) (s : St) (hirq : ¬ irq_pin_case K s.hap) :
    aw862xx_haptic_trig_param_config K s K.AW_TRIG1 =
      (0, { s with trace := s.trace ++
        ((if s.hap.name = K.AW86224 ∨ s.hap.name = K.AW86225 then
            [Ev.write_bits K.AW862XX_REG_SYSCTRL2 K.AW862XX_BIT_SYSCTRL2_INTN_PIN_MASK
              K.AW862XX_BIT_SYSCTRL2_TRIG1]
          else []) ++
        [Ev.write_bits K.AW862XX_REG_TRGCFG7 K.AW862XX_BIT_TRGCFG7_TRG1_POR_LEV_BRK_MASK
           (shl (trig_polar_lev_brk s.hap.trig0) 5),
         Ev.writes K.AW862XX_REG_TRGCFG1 [trig_pos_seq s.hap.trig0],
         Ev.writes K.AW862XX_REG_TRGCFG4 [trig_neg_seq s.hap.trig0]]) }) := by
  unfold aw862xx_haptic_trig_param_config
  unfold irq_pin_case at hirq
  rw [if_neg hirq, if_pos rfl]
  by_cases hn : s.hap.name = K.AW86224 ∨ s.hap.name = K.AW86225
  · simp [hn, aw862xx_haptic_select_pin, haptic_nv_i2c_write_bits, haptic_nv_i2c_writes]
  · simp [hn, haptic_nv_i2c_write_bits, haptic_nv_i2c_writes]

theorem trig_param_config_trig2 (K : Hdr) (s : St) (hirq : ¬ irq_pin_case K s.hap)
    (h21 : K.AW_TRIG2 ≠ K.AW_TRIG1) :
    aw862xx_haptic_trig_param_config K s K.AW_TRIG2 =
      (0, { s with trace := s.trace ++ ([] ++
        [Ev.write_bits K.AW862XX_REG_TRGCFG7 K.AW862XX_BIT_TRGCFG7_TRG2_POR_LEV_BRK_MASK
           (shl (trig_polar_lev_brk s.hap.trig1) 1),
         Ev.writes K.AW862XX_REG_TRGCFG2 [trig_pos_seq s.hap.trig1],
         Ev.writes K.AW862XX_REG_TRGCFG5 [trig_neg_seq s.hap.trig1]]) }) := by
  unfold aw862xx_haptic_trig_param_config
  unfold irq_pin_case at hirq
  rw [if_neg hirq, if_neg h21, if_pos rfl]
  simp [haptic_nv_i2c_write_bits, haptic_nv_i2c_writes]

theorem trig_param_config_trig3 (K : Hdr) (s : St) (hirq : ¬ irq_pin_case K s.hap)
    (h31 : K.AW_TRIG3 ≠ K.AW_TRIG1) (h32 : K.AW_TRIG3 ≠ K.AW_TRIG2) :
    aw862xx_haptic_trig_param_config K s K.AW_TRIG3 =
      (0, { s with trace := s.trace ++ ([] ++
        [Ev.write_bits K.AW862XX_REG_TRGCFG8 K.AW862XX_BIT_TRGCFG8_TRG3_POR_LEV_BRK_MASK
           (shl (trig_polar_lev_brk s.hap.trig2) 5),
         Ev.writes K.AW862XX_REG_TRGCFG3 [trig_pos_seq s.hap.trig2],
         Ev.writes K.AW862XX_REG_TRGCFG6 [trig_neg_seq s.hap.trig2]]) }) := by
  unfold aw862xx_haptic_trig_param_config
  unfold irq_pin_case at hirq
  rw [if_neg hirq, if_neg h31, if_neg h32, if_pos rfl]
  simp [haptic_nv_i2c_write_bits, haptic_nv_i2c_writes]

/-! ## The trigger attribute handler (C14) -/

theorem trig_param_config_hap (K : Hdr) (s : St) (pin : Int)
    (hirq : ¬ irq_pin_case K s.hap) :
    (aw862xx_haptic_trig_param_config K s pin).2.hap = s.hap := by
  unfold aw862xx_haptic_trig_param_config
  unfold irq_pin_case at hirq
  rw [if_neg hirq]
  unfold aw862xx_haptic_select_pin
  split_ifs <;> rfl

theorem trig_of_databuf_eq (K : Hdr) (d : trig_databuf) :
    trig_of_databuf K d = trig_parsed_mod K.TRIG_FIELD_BITS d := rfl

theorem set_trig_slot_irq (K : Hdr) (h : aw_haptic) (i : Nat) (t : aw_trig) :
    irq_pin_case K (set_trig_slot h i t) ↔ irq_pin_case K h := by
  unfold irq_pin_case set_trig_slot
  split_ifs <;> rfl

theorem trig_store_accepted (K : Hdr) (s : St) (d : trig_databuf)
    (h : ¬ ((single_trigger K s.hap ∧ d.d0 ≠ 0) ∨ d.d0 > 2 ∨ s.hap.ram_init = false ∨
        d.d4 > s.hap.ram_num ∨ d.d6 > s.hap.ram_num)) :
    trig_store K s (some d) =
      (aw862xx_haptic_trig_param_config K
        { s with hap := set_trig_slot s.hap d.d0 (trig_of_databuf K d) } d.d0).2 := by
  unfold trig_store single_trigger at *
  simp only []
  rw [if_neg (fun hc => h (Or.inl hc)), if_neg (fun hc => h (Or.inr (Or.inl hc))),
    if_neg (fun hc => h (Or.inr (Or.inr (Or.inl hc)))),
    if_neg (fun hc => h (Or.inr (Or.inr (Or.inr hc))))]

theorem trig_param_config_slot_ops (K : Hdr) (s : St) (i : Nat) (hi : i ≤ 2)
    (hirq : ¬ irq_pin_case K s.hap)
    (hpin : K.AW_TRIG1 = 0 ∧ K.AW_TRIG2 = 1 ∧ K.AW_TRIG3 = 2) :
    Ev.writes (trig_pos_reg K i) [trig_pos_seq (trig_slot s.hap i)]
      ∈ new_ops s (aw862xx_haptic_trig_param_config K s (i : Int)).2 ∧
    Ev.writes (trig_neg_reg K i) [trig_neg_seq (trig_slot s.hap i)]
      ∈ new_ops s (aw862xx_haptic_trig_param_config K s (i : Int)).2 := by
  obtain ⟨p1, p2, p3⟩ := hpin
  have h3 : i = 0 ∨ i = 1 ∨ i = 2 := by omega
  rcases h3 with h0 | h0 | h0 <;> subst h0
  · have e : ((0 : Nat) : Int) = K.AW_TRIG1 := by rw [p1]; rfl
    rw [e, trig_param_config_trig1 K s hirq, new_ops_append s _ _ rfl]
    simp [trig_pos_reg, trig_neg_reg, trig_slot]
  · have e : ((1 : Nat) : Int) = K.AW_TRIG2 := by rw [p2]; rfl
    rw [e, trig_param_config_trig2 K s hirq (by rw [p1, p2]; decide),
      new_ops_append s _ _ rfl]
    simp [trig_pos_reg, trig_neg_reg, trig_slot]
  · have e : ((2 : Nat) : Int) = K.AW_TRIG3 := by rw [p3]; rfl
    rw [e, trig_param_config_trig3 K s hirq (by rw [p1, p3]; decide) (by rw [p2, p3]; decide),
      new_ops_append s _ _ rfl]
    simp [trig_pos_reg, trig_neg_reg, trig_slot]

/-- Counterexample to C14: on the three-trigger sample device with eight bit
trigger fields the input `2 257 258 3 4 1 4 511` passes all four checks, and
the handler stores level 1, polarity 2 and brake 255 in `trig[2]`, not the
parsed values 257, 258 and 511. -/
theorem trig_store_truncates_parsed_values :
    ¬ ((single_trigger hdr0 st0.hap ∧ (2 : Nat) ≠ 0) ∨ (2 : Nat) > 2 ∨
        st0.hap.ram_init = false ∨ 4 > st0.hap.ram_num ∨ 4 > st0.hap.ram_num) ∧
    (trig_store hdr0 st0 (some ⟨2, 257, 258, 3, 4, 1, 4, 511⟩)).hap.trig2 =
      { trig_level := 1, trig_polar := 2, pos_enable := 3, pos_sequence := 4,
        neg_enable := 1, neg_sequence := 4, trig_brk := 255 } ∧
    (trig_store hdr0 st0 (some ⟨2, 257, 258, 3, 4, 1, 4, 511⟩)).hap.trig2 ≠
      { trig_level := 257, trig_polar := 258, pos_enable := 3, pos_sequence := 4,
        neg_enable := 1, neg_sequence := 4, trig_brk := 511 } := by
  refine ⟨by unfold single_trigger; decide, by decide, by decide⟩

/-- C14 (amended): `trig_store` rejects atomically.  If the parsed pin index is
non-zero on a single-trigger variant, or greater than 2, or `ram_init` is
false, or the positive or negative sequence index exceeds `ram.ram_num`, or
`sscanf` did not deliver eight values, the state is returned unchanged: no
trigger field changes and no bus operation is performed.  Otherwise the
handler stores the seven parsed values reduced to the width of the trigger
fields (a value that does not fit is truncated, neither rejected nor stored as
parsed) and then runs `aw862xx_haptic_trig_param_config` for that pin.
Outside the IRQ-pin case the context on return holds exactly these reduced
values in `trig[pin]`, the other trigger slots and all other fields are
unchanged, the stored values are the parsed ones whenever they all fit, and
(with the pin constants 0, 1, 2) the sequence registers of the pin have been
written from the stored values. -/
theorem trig_store_rejects_or_stores_reduced (K : Hdr) (s : St) (d : trig_databuf) :
    trig_store K s none = s ∧
    ((single_trigger K s.hap ∧ d.d0 ≠ 0) ∨ d.d0 > 2 ∨ s.hap.ram_init = false ∨
        d.d4 > s.hap.ram_num ∨ d.d6 > s.hap.ram_num →
      trig_store K s (some d) = s) ∧
    (¬ ((single_trigger K s.hap ∧ d.d0 ≠ 0) ∨ d.d0 > 2 ∨ s.hap.ram_init = false ∨
        d.d4 > s.hap.ram_num ∨ d.d6 > s.hap.ram_num) →
      trig_store K s (some d) =
        (aw862xx_haptic_trig_param_config K
          { s with hap := set_trig_slot s.hap d.d0 (trig_parsed_mod K.TRIG_FIELD_BITS d) }
          d.d0).2 ∧
      (¬ irq_pin_case K s.hap →
        trig_slot (trig_store K s (some d)).hap d.d0 = trig_parsed_mod K.TRIG_FIELD_BITS d ∧
        (∀ j, j ≤ 2 → j ≠ d.d0 →
          trig_slot (trig_store K s (some d)).hap j = trig_slot s.hap j) ∧
        { (trig_store K s (some d)).hap with
            trig0 := s.hap.trig0, trig1 := s.hap.trig1, trig2 := s.hap.trig2 } = s.hap ∧
        (d.d1 < 2 ^ K.TRIG_FIELD_BITS ∧ d.d2 < 2 ^ K.TRIG_FIELD_BITS ∧
            d.d3 < 2 ^ K.TRIG_FIELD_BITS ∧ d.d4 < 2 ^ K.TRIG_FIELD_BITS ∧
            d.d5 < 2 ^ K.TRIG_FIELD_BITS ∧ d.d6 < 2 ^ K.TRIG_FIELD_BITS ∧
            d.d7 < 2 ^ K.TRIG_FIELD_BITS →
          trig_slot (trig_store K s (some d)).hap d.d0 =
            { trig_level := d.d1, trig_polar := d.d2, pos_enable := d.d3,
              pos_sequence := d.d4, neg_enable := d.d5, neg_sequence := d.d6,
              trig_brk := d.d7 }) ∧
        (K.AW_TRIG1 = 0 ∧ K.AW_TRIG2 = 1 ∧ K.AW_TRIG3 = 2 →
          Ev.writes (trig_pos_reg K d.d0)
              [trig_pos_seq (trig_parsed_mod K.TRIG_FIELD_BITS d)]
            ∈ new_ops s (trig_store K s (some d)) ∧
          Ev.writes (trig_neg_reg K d.d0)
              [trig_neg_seq (trig_parsed_mod K.TRIG_FIELD_BITS d)]
            ∈ new_ops s (trig_store K s (some d))))) := by
  refine ⟨rfl, ?_, ?_⟩
  · intro h
    unfold trig_store single_trigger at *
    simp only []
    split_ifs with h1 h2 h3 h4
    · rfl
    · rfl
    · rfl
    · rfl
    · exfalso
      rcases h with h | h | h | h | h
      · exact h1 h
      · exact h2 h
      · exact h3 h
      · exact h4 (Or.inl h)
      · exact h4 (Or.inr h)
  · intro h
    have hi : d.d0 ≤ 2 := by
      by_contra hc
      exact h (Or.inr (Or.inl (by omega)))
    have hacc := trig_store_accepted K s d h
    rw [trig_of_databuf_eq] at hacc
    refine ⟨hacc, ?_⟩
    intro hirq
    have hirq2 : ¬ irq_pin_case K
        ({ s with hap := set_trig_slot s.hap d.d0 (trig_parsed_mod K.TRIG_FIELD_BITS d) } : St).hap :=
      fun hc => hirq ((set_trig_slot_irq K s.hap d.d0 _).mp hc)
    have hhap : (trig_store K s (some d)).hap
        = set_trig_slot s.hap d.d0 (trig_parsed_mod K.TRIG_FIELD_BITS d) := by
      rw [hacc, trig_param_config_hap K _ _ hirq2]
    obtain ⟨f1, f2, f3⟩ :=
      set_trig_slot_frame s.hap d.d0 (trig_parsed_mod K.TRIG_FIELD_BITS d) hi
    rw [hhap]
    refine ⟨f1, f2, f3, ?_, ?_⟩
    · rintro ⟨h1, h2, h3, h4, h5, h6, h7⟩
      rw [f1]
      unfold trig_parsed_mod
      rw [Nat.mod_eq_of_lt h1, Nat.mod_eq_of_lt h2, Nat.mod_eq_of_lt h3, Nat.mod_eq_of_lt h4,
        Nat.mod_eq_of_lt h5, Nat.mod_eq_of_lt h6, Nat.mod_eq_of_lt h7]
    · intro hpin
      have hops := trig_param_config_slot_ops K
        ({ s with hap := set_trig_slot s.hap d.d0 (trig_parsed_mod K.TRIG_FIELD_BITS d) } : St)
        d.d0 hi hirq2 hpin
      simp only [f1] at hops
      rw [hacc]
      exact hops

/-- Witness for C14 (amended): on the three-trigger sample device the input
`1 1 0 1 3 0 2 1` is accepted and `trig[1]` holds the seven parsed values. -/
theorem trig_store_rejects_or_stores_reduced_witness :
    (trig_store hdr0 st0 (some ⟨1, 1, 0, 1, 3, 0, 2, 1⟩)).hap.trig1 = trig_sample := by
  have h := ((trig_store_rejects_or_stores_reduced hdr0 st0 ⟨1, 1, 0, 1, 3, 0, 2, 1⟩).2.2
    (by unfold single_trigger; decide)).2 (by unfold irq_pin_case; decide)
  exact h.2.2.2.1 (by decide)

theorem trig_regs_core (m : Int → Int) (pre : List Ev) (R7 M D P pv N nv S : Int)
    (hpre : ∀ a, a ≠ S → reg_run m pre a = m a)
    (h7S : R7 ≠ S) (hPN : P ≠ N) (h7N : R7 ≠ N) (h7P : R7 ≠ P) :
    reg_run m (pre ++ [Ev.write_bits R7 M D, Ev.writes P [pv], Ev.writes N [nv]]) P = toU8 pv ∧
    reg_run m (pre ++ [Ev.write_bits R7 M D, Ev.writes P [pv], Ev.writes N [nv]]) N = toU8 nv ∧
    reg_run m (pre ++ [Ev.write_bits R7 M D, Ev.writes P [pv], Ev.writes N [nv]]) R7
      = masked_write (m R7) M D ∧
    ∀ a, a ≠ P → a ≠ N → a ≠ R7 → a ≠ S →
      reg_run m (pre ++ [Ev.write_bits R7 M D, Ev.writes P [pv], Ev.writes N [nv]]) a = m a := by
  refine ⟨?_, ?_, ?_, ?_⟩
  · rw [reg_run_trig_ops, if_neg hPN, if_pos rfl]
  · rw [reg_run_trig_ops, if_pos rfl]
  · rw [reg_run_trig_ops, if_neg h7N, if_neg h7P, if_pos rfl, hpre R7 h7S]
  · intro a h1 h2 h3 h4
    rw [reg_run_trig_ops, if_neg h2, if_neg h1, if_neg h3, hpre a h4]

theorem trig_layout_ne (K : Hdr) (h : trig_layout K) :
    K.AW862XX_BIT_TRGCFG7_TRG1_POR_LEV_BRK_MASK = -225 ∧
    K.AW862XX_BIT_TRGCFG7_TRG2_POR_LEV_BRK_MASK = -15 ∧
    K.AW862XX_BIT_TRGCFG8_TRG3_POR_LEV_BRK_MASK = -225 ∧
    (K.AW_TRIG2 ≠ K.AW_TRIG1 ∧ K.AW_TRIG3 ≠ K.AW_TRIG1 ∧ K.AW_TRIG3 ≠ K.AW_TRIG2) ∧
    ∀ x y : Fin 9, x ≠ y →
      [K.AW862XX_REG_TRGCFG1, K.AW862XX_REG_TRGCFG2, K.AW862XX_REG_TRGCFG3,
        K.AW862XX_REG_TRGCFG4, K.AW862XX_REG_TRGCFG5, K.AW862XX_REG_TRGCFG6,
        K.AW862XX_REG_TRGCFG7, K.AW862XX_REG_TRGCFG8, K.AW862XX_REG_SYSCTRL2].get x ≠
      [K.AW862XX_REG_TRGCFG1, K.AW862XX_REG_TRGCFG2, K.AW862XX_REG_TRGCFG3,
        K.AW862XX_REG_TRGCFG4, K.AW862XX_REG_TRGCFG5, K.AW862XX_REG_TRGCFG6,
        K.AW862XX_REG_TRGCFG7, K.AW862XX_REG_TRGCFG8, K.AW862XX_REG_SYSCTRL2].get y := by
  obtain ⟨m1, m2, m3, hr, hp⟩ := h
  refine ⟨m1, m2, m3, ?_, ?_⟩
  · simp only [List.nodup_cons, List.mem_cons, List.mem_singleton, List.not_mem_nil, not_or,
      or_false] at hp
    obtain ⟨⟨a, b⟩, c, -⟩ := hp
    exact ⟨Ne.symm a, Ne.symm b, Ne.symm c⟩
  · intro x y hxy he
    exact hxy (List.nodup_iff_injective_get.mp hr he)

theorem trig_roundtrip_pin1 (K : Hdr) (s : St) (m : Int → Int)
    (hK : trig_layout K) (hirq : ¬ irq_pin_case K s.hap)
    (hp : trig_params_ok s.hap.trig0) (hm : ∀ a, 0 ≤ m a ∧ m a < 256) :
    (aw862xx_haptic_trig_param_config K s K.AW_TRIG1).1 = 0 ∧
    (aw862xx_haptic_trig_param_config K s K.AW_TRIG1).2.hap = s.hap ∧
    reg_run m (new_ops s (aw862xx_haptic_trig_param_config K s K.AW_TRIG1).2)
        K.AW862XX_REG_TRGCFG1
      = Int.lor (shl s.hap.trig0.pos_enable 7) s.hap.trig0.pos_sequence ∧
    reg_run m (new_ops s (aw862xx_haptic_trig_param_config K s K.AW_TRIG1).2)
        K.AW862XX_REG_TRGCFG4
      = Int.lor (shl s.hap.trig0.neg_enable 7) s.hap.trig0.neg_sequence ∧
    trig_field K (reg_run m (new_ops s (aw862xx_haptic_trig_param_config K s K.AW_TRIG1).2)) 0
      = Int.lor (Int.lor (shl s.hap.trig0.trig_polar 2) (shl s.hap.trig0.trig_level 1))
          s.hap.trig0.trig_brk ∧
    trig_readback K (reg_run m (new_ops s (aw862xx_haptic_trig_param_config K s K.AW_TRIG1).2)) 0
      = s.hap.trig0 ∧
    (∀ j, j = 1 ∨ j = 2 →
      trig_field K (reg_run m (new_ops s (aw862xx_haptic_trig_param_config K s K.AW_TRIG1).2)) j
        = trig_field K m j ∧
      reg_run m (new_ops s (aw862xx_haptic_trig_param_config K s K.AW_TRIG1).2)
        (trig_pos_reg K j) = m (trig_pos_reg K j) ∧
      reg_run m (new_ops s (aw862xx_haptic_trig_param_config K s K.AW_TRIG1).2)
        (trig_neg_reg K j) = m (trig_neg_reg K j)) := by
  obtain ⟨m1, -, -, -, hne⟩ := trig_layout_ne K hK
  have hc := trig_param_config_trig1 K s hirq
  rw [m1] at hc
  have h1 : (aw862xx_haptic_trig_param_config K s K.AW_TRIG1).1 = 0 := by rw [hc]
  have h2 : (aw862xx_haptic_trig_param_config K s K.AW_TRIG1).2.hap = s.hap := by rw [hc]
  have hops := new_ops_append s (aw862xx_haptic_trig_param_config K s K.AW_TRIG1).2 _
    (by rw [hc])
  rw [hops]
  obtain ⟨cP, cN, c7, cO⟩ := trig_regs_core m
    (if s.hap.name = K.AW86224 ∨ s.hap.name = K.AW86225 then
      [Ev.write_bits K.AW862XX_REG_SYSCTRL2 K.AW862XX_BIT_SYSCTRL2_INTN_PIN_MASK
        K.AW862XX_BIT_SYSCTRL2_TRIG1] else [])
    K.AW862XX_REG_TRGCFG7 (-225)
    (shl (trig_polar_lev_brk s.hap.trig0) 5)
    K.AW862XX_REG_TRGCFG1 (trig_pos_seq s.hap.trig0)
    K.AW862XX_REG_TRGCFG4 (trig_neg_seq s.hap.trig0) K.AW862XX_REG_SYSCTRL2
    (fun a ha => reg_run_select m _ _ _ a _ ha)
    (hne 6 8 (by decide)) (hne 0 3 (by decide)) (hne 6 3 (by decide)) (hne 6 0 (by decide))
  obtain ⟨b1, b2, b3, b4, b5, b6⟩ := polar_lev_brk_bits s.hap.trig0 hp
  obtain ⟨p1, p2, p3⟩ := pos_seq_bits s.hap.trig0 hp
  obtain ⟨n1, n2, n3⟩ := neg_seq_bits s.hap.trig0 hp
  obtain ⟨f1, f2⟩ := masked_write_field_hi (m K.AW862XX_REG_TRGCFG7)
    (trig_polar_lev_brk s.hap.trig0) (hm _) ⟨b2, b3⟩
  have hfield : trig_field K (reg_run m
      ((if s.hap.name = K.AW86224 ∨ s.hap.name = K.AW86225 then
        [Ev.write_bits K.AW862XX_REG_SYSCTRL2 K.AW862XX_BIT_SYSCTRL2_INTN_PIN_MASK
          K.AW862XX_BIT_SYSCTRL2_TRIG1] else []) ++
        [Ev.write_bits K.AW862XX_REG_TRGCFG7 (-225)
           (shl (trig_polar_lev_brk s.hap.trig0) 5),
         Ev.writes K.AW862XX_REG_TRGCFG1 [trig_pos_seq s.hap.trig0],
         Ev.writes K.AW862XX_REG_TRGCFG4 [trig_neg_seq s.hap.trig0]])) 0
      = trig_polar_lev_brk s.hap.trig0 := by
    simp only [trig_field, if_true]
    rw [c7, f1]
  refine ⟨h1, h2, ?_, ?_, ?_, ?_, ?_⟩
  · rw [cP, p1]
  · rw [cN, n1]
  · rw [hfield, b1]
  · unfold trig_readback
    rw [hfield]
    simp only [trig_pos_reg, trig_neg_reg, if_true]
    rw [cP, cN, b4, b5, b6, p2, p3, n2, n3]
  · intro j hj
    rcases hj with hj | hj <;> subst hj
    · refine ⟨?_, ?_, ?_⟩
      · simp only [trig_field, one_ne_zero, if_false, if_true]
        rw [c7, f2]
      · simp only [trig_pos_reg, one_ne_zero, if_false, if_true]
        exact cO _ (hne 1 0 (by decide)) (hne 1 3 (by decide)) (hne 1 6 (by decide))
          (hne 1 8 (by decide))
      · simp only [trig_neg_reg, one_ne_zero, if_false, if_true]
        exact cO _ (hne 4 0 (by decide)) (hne 4 3 (by decide)) (hne 4 6 (by decide))
          (hne 4 8 (by decide))
    · refine ⟨?_, ?_, ?_⟩
      · simp only [trig_field, OfNat.ofNat_ne_zero, OfNat.ofNat_ne_one, if_false]
        exact congrArg (fun x => shr (Int.land x 0xE0) 5)
          (cO K.AW862XX_REG_TRGCFG8 (hne 7 0 (by decide)) (hne 7 3 (by decide))
            (hne 7 6 (by decide)) (hne 7 8 (by decide)))
      · simp only [trig_pos_reg, OfNat.ofNat_ne_zero, OfNat.ofNat_ne_one, if_false]
        exact cO _ (hne 2 0 (by decide)) (hne 2 3 (by decide)) (hne 2 6 (by decide))
          (hne 2 8 (by decide))
      · simp only [trig_neg_reg, OfNat.ofNat_ne_zero, OfNat.ofNat_ne_one, if_false]
        exact cO _ (hne 5 0 (by decide)) (hne 5 3 (by decide)) (hne 5 6 (by decide))
          (hne 5 8 (by decide))


theorem trig_roundtrip_pin2 (K : Hdr) (s : St) (m : Int → Int)
    (hK : trig_layout K) (hirq : ¬ irq_pin_case K s.hap)
    (hp : trig_params_ok s.hap.trig1) (hm : ∀ a, 0 ≤ m a ∧ m a < 256) :
    (aw862xx_haptic_trig_param_config K s K.AW_TRIG2).1 = 0 ∧
    (aw862xx_haptic_trig_param_config K s K.AW_TRIG2).2.hap = s.hap ∧
    reg_run m (new_ops s (aw862xx_haptic_trig_param_config K s K.AW_TRIG2).2)
        K.AW862XX_REG_TRGCFG2
      = Int.lor (shl s.hap.trig1.pos_enable 7) s.hap.trig1.pos_sequence ∧
    reg_run m (new_ops s (aw862xx_haptic_trig_param_config K s K.AW_TRIG2).2)
        K.AW862XX_REG_TRGCFG5
      = Int.lor (shl s.hap.trig1.neg_enable 7) s.hap.trig1.neg_sequence ∧
    trig_field K (reg_run m (new_ops s (aw862xx_haptic_trig_param_config K s K.AW_TRIG2).2)) 1
      = Int.lor (Int.lor (shl s.hap.trig1.trig_polar 2) (shl s.hap.trig1.trig_level 1))
          s.hap.trig1.trig_brk ∧
    trig_readback K (reg_run m (new_ops s (aw862xx_haptic_trig_param_config K s K.AW_TRIG2).2)) 1
      = s.hap.trig1 ∧
    (∀ j, j = 0 ∨ j = 2 →
      trig_field K (reg_run m (new_ops s (aw862xx_haptic_trig_param_config K s K.AW_TRIG2).2)) j
        = trig_field K m j ∧
      reg_run m (new_ops s (aw862xx_haptic_trig_param_config K s K.AW_TRIG2).2)
        (trig_pos_reg K j) = m (trig_pos_reg K j) ∧
      reg_run m (new_ops s (aw862xx_haptic_trig_param_config K s K.AW_TRIG2).2)
        (trig_neg_reg K j) = m (trig_neg_reg K j)) := by
  obtain ⟨-, mk, -, -, hne⟩ := trig_layout_ne K hK
  have hc := trig_param_config_trig2 K s hirq (trig_layout_ne K hK).2.2.2.1.1
  rw [mk] at hc
  have h1 : (aw862xx_haptic_trig_param_config K s K.AW_TRIG2).1 = 0 := by rw [hc]
  have h2 : (aw862xx_haptic_trig_param_config K s K.AW_TRIG2).2.hap = s.hap := by rw [hc]
  have hops := new_ops_append s (aw862xx_haptic_trig_param_config K s K.AW_TRIG2).2 _
    (by rw [hc])
  rw [hops]
  obtain ⟨cP, cN, c7, cO⟩ := trig_regs_core m []
    K.AW862XX_REG_TRGCFG7 (-15)
    (shl (trig_polar_lev_brk s.hap.trig1) 1)
    K.AW862XX_REG_TRGCFG2 (trig_pos_seq s.hap.trig1)
    K.AW862XX_REG_TRGCFG5 (trig_neg_seq s.hap.trig1) K.AW862XX_REG_SYSCTRL2
    (fun a _ => rfl)
    (hne 6 8 (by decide)) (hne 1 4 (by decide)) (hne 6 4 (by decide))
    (hne 6 1 (by decide))
  obtain ⟨b1, b2, b3, b4, b5, b6⟩ := polar_lev_brk_bits s.hap.trig1 hp
  obtain ⟨p1, p2, p3⟩ := pos_seq_bits s.hap.trig1 hp
  obtain ⟨n1, n2, n3⟩ := neg_seq_bits s.hap.trig1 hp
  obtain ⟨f1, f2⟩ := masked_write_field_lo (m K.AW862XX_REG_TRGCFG7)
    (trig_polar_lev_brk s.hap.trig1) (hm _) ⟨b2, b3⟩
  have hfield : trig_field K (reg_run m ([] ++
        [Ev.write_bits K.AW862XX_REG_TRGCFG7 (-15)
           (shl (trig_polar_lev_brk s.hap.trig1) 1),
         Ev.writes K.AW862XX_REG_TRGCFG2 [trig_pos_seq s.hap.trig1],
         Ev.writes K.AW862XX_REG_TRGCFG5 [trig_neg_seq s.hap.trig1]])) 1
      = trig_polar_lev_brk s.hap.trig1 := by
    simp only [trig_field, one_ne_zero, if_false, if_true]
    rw [c7, f1]
  refine ⟨h1, h2, ?_, ?_, ?_, ?_, ?_⟩
  · rw [cP, p1]
  · rw [cN, n1]
  · rw [hfield, b1]
  · unfold trig_readback
    rw [hfield]
    simp only [trig_pos_reg, trig_neg_reg, one_ne_zero, if_false, if_true]
    rw [cP, cN, b4, b5, b6, p2, p3, n2, n3]
  · intro j hj
    rcases hj with hj | hj <;> subst hj
    · refine ⟨?_, ?_, ?_⟩
      · simp only [trig_field, if_true]
        rw [c7, f2]
      · simp only [trig_pos_reg, if_true]
        exact cO _ (hne 0 1 (by decide)) (hne 0 4 (by decide))
          (hne 0 6 (by decide)) (hne 0 8 (by decide))
      · simp only [trig_neg_reg, if_true]
        exact cO _ (hne 3 1 (by decide)) (hne 3 4 (by decide))
          (hne 3 6 (by decide)) (hne 3 8 (by decide))
    · refine ⟨?_, ?_, ?_⟩
      · simp only [trig_field, OfNat.ofNat_ne_zero, OfNat.ofNat_ne_one, if_false]
        exact congrArg (fun x => shr (Int.land x 0xE0) 5)
          (cO K.AW862XX_REG_TRGCFG8 (hne 7 1 (by decide)) (hne 7 4 (by decide))
            (hne 7 6 (by decide)) (hne 7 8 (by decide)))
      · simp only [trig_pos_reg, OfNat.ofNat_ne_zero, OfNat.ofNat_ne_one, if_false]
        exact cO _ (hne 2 1 (by decide)) (hne 2 4 (by decide))
          (hne 2 6 (by decide)) (hne 2 8 (by decide))
      · simp only [trig_neg_reg, OfNat.ofNat_ne_zero, OfNat.ofNat_ne_one, if_false]
        exact cO _ (hne 5 1 (by decide)) (hne 5 4 (by decide))
          (hne 5 6 (by decide)) (hne 5 8 (by decide))

theorem trig_roundtrip_pin3 (K : Hdr) (s : St) (m : Int → Int)
    (hK : trig_layout K) (hirq : ¬ irq_pin_case K s.hap)
    (hp : trig_params_ok s.hap.trig2) (hm : ∀ a, 0 ≤ m a ∧ m a < 256) :
    (aw862xx_haptic_trig_param_config K s K.AW_TRIG3).1 = 0 ∧
    (aw862xx_haptic_trig_param_config K s K.AW_TRIG3).2.hap = s.hap ∧
    reg_run m (new_ops s (aw862xx_haptic_trig_param_config K s K.AW_TRIG3).2)
        K.AW862XX_REG_TRGCFG3
      = Int.lor (shl s.hap.trig2.pos_enable 7) s.hap.trig2.pos_sequence ∧
    reg_run m (new_ops s (aw862xx_haptic_trig_param_config K s K.AW_TRIG3).2)
        K.AW862XX_REG_TRGCFG6
      = Int.lor (shl s.hap.trig2.neg_enable 7) s.hap.trig2.neg_sequence ∧
    trig_field K (reg_run m (new_ops s (aw862xx_haptic_trig_param_config K s K.AW_TRIG3).2)) 2
      = Int.lor (Int.lor (shl s.hap.trig2.trig_polar 2) (shl s.hap.trig2.trig_level 1))
          s.hap.trig2.trig_brk ∧
    trig_readback K (reg_run m (new_ops s (aw862xx_haptic_trig_param_config K s K.AW_TRIG3).2)) 2
      = s.hap.trig2 ∧
    (∀ j, j = 0 ∨ j = 1 →
      trig_field K (reg_run m (new_ops s (aw862xx_haptic_trig_param_config K s K.AW_TRIG3).2)) j
        = trig_field K m j ∧
      reg_run m (new_ops s (aw862xx_haptic_trig_param_config K s K.AW_TRIG3).2)
        (trig_pos_reg K j) = m (trig_pos_reg K j) ∧
      reg_run m (new_ops s (aw862xx_haptic_trig_param_config K s K.AW_TRIG3).2)
        (trig_neg_reg K j) = m (trig_neg_reg K j)) := by
  obtain ⟨-, -, mk, -, hne⟩ := trig_layout_ne K hK
  have hc := trig_param_config_trig3 K s hirq (trig_layout_ne K hK).2.2.2.1.2.1 (trig_layout_ne K hK).2.2.2.1.2.2
  rw [mk] at hc
  have h1 : (aw862xx_haptic_trig_param_config K s K.AW_TRIG3).1 = 0 := by rw [hc]
  have h2 : (aw862xx_haptic_trig_param_config K s K.AW_TRIG3).2.hap = s.hap := by rw [hc]
  have hops := new_ops_append s (aw862xx_haptic_trig_param_config K s K.AW_TRIG3).2 _
    (by rw [hc])
  rw [hops]
  obtain ⟨cP, cN, c7, cO⟩ := trig_regs_core m []
    K.AW862XX_REG_TRGCFG8 (-225)
    (shl (trig_polar_lev_brk s.hap.trig2) 5)
    K.AW862XX_REG_TRGCFG3 (trig_pos_seq s.hap.trig2)
    K.AW862XX_REG_TRGCFG6 (trig_neg_seq s.hap.trig2) K.AW862XX_REG_SYSCTRL2
    (fun a _ => rfl)
    (hne 7 8 (by decide)) (hne 2 5 (by decide)) (hne 7 5 (by decide))
    (hne 7 2 (by decide))
  obtain ⟨b1, b2, b3, b4, b5, b6⟩ := polar_lev_brk_bits s.hap.trig2 hp
  obtain ⟨p1, p2, p3⟩ := pos_seq_bits s.hap.trig2 hp
  obtain ⟨n1, n2, n3⟩ := neg_seq_bits s.hap.trig2 hp
  obtain ⟨f1, f2⟩ := masked_write_field_hi (m K.AW862XX_REG_TRGCFG8)
    (trig_polar_lev_brk s.hap.trig2) (hm _) ⟨b2, b3⟩
  have hfield : trig_field K (reg_run m ([] ++
        [Ev.write_bits K.AW862XX_REG_TRGCFG8 (-225)
           (shl (trig_polar_lev_brk s.hap.trig2) 5),
         Ev.writes K.AW862XX_REG_TRGCFG3 [trig_pos_seq s.hap.trig2],
         Ev.writes K.AW862XX_REG_TRGCFG6 [trig_neg_seq s.hap.trig2]])) 2
      = trig_polar_lev_brk s.hap.trig2 := by
    simp only [trig_field, OfNat.ofNat_ne_zero, OfNat.ofNat_ne_one, if_false]
    rw [c7, f1]
  refine ⟨h1, h2, ?_, ?_, ?_, ?_, ?_⟩
  · rw [cP, p1]
  · rw [cN, n1]
  · rw [hfield, b1]
  · unfold trig_readback
    rw [hfield]
    simp only [trig_pos_reg, trig_neg_reg, OfNat.ofNat_ne_zero, OfNat.ofNat_ne_one, if_false]
    rw [cP, cN, b4, b5, b6, p2, p3, n2, n3]
  · intro j hj
    rcases hj with hj | hj <;> subst hj
    · refine ⟨?_, ?_, ?_⟩
      · simp only [trig_field, if_true]
        exact congrArg (fun x => shr (Int.land x 0xE0) 5)
          (cO K.AW862XX_REG_TRGCFG7 (hne 6 2 (by decide)) (hne 6 5 (by decide))
            (hne 6 7 (by decide)) (hne 6 8 (by decide)))
      · simp only [trig_pos_reg, if_true]
        exact cO _ (hne 0 2 (by decide)) (hne 0 5 (by decide))
          (hne 0 7 (by decide)) (hne 0 8 (by decide))
      · simp only [trig_neg_reg, if_true]
        exact cO _ (hne 3 2 (by decide)) (hne 3 5 (by decide))
          (hne 3 7 (by decide)) (hne 3 8 (by decide))
    · refine ⟨?_, ?_, ?_⟩
      · simp only [trig_field, one_ne_zero, if_false, if_true]
        exact congrArg (fun x => shr (Int.land x 0x0E) 1)
          (cO K.AW862XX_REG_TRGCFG7 (hne 6 2 (by decide)) (hne 6 5 (by decide))
            (hne 6 7 (by decide)) (hne 6 8 (by decide)))
      · simp only [trig_pos_reg, one_ne_zero, if_false, if_true]
        exact cO _ (hne 1 2 (by decide)) (hne 1 5 (by decide))
          (hne 1 7 (by decide)) (hne 1 8 (by decide))
      · simp only [trig_neg_reg, one_ne_zero, if_false, if_true]
        exact cO _ (hne 4 2 (by decide)) (hne 4 5 (by decide))
          (hne 4 7 (by decide)) (hne 4 8 (by decide))

/-- C13: on a header with the trigger layout of the code (masks clearing the
three bit fields, distinct registers and pin constants), outside the
AW86224/AW86225 IRQ-pin case, for trigger pin `i + 1` with `i <= 2` whose
configuration has level, polarity, brake and the two enables in `{0, 1}` and
both sequence indices below 128, and over a register map of bytes in which a
masked write replaces exactly the masked field:
`aw862xx_haptic_trig_param_config` returns 0 and leaves the context unchanged;
afterwards the positive-sequence register of the pin holds
`pos_enable << 7 | pos_sequence`, its negative-sequence register holds
`neg_enable << 7 | neg_sequence`, and its three bit field of `TRGCFG7` or
`TRGCFG8` holds `polarity << 2 | level << 1 | brake`; reading the three
registers back recovers all seven parameters; and the fields and sequence
registers of the other two pins are as before. -/
theorem trig_param_config_roundtrip (K : Hdr) (s : St) (i : Nat) (m : Int → Int)
    (hK : trig_layout K) (hi : i ≤ 2) (hirq : ¬ irq_pin_case K s.hap)
    (hp : trig_params_ok (trig_slot s.hap i)) (hm : ∀ a, 0 ≤ m a ∧ m a < 256) :
    (aw862xx_haptic_trig_param_config K s (trig_pin K i)).1 = 0 ∧
    (aw862xx_haptic_trig_param_config K s (trig_pin K i)).2.hap = s.hap ∧
    reg_run m (new_ops s (aw862xx_haptic_trig_param_config K s (trig_pin K i)).2)
        (trig_pos_reg K i)
      = Int.lor (shl (trig_slot s.hap i).pos_enable 7) (trig_slot s.hap i).pos_sequence ∧
    reg_run m (new_ops s (aw862xx_haptic_trig_param_config K s (trig_pin K i)).2)
        (trig_neg_reg K i)
      = Int.lor (shl (trig_slot s.hap i).neg_enable 7) (trig_slot s.hap i).neg_sequence ∧
    trig_field K
        (reg_run m (new_ops s (aw862xx_haptic_trig_param_config K s (trig_pin K i)).2)) i
      = Int.lor (Int.lor (shl (trig_slot s.hap i).trig_polar 2)
          (shl (trig_slot s.hap i).trig_level 1)) (trig_slot s.hap i).trig_brk ∧
    trig_readback K
        (reg_run m (new_ops s (aw862xx_haptic_trig_param_config K s (trig_pin K i)).2)) i
      = trig_slot s.hap i ∧
    (∀ j, j ≤ 2 → j ≠ i →
      trig_field K
          (reg_run m (new_ops s (aw862xx_haptic_trig_param_config K s (trig_pin K i)).2)) j
        = trig_field K m j ∧
      reg_run m (new_ops s (aw862xx_haptic_trig_param_config K s (trig_pin K i)).2)
        (trig_pos_reg K j) = m (trig_pos_reg K j) ∧
      reg_run m (new_ops s (aw862xx_haptic_trig_param_config K s (trig_pin K i)).2)
        (trig_neg_reg K j) = m (trig_neg_reg K j)) := by
  have h3 : i = 0 ∨ i = 1 ∨ i = 2 := by omega
  rcases h3 with h | h | h <;> subst h
  · obtain ⟨a1, a2, a3, a4, a5, a6, a7⟩ := trig_roundtrip_pin1 K s m hK hirq hp hm
    exact ⟨a1, a2, a3, a4, a5, a6, fun j hj hne => a7 j (by omega)⟩
  · obtain ⟨a1, a2, a3, a4, a5, a6, a7⟩ := trig_roundtrip_pin2 K s m hK hirq hp hm
    exact ⟨a1, a2, a3, a4, a5, a6, fun j hj hne => a7 j (by omega)⟩
  · obtain ⟨a1, a2, a3, a4, a5, a6, a7⟩ := trig_roundtrip_pin3 K s m hK hirq hp hm
    exact ⟨a1, a2, a3, a4, a5, a6, fun j hj hne => a7 j (by omega)⟩

/-- Witness for C13: the sample header has the trigger layout; configuring
trigger 2 with the sample parameters over an all-zero register map and reading
the registers back gives the sample parameters. -/
theorem trig_param_config_roundtrip_witness :
    (trig_layout hdr0 ∧ ¬ irq_pin_case hdr0 st0.hap ∧ trig_params_ok trig_sample) ∧
    trig_readback hdr0
        (reg_run (fun _ => 0)
          (new_ops { st0 with hap := { st0.hap with trig1 := trig_sample } }
            (aw862xx_haptic_trig_param_config hdr0
              { st0 with hap := { st0.hap with trig1 := trig_sample } } (trig_pin hdr0 1)).2)) 1
      = trig_sample := by
  have hl : trig_layout hdr0 := by unfold trig_layout; decide
  have hq : ¬ irq_pin_case hdr0 st0.hap := by unfold irq_pin_case; decide
  have ht : trig_params_ok trig_sample := by unfold trig_params_ok; decide
  exact ⟨⟨hl, hq, ht⟩,
    (trig_param_config_roundtrip hdr0 { st0 with hap := { st0.hap with trig1 := trig_sample } }
      1 (fun _ => 0) hl (by decide) hq ht (fun _ => ⟨le_refl 0, show (0 : Int) < 256 by decide⟩)).2.2.2.2.2.1⟩


/-! ## Drive level at initialisation (C21) -/

theorem sram_size_hap (K : Hdr) (s : St) (f : Int) : (aw862xx_sram_size K s f).hap = s.hap := by
  unfold aw862xx_sram_size
  split_ifs <;> rfl

theorem config_hap (K : Hdr) (s : St) : (aw862xx_config K s).hap = s.hap := by
  unfold aw862xx_config
  simp only []
  split_ifs <;> simp [haptic_nv_i2c_write_bits, haptic_nv_i2c_writes, sram_size_hap]

theorem protect_config_hap (K : Hdr) (s : St) (t l : Int) :
    (aw862xx_protect_config K s t l).hap = s.hap := by
  unfold aw862xx_protect_config
  simp only []
  split_ifs <;> rfl

theorem misc_para_init_info (K : Hdr) (inp : Nat → Nat) (s : St) :
    (aw862xx_misc_para_init K inp s).hap.info =
      { s.hap.info with cont_drv2_lvl := misc_para_drv2_lvl K s.hap.info } := by
  unfold aw862xx_misc_para_init
  simp only [protect_config_hap, set_pwm_hap, config_hap]
  split_ifs <;> rfl

theorem misc_para_drv2_lvl_eq (K : Hdr) (info : aw_haptic_dts_info)
    (hmax : 0 ≤ K.AW862XX_DRV2_LVL_MAX ∧ K.AW862XX_DRV2_LVL_MAX < 4294967296) :
    ((misc_para_drv2_lvl K info : Nat) : Int) =
      min (toU32 (K.AW862XX_DRV2_LVL_FORMULA info.f0_pre info.lra_vrms))
        K.AW862XX_DRV2_LVL_MAX := by
  have hM : toU32 K.AW862XX_DRV2_LVL_MAX = K.AW862XX_DRV2_LVL_MAX := by
    unfold toU32; omega
  have hv : 0 ≤ toU32 (K.AW862XX_DRV2_LVL_FORMULA info.f0_pre info.lra_vrms) := by
    unfold toU32; omega
  unfold misc_para_drv2_lvl
  simp only [hM]
  split_ifs with h
  · rw [Int.toNat_of_nonneg hmax.1, min_eq_right (le_of_lt h)]
  · rw [Int.toNat_of_nonneg hv, min_eq_left (not_lt.mp h)]

/-- C21: after `aw862xx_misc_para_init` the drive level `info.cont_drv2_lvl`
equals the smaller of the value of `AW862XX_DRV2_LVL_FORMULA(f0_pre, lra_vrms)`
(as converted to the unsigned type of the field) and `AW862XX_DRV2_LVL_MAX`,
for every `f0_pre` and `lra_vrms`; so it never exceeds the maximum and is never
negative.  When the formula value is already a value of the field type, the
level is the minimum of that value and the maximum.  The maximum is taken to
be a constant of the field type. -/
theorem misc_para_init_clamps_drv2_lvl (K : Hdr) (inp : Nat → Nat) (s : St)
    (hmax : 0 ≤ K.AW862XX_DRV2_LVL_MAX ∧ K.AW862XX_DRV2_LVL_MAX < 4294967296) :
    (((aw862xx_misc_para_init K inp s).hap.info.cont_drv2_lvl : Nat) : Int) =
        min (toU32 (K.AW862XX_DRV2_LVL_FORMULA s.hap.info.f0_pre s.hap.info.lra_vrms))
          K.AW862XX_DRV2_LVL_MAX ∧
    (((aw862xx_misc_para_init K inp s).hap.info.cont_drv2_lvl : Nat) : Int)
        ≤ K.AW862XX_DRV2_LVL_MAX ∧
    (0 : Int) ≤ (((aw862xx_misc_para_init K inp s).hap.info.cont_drv2_lvl : Nat) : Int) ∧
    (0 ≤ K.AW862XX_DRV2_LVL_FORMULA s.hap.info.f0_pre s.hap.info.lra_vrms ∧
      K.AW862XX_DRV2_LVL_FORMULA s.hap.info.f0_pre s.hap.info.lra_vrms < 4294967296 →
      (((aw862xx_misc_para_init K inp s).hap.info.cont_drv2_lvl : Nat) : Int) =
        min (K.AW862XX_DRV2_LVL_FORMULA s.hap.info.f0_pre s.hap.info.lra_vrms)
          K.AW862XX_DRV2_LVL_MAX) := by
  have h := misc_para_drv2_lvl_eq K s.hap.info hmax
  rw [misc_para_init_info]
  show ((misc_para_drv2_lvl K s.hap.info : Nat) : Int) = _ ∧ _
  refine ⟨h, ?_, Int.ofNat_nonneg _, ?_⟩
  · rw [h]; exact min_le_right _ _
  · intro hf
    rw [h]
    have : toU32 (K.AW862XX_DRV2_LVL_FORMULA s.hap.info.f0_pre s.hap.info.lra_vrms)
        = K.AW862XX_DRV2_LVL_FORMULA s.hap.info.f0_pre s.hap.info.lra_vrms := by
      unfold toU32; omega
    rw [this]

/-- Witness for C21: nominal 1700 and a drive voltage of 1000 give level 29;
a drive voltage of 9000 gives 266, which is cut to the maximum 127. -/
theorem misc_para_init_clamps_drv2_lvl_witness :
    (0 ≤ hdr0.AW862XX_DRV2_LVL_MAX ∧ hdr0.AW862XX_DRV2_LVL_MAX < 4294967296) ∧
    (aw862xx_misc_para_init hdr0 (fun _ => 0) st0).hap.info.cont_drv2_lvl = 29 ∧
    (aw862xx_misc_para_init hdr0 (fun _ => 0)
      { st0 with hap := { st0.hap with info := { st0.hap.info with lra_vrms := 9000 } } }
      ).hap.info.cont_drv2_lvl = 127 := by
  have h := misc_para_init_clamps_drv2_lvl hdr0 (fun _ => 0) st0 (by decide)
  refine ⟨by decide, ?_, ?_⟩
  · have h1 := h.1
    rw [show toU32 (hdr0.AW862XX_DRV2_LVL_FORMULA st0.hap.info.f0_pre st0.hap.info.lra_vrms)
      = 29 by decide,
      show min (29 : Int) hdr0.AW862XX_DRV2_LVL_MAX = 29 by decide] at h1
    exact_mod_cast h1
  · rw [misc_para_init_info]; decide

/-! ## Determinism of the calibration byte (C22) -/

theorem f0_cali_byte_defined (K : Hdr) (f0 f0_pre : Nat)
    (h : toInt32 (toInt32 f0_pre * K.AW862XX_F0_CALI_ACCURACY) ≠ 0) :
    ∃ b, f0_cali_byte K f0 f0_pre = some b := by
  unfold f0_cali_byte f0_cali_step
  simp only []
  rw [if_neg h]
  exact ⟨_, rfl⟩

/-- C22: the calibration byte is a function of the measured and the nominal
frequency alone.  Whenever the division of `aw862xx_calculate_cali_data` is
defined (non-zero divisor), the call returns, and there is one byte `b`,
determined by `f0` and `info.f0_pre`, such that for any two device contexts
agreeing on these two fields the call stores `b` in `f0_cali_data` of each,
leaves every other field, the bus position and the bus trace as they were (no
register access), and a second run on the result changes nothing. -/
theorem calculate_cali_data_deterministic (K : Hdr) (s1 s2 : St)
    (hf : s1.hap.f0 = s2.hap.f0) (hp : s1.hap.info.f0_pre = s2.hap.info.f0_pre)
    (hdef : toInt32 (toInt32 s1.hap.info.f0_pre * K.AW862XX_F0_CALI_ACCURACY) ≠ 0) :
    ∃ b, f0_cali_byte K s1.hap.f0 s1.hap.info.f0_pre = some b ∧
      aw862xx_calculate_cali_data K s1
        = some { s1 with hap := { s1.hap with f0_cali_data := b } } ∧
      aw862xx_calculate_cali_data K s2
        = some { s2 with hap := { s2.hap with f0_cali_data := b } } ∧
      aw862xx_calculate_cali_data K { s1 with hap := { s1.hap with f0_cali_data := b } }
        = some { s1 with hap := { s1.hap with f0_cali_data := b } } := by
  obtain ⟨b, hb⟩ := f0_cali_byte_defined K s1.hap.f0 s1.hap.info.f0_pre hdef
  refine ⟨b, hb, ?_, ?_, ?_⟩
  · unfold aw862xx_calculate_cali_data
    rw [hb]; rfl
  · unfold aw862xx_calculate_cali_data
    rw [← hf, ← hp, hb]; rfl
  · unfold aw862xx_calculate_cali_data
    show Option.map _ (f0_cali_byte K s1.hap.f0 s1.hap.info.f0_pre) = _
    rw [hb]; rfl

/-- Witness for C22: two contexts with measured 1750 and nominal 1700 that
differ in other fields both get the byte 12, and a second run keeps it. -/
theorem calculate_cali_data_deterministic_witness :
    ∃ b, f0_cali_byte hdr0 1750 1700 = some b ∧
      aw862xx_calculate_cali_data hdr0 st0
        = some { st0 with hap := { st0.hap with f0_cali_data := b } } ∧
      aw862xx_calculate_cali_data hdr0 st1
        = some { st1 with hap := { st1.hap with f0_cali_data := b } } ∧
      aw862xx_calculate_cali_data hdr0 { st0 with hap := { st0.hap with f0_cali_data := b } }
        = some { st0 with hap := { st0.hap with f0_cali_data := b } } :=
  calculate_cali_data_deterministic hdr0 st0 st1 rfl rfl (by decide)

/-! ## Theoretical playback time (C23) -/

theorem get_theory_time_eq (K : Hdr) (inp : Nat → Nat) (s : St) :
    aw862xx_get_theory_time K inp s =
      ((s.hap.rtp_len / theory_time_div K (busByte inp s.pos)) * 1000 % 2 ^ K.RTP_LEN_BITS,
       { s with pos := s.pos + 1,
                trace := s.trace ++ [Ev.reads K.AW862XX_REG_SYSCTRL2 [busByte inp s.pos]] }) :=
  rfl

theorem theory_time_div_pos (K : Hdr) (v : Int) : 0 < theory_time_div K v := by
  unfold theory_time_div
  simp only []
  split_ifs <;> decide

/-- Counterexample to C23: with a 32 bit `rtp_len` of 51539616 bytes and the
12 kHz rate selected, the product `4294968 * 1000` wraps and the function
returns 704, which is not a multiple of 1000 and is less than the 1000 it
returns for the shorter stream of 12 bytes. -/
theorem get_theory_time_wraps :
    (aw862xx_get_theory_time hdr0 (fun _ => 2)
      { st0 with hap := { st0.hap with rtp_len := 51539616 } }).1 = 704 ∧
    (51539616 / 12) * 1000 = 4294968000 ∧
    (aw862xx_get_theory_time hdr0 (fun _ => 2)
      { st0 with hap := { st0.hap with rtp_len := 12 } }).1 = 1000 := by
  refine ⟨?_, by decide, ?_⟩
  · rw [get_theory_time_eq]; decide
  · rw [get_theory_time_eq]; decide

/-- C23 (amended): `aw862xx_get_theory_time` divides by `k = 48` when the rate
field read from `SYSCTRL2` equals `RATE_48K`, by `24` when it equals
`RATE_24K` and by `12` for every other value, and whenever
`(rtp_len / k) * 1000` is a value of the unsigned type of `rtp_len` it returns
exactly that number (truncating division first, then the product), a multiple
of 1000.  Within this range the result is non-decreasing in `rtp_len` for the
same register value.  The call reads one register and leaves the device
context as it was. -/
theorem get_theory_time_in_range (K : Hdr) (inp : Nat → Nat) (s : St)
    (hfit : (s.hap.rtp_len / theory_time_div K (busByte inp s.pos)) * 1000
      < 2 ^ K.RTP_LEN_BITS) :
    (aw862xx_get_theory_time K inp s).1
        = (s.hap.rtp_len / theory_time_div K (busByte inp s.pos)) * 1000 ∧
    (toU32 (Int.land (busByte inp s.pos) K.AW862XX_BIT_SYSCTRL2_RATE)
        = toU32 K.AW862XX_BIT_SYSCTRL2_RATE_48K →
      theory_time_div K (busByte inp s.pos) = 48) ∧
    (toU32 (Int.land (busByte inp s.pos) K.AW862XX_BIT_SYSCTRL2_RATE)
        ≠ toU32 K.AW862XX_BIT_SYSCTRL2_RATE_48K →
      toU32 (Int.land (busByte inp s.pos) K.AW862XX_BIT_SYSCTRL2_RATE)
        = toU32 K.AW862XX_BIT_SYSCTRL2_RATE_24K →
      theory_time_div K (busByte inp s.pos) = 24) ∧
    (toU32 (Int.land (busByte inp s.pos) K.AW862XX_BIT_SYSCTRL2_RATE)
        ≠ toU32 K.AW862XX_BIT_SYSCTRL2_RATE_48K →
      toU32 (Int.land (busByte inp s.pos) K.AW862XX_BIT_SYSCTRL2_RATE)
        ≠ toU32 K.AW862XX_BIT_SYSCTRL2_RATE_24K →
      theory_time_div K (busByte inp s.pos) = 12) ∧
    1000 ∣ (aw862xx_get_theory_time K inp s).1 ∧
    (∀ s2 : St, s2.pos = s.pos → s2.hap.rtp_len ≤ s.hap.rtp_len →
      (aw862xx_get_theory_time K inp s2).1 ≤ (aw862xx_get_theory_time K inp s).1) ∧
    (aw862xx_get_theory_time K inp s).2.hap = s.hap ∧
    (aw862xx_get_theory_time K inp s).2.trace
      = s.trace ++ [Ev.reads K.AW862XX_REG_SYSCTRL2 [busByte inp s.pos]] := by
  have h1 : (aw862xx_get_theory_time K inp s).1
      = (s.hap.rtp_len / theory_time_div K (busByte inp s.pos)) * 1000 := by
    rw [get_theory_time_eq]
    exact Nat.mod_eq_of_lt hfit
  refine ⟨h1, ?_, ?_, ?_, ?_, ?_, rfl, rfl⟩
  · intro h; unfold theory_time_div; simp only []; rw [if_pos h]
  · intro h h2; unfold theory_time_div; simp only []; rw [if_neg h, if_pos h2]
  · intro h h2; unfold theory_time_div; simp only []; rw [if_neg h, if_neg h2]
  · rw [h1]; exact Dvd.intro_left _ rfl
  · intro s2 hpos hle
    rw [h1, get_theory_time_eq, hpos]
    show (s2.hap.rtp_len / theory_time_div K (busByte inp s.pos)) * 1000 % 2 ^ K.RTP_LEN_BITS ≤ _
    have hq : s2.hap.rtp_len / theory_time_div K (busByte inp s.pos)
        ≤ s.hap.rtp_len / theory_time_div K (busByte inp s.pos) :=
      Nat.div_le_div_right hle
    have hm : (s2.hap.rtp_len / theory_time_div K (busByte inp s.pos)) * 1000
        ≤ (s.hap.rtp_len / theory_time_div K (busByte inp s.pos)) * 1000 :=
      Nat.mul_le_mul_right _ hq
    exact le_trans (Nat.mod_le _ _) hm

/-- Witness for C23 (amended): a stream of 48000 bytes at the 48 kHz rate
plays for 1000000 units. -/
theorem get_theory_time_in_range_witness :
    (aw862xx_get_theory_time hdr0 (fun _ => 1)
      { st0 with hap := { st0.hap with rtp_len := 48000 } }).1 = 1000000 := by
  have h := (get_theory_time_in_range hdr0 (fun _ => 1)
    { st0 with hap := { st0.hap with rtp_len := 48000 } } (by decide)).1
  rw [h]; decide


/-! ## Symmetry of the calibration byte (C25) -/

theorem f0_cali_lra_upper (K : Hdr) (r : Int) (hr : 0 ≤ r ∧ r ≤ 32) :
    f0_cali_lra K (32 + r) = r := by
  unfold f0_cali_lra toChar
  cases K.CHAR_SIGNED <;> simp <;> split_ifs <;> omega

theorem f0_cali_byte_pair (K : Hdr) (n d : Nat) (hn : 0 < n) (hd : d ≤ n)
    (hnum : 100000 * (d : Int) ≤ 2147483647)
    (hden : 0 < (n : Int) * K.AW862XX_F0_CALI_ACCURACY ∧
      (n : Int) * K.AW862XX_F0_CALI_ACCURACY ≤ 2147483647)
    (hr : f0_cali_round (Int.tdiv (100000 * (d : Int))
      ((n : Int) * K.AW862XX_F0_CALI_ACCURACY)) - 32 ≤ 32) :
    ∃ r : Int, 0 ≤ r ∧ r ≤ 32 ∧
      f0_cali_round (Int.tdiv (100000 * (d : Int))
        ((n : Int) * K.AW862XX_F0_CALI_ACCURACY)) = 32 + r ∧
      f0_cali_byte K (n + d) n = some r ∧
      f0_cali_byte K (n - d) n = some ((64 - r) % 64) := by
  have hacc : K.AW862XX_F0_CALI_ACCURACY ≠ 0 := by
    intro h; rw [h] at hden; simp at hden
  have hd0 : (0 : Int) ≤ (d : Int) := Int.ofNat_nonneg d
  have ht : 0 ≤ Int.tdiv (100000 * (d : Int)) ((n : Int) * K.AW862XX_F0_CALI_ACCURACY) := by
    rw [Int.tdiv_eq_ediv (by omega) (le_of_lt hden.1)]
    exact Int.ediv_nonneg (by omega) (le_of_lt hden.1)
  have hrp := f0_cali_round_nonneg _ ht
  have hrm := f0_cali_round_neg _ ht
  rw [hrp] at hr
  have hr0 : 0 ≤ (Int.tdiv (100000 * (d : Int))
      ((n : Int) * K.AW862XX_F0_CALI_ACCURACY) + 5) / 10 := by omega
  have e1 : (((n + d : Nat) : Int) - (n : Int)) = (d : Int) := by push_cast; ring
  have e2 : (((n - d : Nat) : Int) - (n : Int)) = -(d : Int) := by
    rw [Nat.cast_sub hd]; ring
  have hsp := f0_cali_step_exact K (n + d) n hn hacc (by rw [e1]; omega) (by omega)
  have hsm := f0_cali_step_exact K (n - d) n hn hacc (by rw [e2]; omega) (by omega)
  rw [e1] at hsp
  rw [e2, mul_neg, Int.neg_tdiv] at hsm
  refine ⟨_, hr0, by omega, hrp, ?_, ?_⟩
  · unfold f0_cali_byte
    rw [hsp, Option.map_some', hrp, f0_cali_lra_upper K _ ⟨hr0, by omega⟩]
  · unfold f0_cali_byte
    rw [hsm, Option.map_some', hrm, sub_eq_add_neg, f0_cali_lra_in_window K _ (by omega)]
    generalize (Int.tdiv (100000 * (d : Int)) ((n : Int) * K.AW862XX_F0_CALI_ACCURACY) + 5) / 10
      = r at hr0 hr
    have e : -r % 64 = (64 - r) % 64 := by omega
    rw [e]

/-- Counterexample to C25: nominal 357913941 and deviation 1 meet the
conditions of the claim (accuracy 24), but `357913941 * 24` wraps to `-8` in
`int`, the step is `-12500` above and `+12500` below the nominal frequency, and
the two bytes 94 and 226 are not related by `b- = (64 - b+) mod 64`. -/
theorem cali_byte_symmetry_breaks_on_wrap :
    toInt32 (toInt32 (357913941 : Nat) * hdr0.AW862XX_F0_CALI_ACCURACY) = -8 ∧
    f0_cali_step hdr0 (357913941 + 1) 357913941 = some (-12500) ∧
    f0_cali_byte hdr0 (357913941 + 1) 357913941 = some 94 ∧
    f0_cali_byte hdr0 (357913941 - 1) 357913941 = some 226 ∧
    (64 - 94 : Int) % 64 ≠ 226 := by
  refine ⟨by decide, by decide, by decide, by decide, by decide⟩

/-- C25 (amended): the offset derivation is odd-symmetric about the nominal
frequency as long as the divisor does not overflow.  For a nominal `n > 0`
whose product with `AW862XX_F0_CALI_ACCURACY` is positive and fits a 32 bit
`int`, and a deviation `0 <= d <= n` with `100000 * d` in `int` range and
rounded step `r` at most 32, `aw862xx_calculate_cali_data` stores `b+ = r` for
the measured value `n + d` and `b- = (64 - b+) mod 64` for `n - d`; with
`d = 0` both bytes are 0. -/
theorem cali_byte_odd_symmetric (K : Hdr) (s : St) (d : Nat)
    (hn : 0 < s.hap.info.f0_pre) (hd : d ≤ s.hap.info.f0_pre)
    (hnum : 100000 * (d : Int) ≤ 2147483647)
    (hden : 0 < (s.hap.info.f0_pre : Int) * K.AW862XX_F0_CALI_ACCURACY ∧
      (s.hap.info.f0_pre : Int) * K.AW862XX_F0_CALI_ACCURACY ≤ 2147483647)
    (hr : f0_cali_round (Int.tdiv (100000 * (d : Int))
      ((s.hap.info.f0_pre : Int) * K.AW862XX_F0_CALI_ACCURACY)) - 32 ≤ 32) :
    ∃ bp bm : Int,
      aw862xx_calculate_cali_data K
          { s with hap := { s.hap with f0 := s.hap.info.f0_pre + d } }
        = some { s with hap := { s.hap with f0 := s.hap.info.f0_pre + d,
                                            f0_cali_data := bp } } ∧
      aw862xx_calculate_cali_data K
          { s with hap := { s.hap with f0 := s.hap.info.f0_pre - d } }
        = some { s with hap := { s.hap with f0 := s.hap.info.f0_pre - d,
                                            f0_cali_data := bm } } ∧
      32 + bp = f0_cali_round (Int.tdiv (100000 * (d : Int))
        ((s.hap.info.f0_pre : Int) * K.AW862XX_F0_CALI_ACCURACY)) ∧
      0 ≤ bp ∧ bp ≤ 32 ∧
      bm = (64 - bp) % 64 ∧
      (d = 0 → bp = 0 ∧ bm = 0) := by
  obtain ⟨r, h0, h32, hrd, hp, hm⟩ := f0_cali_byte_pair K s.hap.info.f0_pre d hn hd hnum hden hr
  refine ⟨r, (64 - r) % 64, ?_, ?_, hrd.symm, h0, h32, rfl, ?_⟩
  · unfold aw862xx_calculate_cali_data
    show Option.map _ (f0_cali_byte K (s.hap.info.f0_pre + d) s.hap.info.f0_pre) = _
    rw [hp]; rfl
  · unfold aw862xx_calculate_cali_data
    show Option.map _ (f0_cali_byte K (s.hap.info.f0_pre - d) s.hap.info.f0_pre) = _
    rw [hm]; rfl
  · intro hd0
    subst hd0
    have : r = 0 := by
      have h := hrd
      simp only [Nat.cast_zero, mul_zero, Int.zero_tdiv] at h
      have h2 : f0_cali_round 0 = 32 := by decide
      omega
    subst this
    exact ⟨rfl, by decide⟩

/-- Witness for C25 (amended): nominal 1700 with deviation 50 (accuracy 24)
gives the byte 12 above and `52 = 64 - 12` below the nominal frequency. -/
theorem cali_byte_odd_symmetric_witness :
    aw862xx_calculate_cali_data hdr0 { st0 with hap := { st0.hap with f0 := 1750 } }
      = some { st0 with hap := { st0.hap with f0 := 1750, f0_cali_data := 12 } } ∧
    aw862xx_calculate_cali_data hdr0 { st0 with hap := { st0.hap with f0 := 1650 } }
      = some { st0 with hap := { st0.hap with f0 := 1650, f0_cali_data := 52 } } := by
  obtain ⟨bp, bm, h1, h2, h3, _, _, h6, _⟩ :=
    cali_byte_odd_symmetric hdr0 st0 50 (by decide) (by decide) (by decide) (by decide)
      (by decide)
  have hb : bp = 12 := by
    have e : f0_cali_round (Int.tdiv (100000 * ((50 : Nat) : Int))
        ((st0.hap.info.f0_pre : Int) * hdr0.AW862XX_F0_CALI_ACCURACY)) = 44 := by decide
    rw [e] at h3; omega
  subst hb
  have hm : bm = 52 := by rw [h6]; decide
  subst hm
  exact ⟨h1, h2⟩


/-! ## Bus operations of the composite procedures -/

theorem ext_by_refl (P : Ev → Prop) (s : St) : ext_by P s s :=
  ⟨[], by simp, by simp⟩

theorem ext_by_trans {P : Ev → Prop} {a b c : St} (h1 : ext_by P a b) (h2 : ext_by P b c) :
    ext_by P a c := by
  obtain ⟨l1, e1, w1⟩ := h1
  obtain ⟨l2, e2, w2⟩ := h2
  refine ⟨l1 ++ l2, by rw [e2, e1, List.append_assoc], ?_⟩
  intro e he
  rcases List.mem_append.mp he with h | h
  · exact w1 e h
  · exact w2 e h

theorem ext_by_op (P : Ev → Prop) (s s' : St) (e : Ev) (h : s'.trace = s.trace ++ [e])
    (he : P e) : ext_by P s s' :=
  ⟨[e], h, by intro x hx; rw [List.mem_singleton.mp hx]; exact he⟩

theorem ext_by_same (P : Ev → Prop) (s s' : St) (h : s'.trace = s.trace) : ext_by P s s' :=
  ⟨[], by simp [h], by simp⟩

theorem mode_op_write_bits (K : Hdr) (s : St) (reg m d : Int)
    (h : reg = K.AW862XX_REG_SYSCTRL2 ∨ reg = K.AW862XX_REG_PLAYCFG3) :
    ext_by (mode_op K) s (haptic_nv_i2c_write_bits s reg m d) :=
  ⟨[Ev.write_bits reg m d], rfl, by intro x hx; rw [List.mem_singleton.mp hx]; exact h⟩

theorem play_stop_poll_ext (K : Hdr) (inp : Nat → Nat) (n : Nat) (s : St) :
    ext_by (mode_op K) s (play_stop_poll K inp n s).2 := by
  induction n generalizing s with
  | zero => exact ext_by_refl _ s
  | succ n ih =>
    rw [play_stop_poll]
    have h1 : ext_by (mode_op K) s (read_byte inp s K.AW862XX_REG_GLBRD5).2 :=
      ext_by_op _ _ _ _ rfl trivial
    by_cases hb : reports_standby K (read_byte inp s K.AW862XX_REG_GLBRD5).1 = true
    · simp only [hb, if_true]; exact h1
    · simp only [hb]; exact ext_by_trans h1 (ih _)

theorem play_stop_ext (K : Hdr) (inp : Nat → Nat) (s : St) :
    ext_by (mode_op K) s (aw862xx_play_stop K inp s) := by
  unfold aw862xx_play_stop
  simp only []
  have h1 : ext_by (mode_op K) s
      (haptic_nv_i2c_writes ({ s with hap := { s.hap with play_mode := K.AW_STANDBY_MODE } } : St)
        K.AW862XX_REG_PLAYCFG4 [toU8 K.AW862XX_BIT_PLAYCFG4_STOP_ON]) :=
    ext_by_op _ _ _ _ rfl ⟨rfl, rfl⟩
  have h2 := ext_by_trans h1 (play_stop_poll_ext K inp 40 _)
  split_ifs
  · exact ext_by_trans h2 (ext_by_trans (mode_op_write_bits K _ _ _ _ (Or.inl rfl))
      (mode_op_write_bits K _ _ _ _ (Or.inl rfl)))
  · exact h2

theorem set_pwm_ext (K : Hdr) (s : St) (m : Int) :
    ext_by (mode_op K) s (aw862xx_set_pwm K s m) := by
  unfold aw862xx_set_pwm
  split_ifs
  · exact mode_op_write_bits K _ _ _ _ (Or.inl rfl)
  · exact mode_op_write_bits K _ _ _ _ (Or.inl rfl)
  · exact mode_op_write_bits K _ _ _ _ (Or.inl rfl)
  · exact ext_by_refl _ s

theorem auto_brk_ext (K : Hdr) (s : St) (b : Bool) :
    ext_by (mode_op K) s (aw862xx_auto_brk_config K s b) := by
  unfold aw862xx_auto_brk_config
  split_ifs
  · exact mode_op_write_bits K _ _ _ _ (Or.inr rfl)
  · exact mode_op_write_bits K _ _ _ _ (Or.inr rfl)

theorem play_mode_ext (K : Hdr) (inp : Nat → Nat) (s : St) (m : Int) :
    ext_by (mode_op K) s (aw862xx_play_mode K inp s m) := by
  have h0 : ∀ x, ext_by (mode_op K) s (set_play_mode s x) := fun x => ext_by_same _ _ _ rfl
  unfold aw862xx_play_mode
  split_ifs
  · exact ext_by_trans (h0 _) (play_stop_ext K inp _)
  · exact ext_by_trans (h0 _) (ext_by_trans (set_pwm_ext K _ _)
      (ext_by_trans (auto_brk_ext K _ _) (mode_op_write_bits K _ _ _ _ (Or.inr rfl))))
  · exact ext_by_trans (h0 _) (ext_by_trans (set_pwm_ext K _ _)
      (ext_by_trans (auto_brk_ext K _ _) (mode_op_write_bits K _ _ _ _ (Or.inr rfl))))
  · exact ext_by_trans (h0 _)
      (ext_by_trans (auto_brk_ext K _ _) (mode_op_write_bits K _ _ _ _ (Or.inr rfl)))
  · exact ext_by_trans (h0 _) (ext_by_trans (set_pwm_ext K _ _)
      (ext_by_trans (auto_brk_ext K _ _) (mode_op_write_bits K _ _ _ _ (Or.inr rfl))))
  · exact ext_by_trans (h0 _) (ext_by_trans (set_pwm_ext K _ _)
      (mode_op_write_bits K _ _ _ _ (Or.inr rfl)))
  · exact ext_by_refl _ s

theorem mode_op_quiet (K : Hdr) (r : Int) (e : Ev) (h : mode_op K e)
    (h4 : r ≠ K.AW862XX_REG_PLAYCFG4) (h2 : r ≠ K.AW862XX_REG_SYSCTRL2)
    (h3 : r ≠ K.AW862XX_REG_PLAYCFG3) : touches r e = false := by
  cases e with
  | reads reg d => rfl
  | writes reg d =>
    obtain ⟨hr, hd⟩ := h
    subst hr; subst hd
    simp only [touches, List.length_singleton, decide_eq_false_iff_not]
    intro hc
    apply h4
    have := hc.1
    have := hc.2
    push_cast at *
    omega
  | write_bits reg m d =>
    simp only [touches, decide_eq_false_iff_not]
    rcases h with h | h
    · rw [h]; exact fun hc => h2 hc.symm
    · rw [h]; exact fun hc => h3 hc.symm

theorem ops_on_quiet (r : Int) (l : List Ev) (h : ∀ e ∈ l, touches r e = false) :
    ops_on r l = [] := by
  unfold ops_on
  rw [List.filter_eq_nil_iff]
  intro e he
  rw [h e he]
  decide

theorem ops_on_append (r : Int) (l1 l2 : List Ev) :
    ops_on r (l1 ++ l2) = ops_on r l1 ++ ops_on r l2 := by
  unfold ops_on
  exact List.filter_append _ _

theorem ops_on_mode_ops (K : Hdr) (r : Int) (l : List Ev) (h : ∀ e ∈ l, mode_op K e)
    (h4 : r ≠ K.AW862XX_REG_PLAYCFG4) (h2 : r ≠ K.AW862XX_REG_SYSCTRL2)
    (h3 : r ≠ K.AW862XX_REG_PLAYCFG3) : ops_on r l = [] :=
  ops_on_quiet r l (fun e he => mode_op_quiet K r e (h e he) h4 h2 h3)

/-! ## Pairing of the measurement-ready bit (C26) -/

theorem raminit_paired_of_ops (K : Hdr) (s s' : St) (hext : ∃ l, s'.trace = s.trace ++ l)
    (h : ops_on K.AW862XX_REG_SYSCTRL1 (new_ops s s') = [] ∨
      ops_on K.AW862XX_REG_SYSCTRL1 (new_ops s s') = [raminit_on_op K, raminit_off_op K]) :
    raminit_paired K s s' := by
  refine ⟨h, ?_, ?_⟩
  · intro hon
    rcases h with h | h
    · have hm : raminit_on_op K ∈ ops_on K.AW862XX_REG_SYSCTRL1 (new_ops s s') := by
        unfold ops_on
        rw [List.mem_filter]
        exact ⟨hon, by simp [touches, raminit_on_op]⟩
      rw [h] at hm
      exact absurd hm (List.not_mem_nil _)
    · rw [h]; rfl
  · obtain ⟨l, hl⟩ := hext
    rw [new_ops_append s s' l hl] at h
    intro hoff e he
    rw [hl, ops_on_append] at he
    rcases h with h | h
    · rw [h, List.append_nil] at he
      exact hoff e he
    · rw [h] at he
      simp [List.getLast?_append] at he
      exact he.symm

theorem get_vbat_trace (K : Hdr) (inp : Nat → Nat) (s : St) :
    ∃ b1 b2, (aw862xx_get_vbat K inp s).trace =
      (aw862xx_play_stop K inp s).trace ++
        [raminit_on_op K,
         Ev.write_bits K.AW862XX_REG_DETCFG2 K.AW862XX_BIT_DETCFG2_VBAT_GO_MASK
           K.AW862XX_BIT_DETCFG2_VABT_GO_ON,
         Ev.reads K.AW862XX_REG_DET_VBAT [b1], Ev.reads K.AW862XX_REG_DET_LO [b2],
         raminit_off_op K] := by
  refine ⟨busByte inp (aw862xx_play_stop K inp s).pos,
    busByte inp ((aw862xx_play_stop K inp s).pos + 1), ?_⟩
  simp [aw862xx_get_vbat, aw862xx_raminit, haptic_nv_i2c_write_bits, read_byte,
    raminit_on_op, raminit_off_op]

theorem offset_cali_trace (K : Hdr) (inp : Nat → Nat) (s : St) :
    (aw862xx_offset_cali K inp s).2.trace
        = s.trace ++ [Ev.reads K.AW862XX_REG_SYSCTRL7 [busByte inp s.pos]] ∨
    ∃ b1 b2, (aw862xx_offset_cali K inp s).2.trace =
      s.trace ++
        [Ev.reads K.AW862XX_REG_SYSCTRL7 [busByte inp s.pos],
         raminit_on_op K,
         Ev.write_bits K.AW862XX_REG_DETCFG1 K.AW862XX_BIT_DETCFG1_RL_OS_MASK
           K.AW862XX_BIT_DETCFG1_OS,
         Ev.write_bits K.AW862XX_REG_DETCFG2 K.AW862XX_BIT_DETCFG2_DIAG_GO_MASK
           K.AW862XX_BIT_DETCFG2_DIAG_GO_ON,
         Ev.reads K.AW862XX_REG_DET_OS [b1], Ev.reads K.AW862XX_REG_DET_LO [b2],
         raminit_off_op K] := by
  unfold aw862xx_offset_cali
  simp only []
  split_ifs
  · left; rfl
  · right
    refine ⟨busByte inp (s.pos + 1), busByte inp (s.pos + 1 + 1), ?_⟩
    simp [aw862xx_raminit, haptic_nv_i2c_write_bits, read_byte, raminit_on_op, raminit_off_op]
  · right
    refine ⟨busByte inp (s.pos + 1), busByte inp (s.pos + 1 + 1), ?_⟩
    simp [aw862xx_raminit, haptic_nv_i2c_write_bits, read_byte, raminit_on_op, raminit_off_op]

theorem get_lra_resistance_trace (K : Hdr) (inp : Nat → Nat) (s : St) :
    ∃ l1, (∀ e ∈ l1, mode_op K e) ∧
      (aw862xx_play_stop K inp s).trace = s.trace ++ l1 ∧
      (aw862xx_select_d2s_gain K (toU8 s.hap.info.d2s_gain) ≤ 0 →
        (aw862xx_get_lra_resistance K inp s).trace =
          s.trace ++ l1 ++
            [Ev.reads K.AW862XX_REG_SYSCTRL7 [busByte inp (aw862xx_play_stop K inp s).pos],
             Ev.write_bits K.AW862XX_REG_SYSCTRL7 K.AW862XX_BIT_SYSCTRL7_D2S_GAIN_MASK
               s.hap.info.d2s_gain]) ∧
      (0 < aw862xx_select_d2s_gain K (toU8 s.hap.info.d2s_gain) →
        ∃ l2 b1 b2, (∀ e ∈ l2, mode_op K e) ∧
          (aw862xx_get_lra_resistance K inp s).trace =
            s.trace ++ l1 ++
              [Ev.reads K.AW862XX_REG_SYSCTRL7 [busByte inp (aw862xx_play_stop K inp s).pos],
               Ev.write_bits K.AW862XX_REG_SYSCTRL7 K.AW862XX_BIT_SYSCTRL7_D2S_GAIN_MASK
                 s.hap.info.d2s_gain,
               raminit_on_op K] ++ l2 ++
              [Ev.write_bits K.AW862XX_REG_SYSCTRL2 K.AW862XX_BIT_SYSCTRL2_STANDBY_MASK
                 K.AW862XX_BIT_SYSCTRL2_STANDBY_OFF,
               Ev.write_bits K.AW862XX_REG_DETCFG1 K.AW862XX_BIT_DETCFG1_RL_OS_MASK
                 K.AW862XX_BIT_DETCFG1_RL,
               Ev.write_bits K.AW862XX_REG_DETCFG2 K.AW862XX_BIT_DETCFG2_DIAG_GO_MASK
                 K.AW862XX_BIT_DETCFG2_DIAG_GO_ON,
               Ev.reads K.AW862XX_REG_DET_RL [b1], Ev.reads K.AW862XX_REG_DET_LO [b2],
               raminit_off_op K,
               Ev.write_bits K.AW862XX_REG_SYSCTRL7 K.AW862XX_BIT_SYSCTRL7_D2S_GAIN_MASK
                 (toU8 (Int.land K.AW862XX_BIT_SYSCTRL7_GAIN
                   (busByte inp (aw862xx_play_stop K inp s).pos)))]) := by
  obtain ⟨l1, hl1, hm1⟩ := play_stop_ext K inp s
  have hg : (aw862xx_play_stop K inp s).hap.info.d2s_gain = s.hap.info.d2s_gain := by
    rw [play_stop_hap]
  refine ⟨l1, hm1, hl1, ?_, ?_⟩
  · intro hle
    unfold aw862xx_get_lra_resistance
    simp only []
    rw [if_pos (by
      simp only [haptic_nv_i2c_write_bits, read_byte]
      rw [hg]; exact hle)]
    simp [haptic_nv_i2c_write_bits, read_byte, hl1, hg]
  · intro hpos
    obtain ⟨l2, hl2, hm2⟩ := play_stop_ext K inp
      (aw862xx_raminit K
        (haptic_nv_i2c_write_bits (read_byte inp (aw862xx_play_stop K inp s)
          K.AW862XX_REG_SYSCTRL7).2 K.AW862XX_REG_SYSCTRL7
          K.AW862XX_BIT_SYSCTRL7_D2S_GAIN_MASK
          (read_byte inp (aw862xx_play_stop K inp s)
            K.AW862XX_REG_SYSCTRL7).2.hap.info.d2s_gain) true)
    refine ⟨l2, busByte inp (aw862xx_play_stop K inp
      (aw862xx_raminit K
        (haptic_nv_i2c_write_bits (read_byte inp (aw862xx_play_stop K inp s)
          K.AW862XX_REG_SYSCTRL7).2 K.AW862XX_REG_SYSCTRL7
          K.AW862XX_BIT_SYSCTRL7_D2S_GAIN_MASK
          (read_byte inp (aw862xx_play_stop K inp s)
            K.AW862XX_REG_SYSCTRL7).2.hap.info.d2s_gain) true)).pos,
      busByte inp ((aw862xx_play_stop K inp
      (aw862xx_raminit K
        (haptic_nv_i2c_write_bits (read_byte inp (aw862xx_play_stop K inp s)
          K.AW862XX_REG_SYSCTRL7).2 K.AW862XX_REG_SYSCTRL7
          K.AW862XX_BIT_SYSCTRL7_D2S_GAIN_MASK
          (read_byte inp (aw862xx_play_stop K inp s)
            K.AW862XX_REG_SYSCTRL7).2.hap.info.d2s_gain) true)).pos + 1), hm2, ?_⟩
    unfold aw862xx_get_lra_resistance
    simp only []
    rw [if_neg (by
      simp only [haptic_nv_i2c_write_bits, read_byte]
      rw [hg]; exact not_le.mpr hpos)]
    simp only [aw862xx_raminit, haptic_nv_i2c_write_bits, if_true, Bool.false_eq_true,
      if_false] at hl2 ⊢
    rw [hl2]
    simp [read_byte, hl1, hg, raminit_on_op, raminit_off_op]

theorem raminit_layout_ne (K : Hdr) (h : raminit_layout K) :
    K.AW862XX_REG_SYSCTRL1 ≠ K.AW862XX_REG_PLAYCFG4 ∧
    K.AW862XX_REG_SYSCTRL1 ≠ K.AW862XX_REG_SYSCTRL2 ∧
    K.AW862XX_REG_SYSCTRL1 ≠ K.AW862XX_REG_PLAYCFG3 ∧
    K.AW862XX_REG_SYSCTRL1 ≠ K.AW862XX_REG_SYSCTRL7 ∧
    K.AW862XX_REG_SYSCTRL1 ≠ K.AW862XX_REG_DETCFG1 ∧
    K.AW862XX_REG_SYSCTRL1 ≠ K.AW862XX_REG_DETCFG2 := by
  unfold raminit_layout reg_apart at h
  exact ⟨h _ (by simp), h _ (by simp), h _ (by simp), h _ (by simp), h _ (by simp),
    h _ (by simp)⟩

theorem get_vbat_paired (K : Hdr) (inp : Nat → Nat) (s : St) (h : raminit_layout K) :
    raminit_paired K s (aw862xx_get_vbat K inp s) := by
  obtain ⟨h4, h2, h3, _, _, hd2⟩ := raminit_layout_ne K h
  obtain ⟨l1, hl1, hm1⟩ := play_stop_ext K inp s
  obtain ⟨b1, b2, ht⟩ := get_vbat_trace K inp s
  rw [hl1, List.append_assoc] at ht
  apply raminit_paired_of_ops K s _ ⟨_, ht⟩
  right
  rw [new_ops_append s _ _ ht, ops_on_append, ops_on_mode_ops K _ l1 hm1 h4 h2 h3]
  simp [ops_on, touches, raminit_on_op, raminit_off_op, hd2.symm]

theorem offset_cali_paired (K : Hdr) (inp : Nat → Nat) (s : St) (h : raminit_layout K) :
    raminit_paired K s (aw862xx_offset_cali K inp s).2 := by
  obtain ⟨_, _, _, _, hd1, hd2⟩ := raminit_layout_ne K h
  rcases offset_cali_trace K inp s with ht | ⟨b1, b2, ht⟩
  · apply raminit_paired_of_ops K s _ ⟨_, ht⟩
    left
    rw [new_ops_append s _ _ ht]
    simp [ops_on, touches]
  · apply raminit_paired_of_ops K s _ ⟨_, ht⟩
    right
    rw [new_ops_append s _ _ ht]
    simp [ops_on, touches, raminit_on_op, raminit_off_op, hd1.symm, hd2.symm]

theorem get_lra_resistance_paired (K : Hdr) (inp : Nat → Nat) (s : St)
    (h : raminit_layout K) :
    raminit_paired K s (aw862xx_get_lra_resistance K inp s) := by
  obtain ⟨h4, h2, h3, h7, hd1, hd2⟩ := raminit_layout_ne K h
  obtain ⟨l1, hm1, _, hbad, hgood⟩ := get_lra_resistance_trace K inp s
  by_cases hg : aw862xx_select_d2s_gain K (toU8 s.hap.info.d2s_gain) ≤ 0
  · have ht := hbad hg
    rw [List.append_assoc] at ht
    apply raminit_paired_of_ops K s _ ⟨_, ht⟩
    left
    rw [new_ops_append s _ _ ht, ops_on_append, ops_on_mode_ops K _ l1 hm1 h4 h2 h3]
    simp [ops_on, touches, h7.symm]
  · obtain ⟨l2, b1, b2, hm2, ht⟩ := hgood (not_le.mp hg)
    simp only [List.append_assoc] at ht
    apply raminit_paired_of_ops K s _ ⟨_, ht⟩
    right
    rw [new_ops_append s _ _ ht, ops_on_append, ops_on_mode_ops K _ l1 hm1 h4 h2 h3,
      ops_on_append, ops_on_append, ops_on_mode_ops K _ l2 hm2 h4 h2 h3]
    simp [ops_on, touches, raminit_on_op, raminit_off_op, h7.symm, hd1.symm, hd2.symm,
      h2.symm]

/-- C26: each of the three measurement procedures `aw862xx_offset_cali`,
`aw862xx_get_vbat` and `aw862xx_get_lra_resistance` handles the bit `RAMINIT`
in pairs on every path.  With `SYSCTRL1` apart from the other registers they
write, the operations on `SYSCTRL1` that a call adds to the bus are either
none, or the masked write of `RAMINIT_ON` followed by the masked write of
`RAMINIT_OFF`; so whenever `RAMINIT_ON` is written the last write to the field
before return is `RAMINIT_OFF`, and a bit that is off on entry is off on
return. -/
theorem raminit_on_off_paired (K : Hdr) (inp : Nat → Nat) (s : St) (h : raminit_layout K) :
    raminit_paired K s (aw862xx_offset_cali K inp s).2 ∧
    raminit_paired K s (aw862xx_get_vbat K inp s) ∧
    raminit_paired K s (aw862xx_get_lra_resistance K inp s) :=
  ⟨offset_cali_paired K inp s h, get_vbat_paired K inp s h,
    get_lra_resistance_paired K inp s h⟩

/-- Witness for C26: on the sample header and context the battery measurement
writes `RAMINIT_ON` and then `RAMINIT_OFF` to `SYSCTRL1`, and nothing else. -/
theorem raminit_on_off_paired_witness :
    raminit_layout hdr0 ∧
    ops_on hdr0.AW862XX_REG_SYSCTRL1 (new_ops st0 (aw862xx_get_vbat hdr0 (fun _ => 0) st0))
      = [raminit_on_op hdr0, raminit_off_op hdr0] := by
  have hl : raminit_layout hdr0 := by
    unfold raminit_layout reg_apart; decide
  refine ⟨hl, ?_⟩
  have h := (raminit_on_off_paired hdr0 (fun _ => 0) st0 hl).2.1.1
  rcases h with h | h
  · exact absurd h (by decide)
  · exact h


/-! ## Restoring the gain field (C27) -/

theorem reg_store_congr (a : Int) (data : List Int) :
    ∀ (m m' : Int → Int) (reg : Int), m a = m' a →
      reg_store m reg data a = reg_store m' reg data a := by
  induction data with
  | nil => intro m m' reg h; exact h
  | cons b bs ih =>
    intro m m' reg h
    rw [reg_store, reg_store]
    apply ih
    show (if a = reg then toU8 b else m a) = (if a = reg then toU8 b else m' a)
    rw [h]

theorem reg_store_quiet (a : Int) (data : List Int) :
    ∀ (m : Int → Int) (reg : Int), ¬ (reg ≤ a ∧ a < reg + data.length) →
      reg_store m reg data a = m a := by
  induction data with
  | nil => intro m reg _; rfl
  | cons b bs ih =>
    intro m reg h
    rw [reg_store, ih]
    · show (if a = reg then toU8 b else m a) = m a
      rw [if_neg]
      intro hc
      apply h
      rw [List.length_cons]
      push_cast
      constructor <;> omega
    · intro hc
      apply h
      rw [List.length_cons]
      push_cast
      constructor <;> omega

theorem reg_apply_congr (m m' : Int → Int) (e : Ev) (a : Int) (h : m a = m' a) :
    reg_apply m e a = reg_apply m' e a := by
  cases e with
  | reads reg d => exact h
  | writes reg d => exact reg_store_congr a d m m' reg h
  | write_bits reg k d =>
    show (if a = reg then masked_write (m a) k d else m a)
      = (if a = reg then masked_write (m' a) k d else m' a)
    rw [h]

theorem reg_apply_quiet (m : Int → Int) (e : Ev) (a : Int) (h : touches a e = false) :
    reg_apply m e a = m a := by
  cases e with
  | reads reg d => rfl
  | writes reg d =>
    simp only [touches, decide_eq_false_iff_not] at h
    exact reg_store_quiet a d m reg h
  | write_bits reg k d =>
    simp only [touches, decide_eq_false_iff_not] at h
    show (if a = reg then masked_write (m a) k d else m a) = m a
    rw [if_neg (fun hc => h hc.symm)]

theorem reg_run_congr (a : Int) (l : List Ev) :
    ∀ (m m' : Int → Int), m a = m' a → reg_run m l a = reg_run m' l a := by
  induction l with
  | nil => intro m m' h; exact h
  | cons e l ih =>
    intro m m' h
    show reg_run (reg_apply m e) l a = reg_run (reg_apply m' e) l a
    exact ih _ _ (reg_apply_congr m m' e a h)

theorem reg_run_ops_on (a : Int) (l : List Ev) :
    ∀ m : Int → Int, reg_run m l a = reg_run m (ops_on a l) a := by
  induction l with
  | nil => intro m; rfl
  | cons e l ih =>
    intro m
    show reg_run (reg_apply m e) l a = _
    rw [ih]
    by_cases ht : touches a e = true
    · have : ops_on a (e :: l) = e :: ops_on a l := by
        unfold ops_on; rw [List.filter_cons_of_pos ht]
      rw [this]; rfl
    · have hf : touches a e = false := by simpa using ht
      have : ops_on a (e :: l) = ops_on a l := by
        unfold ops_on; rw [List.filter_cons_of_neg ht]
      rw [this]
      exact reg_run_congr a _ _ _ (reg_apply_quiet m e a hf)

theorem toU8_not (M : Int) : toU8 (Int.not M) = 255 - toU8 M := by
  unfold toU8
  cases M with
  | ofNat n =>
    show Int.negSucc n % 256 = 255 - (n : Int) % 256
    rw [Int.negSucc_eq]; omega
  | negSucc n =>
    show (n : Int) % 256 = 255 - Int.negSucc n % 256
    rw [Int.negSucc_eq]; omega

set_option maxRecDepth 100000 in
theorem land_compl_fin : ∀ x : Fin 256,
    (x.val &&& (255 - x.val) = 0) ∧ (x.val ||| (255 - x.val) = 255) ∧ (x.val &&& 255 = x.val) := by
  decide

theorem masked_restore_nat (R G Mn Nn : Nat) (h0 : Mn &&& Nn = 0) (h1 : Mn ||| Nn = 255)
    (hR : R &&& 255 = R) :
    ((R &&& Mn ||| G &&& Nn) &&& Mn) ||| ((Nn &&& R) &&& Nn) = R := by
  have hb : ∀ i, (Mn.testBit i && Nn.testBit i) = false := by
    intro i
    have := congrArg (fun x => x.testBit i) h0
    simpa using this
  have hc : ∀ i, (Mn.testBit i || Nn.testBit i) = (255 : Nat).testBit i := by
    intro i
    have := congrArg (fun x => x.testBit i) h1
    simpa using this
  have hd : ∀ i, (R.testBit i && (255 : Nat).testBit i) = R.testBit i := by
    intro i
    have := congrArg (fun x => x.testBit i) hR
    simpa using this
  apply Nat.eq_of_testBit_eq
  intro i
  simp only [Nat.testBit_lor, Nat.testBit_land]
  have b := hb i
  have c := hc i
  have d := hd i
  rw [← c] at d
  revert b d
  cases R.testBit i <;> cases Mn.testBit i <;> cases Nn.testBit i <;> cases G.testBit i <;>
    simp

theorem toU8_natCast (a : Nat) : toU8 (a : Int) = ((a % 256 : Nat) : Int) := by
  unfold toU8; omega

theorem masked_write_restore (r g M : Int) (hr : 0 ≤ r ∧ r < 256) :
    masked_write (masked_write r M g) M (toU8 (Int.land (toU8 (Int.not M)) r)) = r := by
  obtain ⟨hr0, hr1⟩ := hr
  have hM : 0 ≤ toU8 M ∧ toU8 M < 256 := by unfold toU8; omega
  have hG : 0 ≤ toU8 g ∧ toU8 g < 256 := by unfold toU8; omega
  unfold masked_write
  rw [toU8_not]
  generalize toU8 M = m at hM ⊢
  generalize toU8 g = g8 at hG ⊢
  obtain ⟨hM0, hM1⟩ := hM
  obtain ⟨hG0, hG1⟩ := hG
  lift r to ℕ using hr0
  lift m to ℕ using hM0
  lift g8 to ℕ using hG0
  have hm : m < 256 := by exact_mod_cast hM1
  have hrn : r < 256 := by exact_mod_cast hr1
  have hgn : g8 < 256 := by exact_mod_cast hG1
  have hn : (255 : Int) - (m : Int) = ((255 - m : Nat) : Int) := by omega
  rw [hn]
  have key : ∀ a b : Nat, Int.land (a : Int) (b : Int) = ((a &&& b : Nat) : Int) :=
    fun a b => rfl
  have keyo : ∀ a b : Nat, Int.lor (a : Int) (b : Int) = ((a ||| b : Nat) : Int) :=
    fun a b => rfl
  simp only [toU8_natCast, key, keyo]
  obtain ⟨c0, c1, _⟩ := land_compl_fin ⟨m, hm⟩
  obtain ⟨_, _, c2⟩ := land_compl_fin ⟨r, hrn⟩
  simp only at c0 c1 c2
  have hin : (r % 256 &&& m ||| g8 &&& (255 - m)) < 256 :=
    Nat.or_lt_two_pow (n := 8) (lt_of_le_of_lt Nat.and_le_right hm)
      (lt_of_le_of_lt Nat.and_le_left hgn)
  have hl : (255 - m &&& r) < 256 := lt_of_le_of_lt Nat.and_le_right hrn
  rw [Nat.mod_eq_of_lt hin, Nat.mod_eq_of_lt hrn, Nat.mod_eq_of_lt hl,
    Nat.mod_eq_of_lt hl]
  exact_mod_cast masked_restore_nat r g8 m (255 - m) c0 c1 c2

theorem gain_layout_ne (K : Hdr) (h : gain_layout K) :
    K.AW862XX_REG_SYSCTRL7 ≠ K.AW862XX_REG_PLAYCFG4 ∧
    K.AW862XX_REG_SYSCTRL7 ≠ K.AW862XX_REG_SYSCTRL2 ∧
    K.AW862XX_REG_SYSCTRL7 ≠ K.AW862XX_REG_PLAYCFG3 ∧
    K.AW862XX_REG_SYSCTRL7 ≠ K.AW862XX_REG_SYSCTRL1 ∧
    K.AW862XX_REG_SYSCTRL7 ≠ K.AW862XX_REG_DETCFG1 ∧
    K.AW862XX_REG_SYSCTRL7 ≠ K.AW862XX_REG_DETCFG2 := by
  have h1 := h.1
  unfold reg_apart at h1
  exact ⟨h1 _ (by simp), h1 _ (by simp), h1 _ (by simp), h1 _ (by simp), h1 _ (by simp),
    h1 _ (by simp)⟩

theorem select_d2s_gain_pos (K : Hdr) (reg : Int)
    (h : ∃ p ∈ d2s_gain_table K, reg = p.1) : 0 < aw862xx_select_d2s_gain K reg := by
  have hn := (select_d2s_gain_valid_iff K reg).mpr h
  revert hn
  unfold aw862xx_select_d2s_gain
  split_ifs <;> intro hn <;> first | decide | exact absurd (by decide) hn

theorem busByte_range (inp : Nat → Nat) (i : Nat) : 0 ≤ busByte inp i ∧ busByte inp i < 256 := by
  unfold busByte; omega

theorem reg_run_mode_ops (K : Hdr) (m : Int → Int) (r : Int) (l : List Ev)
    (h : ∀ e ∈ l, mode_op K e)
    (h4 : r ≠ K.AW862XX_REG_PLAYCFG4) (h2 : r ≠ K.AW862XX_REG_SYSCTRL2)
    (h3 : r ≠ K.AW862XX_REG_PLAYCFG3) : reg_run m l r = m r := by
  rw [reg_run_ops_on, ops_on_mode_ops K r l h h4 h2 h3]
  rfl

/-- C27: with a valid gain encoding in `info.d2s_gain`,
`aw862xx_get_lra_resistance` restores the gain setting it found.  Over the
register map in which a masked write replaces exactly the masked field, and
with the read of `SYSCTRL7` delivering the content of the register, the only
operations of the call on `SYSCTRL7` are the masked write of `info.d2s_gain`
and, last, the masked write of the saved field; on return the register holds
the byte it held on entry, so the gain field has its entry value and the other
bits are unchanged. -/
theorem get_lra_resistance_restores_gain (K : Hdr) (inp : Nat → Nat) (s : St)
    (m : Int → Int) (hl : gain_layout K)
    (hvalid : ∃ p ∈ d2s_gain_table K, toU8 s.hap.info.d2s_gain = p.1)
    (hread : busByte inp (aw862xx_play_stop K inp s).pos
      = reg_run m (new_ops s (aw862xx_play_stop K inp s)) K.AW862XX_REG_SYSCTRL7) :
    ops_on K.AW862XX_REG_SYSCTRL7 (new_ops s (aw862xx_get_lra_resistance K inp s)) =
      [Ev.write_bits K.AW862XX_REG_SYSCTRL7 K.AW862XX_BIT_SYSCTRL7_D2S_GAIN_MASK
         s.hap.info.d2s_gain,
       Ev.write_bits K.AW862XX_REG_SYSCTRL7 K.AW862XX_BIT_SYSCTRL7_D2S_GAIN_MASK
         (toU8 (Int.land K.AW862XX_BIT_SYSCTRL7_GAIN (m K.AW862XX_REG_SYSCTRL7)))] ∧
    reg_run m (new_ops s (aw862xx_get_lra_resistance K inp s)) K.AW862XX_REG_SYSCTRL7
      = m K.AW862XX_REG_SYSCTRL7 ∧
    Int.land (reg_run m (new_ops s (aw862xx_get_lra_resistance K inp s))
        K.AW862XX_REG_SYSCTRL7) (toU8 (Int.not K.AW862XX_BIT_SYSCTRL7_D2S_GAIN_MASK))
      = Int.land (m K.AW862XX_REG_SYSCTRL7)
          (toU8 (Int.not K.AW862XX_BIT_SYSCTRL7_D2S_GAIN_MASK)) ∧
    Int.land (reg_run m (new_ops s (aw862xx_get_lra_resistance K inp s))
        K.AW862XX_REG_SYSCTRL7) (toU8 K.AW862XX_BIT_SYSCTRL7_D2S_GAIN_MASK)
      = Int.land (m K.AW862XX_REG_SYSCTRL7) (toU8 K.AW862XX_BIT_SYSCTRL7_D2S_GAIN_MASK) := by
  obtain ⟨h4, h2, h3, h1, hd1, hd2⟩ := gain_layout_ne K hl
  have hG := hl.2
  have hpos := select_d2s_gain_pos K _ hvalid
  obtain ⟨l1, hm1, hl1, _, hgood⟩ := get_lra_resistance_trace K inp s
  obtain ⟨l2, b1, b2, hm2, ht⟩ := hgood hpos
  rw [new_ops_append s _ l1 hl1, reg_run_mode_ops K m _ l1 hm1 h4 h2 h3] at hread
  have hbyte := busByte_range inp (aw862xx_play_stop K inp s).pos
  rw [hread] at ht hbyte
  simp only [List.append_assoc] at ht
  have hops : ops_on K.AW862XX_REG_SYSCTRL7
        (new_ops s (aw862xx_get_lra_resistance K inp s)) =
      [Ev.write_bits K.AW862XX_REG_SYSCTRL7 K.AW862XX_BIT_SYSCTRL7_D2S_GAIN_MASK
         s.hap.info.d2s_gain,
       Ev.write_bits K.AW862XX_REG_SYSCTRL7 K.AW862XX_BIT_SYSCTRL7_D2S_GAIN_MASK
         (toU8 (Int.land K.AW862XX_BIT_SYSCTRL7_GAIN (m K.AW862XX_REG_SYSCTRL7)))] := by
    rw [new_ops_append s _ _ ht, ops_on_append, ops_on_mode_ops K _ l1 hm1 h4 h2 h3,
      ops_on_append, ops_on_append, ops_on_mode_ops K _ l2 hm2 h4 h2 h3]
    simp [ops_on, touches, raminit_on_op, raminit_off_op, h1.symm, hd1.symm, hd2.symm,
      h2.symm]
  have hrun : reg_run m (new_ops s (aw862xx_get_lra_resistance K inp s))
      K.AW862XX_REG_SYSCTRL7 = m K.AW862XX_REG_SYSCTRL7 := by
    rw [reg_run_ops_on, hops, hG]
    simp only [reg_run, List.foldl_cons, List.foldl_nil, reg_apply, if_true]
    exact masked_write_restore _ _ _ hbyte
  exact ⟨hops, hrun, by rw [hrun], by rw [hrun]⟩

/-- Witness for C27: the sample context (gain code 4, a valid encoding) on a
chip whose `SYSCTRL7` holds `0x45`; after the measurement the register holds
`0x45` again. -/
theorem get_lra_resistance_restores_gain_witness :
    gain_layout hdr0 ∧
    reg_run (fun a => if a = 0x49 then 0x45 else 0)
        (new_ops st0 (aw862xx_get_lra_resistance hdr0 (fun i => if i = 1 then 0x45 else 0) st0))
        hdr0.AW862XX_REG_SYSCTRL7 = 0x45 := by
  have hl : gain_layout hdr0 := by
    unfold gain_layout reg_apart; decide
  exact ⟨hl, (get_lra_resistance_restores_gain hdr0 (fun i => if i = 1 then 0x45 else 0) st0
    (fun a => if a = 0x49 then 0x45 else 0) hl
    ⟨(hdr0.AW862XX_BIT_SYSCTRL7_D2S_GAIN_8, 8), by decide, by decide⟩ (by decide)).2.1⟩


/-! ## Bus operations of the frequency detection and of continuous mode -/

theorem get_f0_poll_ext (K : Hdr) (inp : Nat → Nat) (n : Nat) (s : St) :
    ext_by (fun e => ∃ r d, e = Ev.reads r d) s (get_f0_poll K inp n s).2 := by
  induction n generalizing s with
  | zero => exact ext_by_refl _ s
  | succ n ih =>
    rw [get_f0_poll]
    have h1 : ext_by (fun e => ∃ r d, e = Ev.reads r d) s
        (read_byte inp s K.AW862XX_REG_GLBRD5).2 :=
      ext_by_op _ _ _ _ rfl ⟨_, _, rfl⟩
    by_cases hb : reports_standby K (read_byte inp s K.AW862XX_REG_GLBRD5).1 = true
    · simp only [hb, if_true]; exact h1
    · simp only [hb]; exact ext_by_trans h1 (ih _)

theorem get_f0_prepare_trace (K : Hdr) (inp : Nat → Nat) (s : St) :
    ∃ lA b, (∀ e ∈ lA, mode_op K e) ∧
      (get_f0_prepare K inp s).2.trace = s.trace ++ lA ++ get_f0_config_ops K s.hap.info b := by
  obtain ⟨lA, hA, hmA⟩ :=
    ext_by_trans
      (ext_by_same (mode_op K) s
        ({ s with hap := { s.hap with f0 := s.hap.info.f0_pre } } : St) rfl)
      (ext_by_trans
        (play_stop_ext K inp ({ s with hap := { s.hap with f0 := s.hap.info.f0_pre } } : St))
        (play_mode_ext K inp
          (aw862xx_play_stop K inp
            ({ s with hap := { s.hap with f0 := s.hap.info.f0_pre } } : St))
          K.AW_CONT_MODE))
  have hinfo : (aw862xx_play_mode K inp
      (aw862xx_play_stop K inp ({ s with hap := { s.hap with f0 := s.hap.info.f0_pre } } : St))
      K.AW_CONT_MODE).hap.info = s.hap.info := by
    rw [(play_mode_hap_info K inp _ _).1, play_stop_hap]
  refine ⟨lA, busByte inp (aw862xx_play_mode K inp
      (aw862xx_play_stop K inp ({ s with hap := { s.hap with f0 := s.hap.info.f0_pre } } : St))
      K.AW_CONT_MODE).pos, hmA, ?_⟩
  unfold get_f0_prepare get_f0_config_ops
  simp only []
  split_ifs with h1 h2 h2
  · simp [haptic_nv_i2c_write_bits, haptic_nv_i2c_writes, read_byte, hinfo, hA]
  · exfalso
    simp [haptic_nv_i2c_write_bits, haptic_nv_i2c_writes, read_byte, hinfo] at h1
    exact h2 h1
  · exfalso
    simp [haptic_nv_i2c_write_bits, haptic_nv_i2c_writes, read_byte, hinfo] at h1
    exact h1 h2
  · simp [haptic_nv_i2c_write_bits, haptic_nv_i2c_writes, read_byte, hinfo, hA]

theorem read_lra_f0_ext (K : Hdr) (inp : Nat → Nat) (s : St) :
    ext_by (fun e => ∃ r d, e = Ev.reads r d) s (aw862xx_read_lra_f0 K inp s).2 :=
  ⟨[Ev.reads K.AW862XX_REG_CONTRD14 [busByte inp s.pos, busByte inp (s.pos + 1)]],
    (read_lra_f0_trace K inp s).1,
    by intro e he; rw [List.mem_singleton.mp he]; exact ⟨_, _, rfl⟩⟩

theorem read_cont_f0_ext (K : Hdr) (inp : Nat → Nat) (s : St) :
    ext_by (fun e => ∃ r d, e = Ev.reads r d) s (aw862xx_read_cont_f0 K inp s) :=
  ⟨[Ev.reads K.AW862XX_REG_CONTRD16 [busByte inp s.pos, busByte inp (s.pos + 1)]],
    read_cont_f0_trace K inp s,
    by intro e he; rw [List.mem_singleton.mp he]; exact ⟨_, _, rfl⟩⟩

theorem get_f0_after_prepare_trace (K : Hdr) (inp : Nat → Nat) (s : St)
    (h : s.hap.info.f0_pre ≠ 0) :
    ∃ lB, (∀ e ∈ lB, ∃ r d, e = Ev.reads r d) ∧
      (aw862xx_get_f0 K inp s).2.trace =
        (get_f0_prepare K inp s).2.trace ++
          [Ev.writes K.AW862XX_REG_CONTCFG3 [toU8 (get_f0_drv_width K s.hap.info)],
           Ev.writes K.AW862XX_REG_PLAYCFG4 [toU8 K.AW862XX_BIT_PLAYCFG4_GO_ON]] ++ lB ++
          get_f0_finish_ops K (get_f0_prepare K inp s).1 := by
  have hgo : (get_f0_go K inp (get_f0_prepare K inp s).2).trace =
      (get_f0_prepare K inp s).2.trace ++
        [Ev.writes K.AW862XX_REG_CONTCFG3 [toU8 (get_f0_drv_width K s.hap.info)],
         Ev.writes K.AW862XX_REG_PLAYCFG4 [toU8 K.AW862XX_BIT_PLAYCFG4_GO_ON]] ++
        [Ev.reads K.AW862XX_REG_GLBRD5 [busByte inp (get_f0_prepare K inp s).2.pos]] := by
    simp [get_f0_go, aw862xx_play_go, aw862xx_get_glb_state, read_byte, haptic_nv_i2c_writes,
      (get_f0_prepare_hap K inp s).1]
  have hX : ext_by (fun e => ∃ r d, e = Ev.reads r d)
      ({ (get_f0_prepare K inp s).2 with
          trace := (get_f0_prepare K inp s).2.trace ++
            [Ev.writes K.AW862XX_REG_CONTCFG3 [toU8 (get_f0_drv_width K s.hap.info)],
             Ev.writes K.AW862XX_REG_PLAYCFG4 [toU8 K.AW862XX_BIT_PLAYCFG4_GO_ON]] } : St)
      (get_f0_go K inp (get_f0_prepare K inp s).2) :=
    ⟨[Ev.reads K.AW862XX_REG_GLBRD5 [busByte inp (get_f0_prepare K inp s).2.pos]], hgo,
      by intro e he; rw [List.mem_singleton.mp he]; exact ⟨_, _, rfl⟩⟩
  have hpoll := get_f0_poll_ext K inp 200 (get_f0_go K inp (get_f0_prepare K inp s).2)
  unfold aw862xx_get_f0
  simp only []
  rw [if_neg (by rw [(get_f0_prepare_hap K inp s).1]; exact h)]
  split_ifs
  · obtain ⟨lB, hB, hmB⟩ := ext_by_trans hX (ext_by_trans hpoll
      (ext_by_trans (read_lra_f0_ext K inp _) (read_cont_f0_ext K inp _)))
    refine ⟨lB, hmB, ?_⟩
    rw [(get_f0_finish_trace K _ _).1, hB]
  · obtain ⟨lB, hB, hmB⟩ := ext_by_trans hX hpoll
    refine ⟨lB, hmB, ?_⟩
    rw [(get_f0_finish_trace K _ _).1, hB]

theorem cont_config_trace (K : Hdr) (inp : Nat → Nat) (s : St) :
    ∃ lA b d, (∀ e ∈ lA, mode_op K e) ∧
      (aw862xx_cont_config K inp s).trace = s.trace ++ lA ++
        [Ev.write_bits K.AW862XX_REG_CONTCFG6
           (Int.land K.AW862XX_BIT_CONTCFG6_TRACK_EN_MASK K.AW862XX_BIT_CONTCFG6_DRV1_LVL_MASK) d,
         Ev.writes K.AW862XX_REG_CONTCFG7 [toU8 s.hap.info.cont_drv2_lvl],
         Ev.writes K.AW862XX_REG_CONTCFG9 [0xFF],
         Ev.writes K.AW862XX_REG_PLAYCFG4 [toU8 K.AW862XX_BIT_PLAYCFG4_GO_ON],
         Ev.reads K.AW862XX_REG_GLBRD5 [b]] := by
  obtain ⟨lA, hA, hmA⟩ := play_mode_ext K inp s K.AW_CONT_MODE
  have hinfo := (play_mode_hap_info K inp s K.AW_CONT_MODE).1
  refine ⟨lA, busByte inp (aw862xx_play_mode K inp s K.AW_CONT_MODE).pos,
    Int.lor (shl (boolInt s.hap.info.is_enabled_track_en) 7) (toU8 s.hap.info.cont_drv1_lvl),
    hmA, ?_⟩
  simp [aw862xx_cont_config, aw862xx_play_go, aw862xx_get_glb_state, read_byte,
    haptic_nv_i2c_writes, haptic_nv_i2c_write_bits, hinfo, hA]

theorem get_f0_info (K : Hdr) (inp : Nat → Nat) (s : St) :
    (aw862xx_get_f0 K inp s).2.hap.info = s.hap.info := by
  have hp := (get_f0_prepare_hap K inp s).1
  unfold aw862xx_get_f0
  simp only []
  split_ifs
  · exact hp
  · rw [(get_f0_finish_trace K _ _).2]
    unfold aw862xx_read_cont_f0 aw862xx_read_lra_f0 haptic_nv_i2c_reads
    simp only []
    split_ifs <;>
      simp [get_f0_poll_eq, play_stop_poll_hap, get_f0_go_hap, hp]
  · rw [(get_f0_finish_trace K _ _).2]
    simp [get_f0_poll_eq, play_stop_poll_hap, get_f0_go_hap, hp]

theorem cont_config_info (K : Hdr) (inp : Nat → Nat) (s : St) :
    (aw862xx_cont_config K inp s).hap.info = s.hap.info := by
  simp [aw862xx_cont_config, aw862xx_play_go, aw862xx_get_glb_state, read_byte,
    haptic_nv_i2c_writes, haptic_nv_i2c_write_bits, (play_mode_hap_info K inp s _).1]

theorem touches_writes_one (r reg b : Int) :
    touches r (Ev.writes reg [b]) = decide (r = reg) := by
  simp only [touches, List.length_singleton, Nat.cast_one]
  exact decide_eq_decide.mpr ⟨fun h => by omega, fun h => by omega⟩

theorem touches_writes_two (r reg a b : Int) :
    touches r (Ev.writes reg [a, b]) = decide (r = reg ∨ r = reg + 1) := by
  simp only [touches, List.length_cons, List.length_nil]
  exact decide_eq_decide.mpr ⟨fun h => by push_cast at h; omega, fun h => by push_cast; omega⟩

theorem cont_regs_apart_ne (K : Hdr) (r : Int) (rs : List Int) (h : cont_regs_apart K r rs) :
    r ≠ K.AW862XX_REG_PLAYCFG4 ∧ r ≠ K.AW862XX_REG_SYSCTRL2 ∧ r ≠ K.AW862XX_REG_PLAYCFG3 ∧
    r ≠ K.AW862XX_REG_CONTCFG1 ∧ r ≠ K.AW862XX_REG_CONTCFG6 ∧ ∀ x ∈ rs, r ≠ x := by
  unfold cont_regs_apart reg_apart at h
  refine ⟨h _ (by simp), h _ (by simp), h _ (by simp), h _ (by simp), h _ (by simp), ?_⟩
  intro x hx
  exact h x (by simp [hx])

theorem config_ops_quiet (K : Hdr) (r : Int) (info : aw_haptic_dts_info) (b : Int)
    (h : cont_regs_apart K r
      [K.AW862XX_REG_CONTCFG7, K.AW862XX_REG_CONTCFG8, K.AW862XX_REG_CONTCFG8 + 1,
       K.AW862XX_REG_CONTCFG11]) :
    ops_on r (get_f0_config_ops K info b) = [] := by
  obtain ⟨_, _, h3, h1, h6, hr⟩ := cont_regs_apart_ne K r _ h
  have h7 := hr K.AW862XX_REG_CONTCFG7 (by simp)
  have h8 := hr K.AW862XX_REG_CONTCFG8 (by simp)
  have h9 := hr (K.AW862XX_REG_CONTCFG8 + 1) (by simp)
  have h11 := hr K.AW862XX_REG_CONTCFG11 (by simp)
  unfold get_f0_config_ops
  split_ifs <;>
    simp [ops_on, touches, h3.symm, h1.symm, h6.symm] <;> omega

theorem drv_width_eq_clamp (K : Hdr) (info : aw_haptic_dts_info)
    (h : K.AW_DRV_WIDTH_MIN ≤ K.AW_DRV_WIDTH_MAX) :
    get_f0_drv_width K info =
      clamp (K.AW862XX_DRV_WIDTH_FORMULA info.f0_pre info.cont_track_margin info.cont_brk_gain)
        K.AW_DRV_WIDTH_MIN K.AW_DRV_WIDTH_MAX := by
  unfold get_f0_drv_width clamp
  simp only []
  split_ifs <;> omega

theorem get_f0_prepare_formula (K : Hdr) (f : Int → Int → Int → Int) (inp : Nat → Nat)
    (s : St) :
    get_f0_prepare { K with AW862XX_DRV_WIDTH_FORMULA := f } inp s = get_f0_prepare K inp s :=
  rfl

theorem ops_on_reads (r : Int) (l : List Ev) (h : ∀ e ∈ l, ∃ a d, e = Ev.reads a d) :
    ops_on r l = [] := by
  apply ops_on_quiet
  intro e he
  obtain ⟨a, d, hd⟩ := h e he
  rw [hd]; rfl

theorem get_f0_new_ops (K : Hdr) (inp : Nat → Nat) (s : St) :
    ∃ lA b, (∀ e ∈ lA, mode_op K e) ∧
      (s.hap.info.f0_pre = 0 →
        (aw862xx_get_f0 K inp s).1 = -K.ERANGE ∧
        new_ops s (aw862xx_get_f0 K inp s).2 = lA ++ get_f0_config_ops K s.hap.info b) ∧
      (s.hap.info.f0_pre ≠ 0 →
        ∃ lB brk, (∀ e ∈ lB, ∃ a d, e = Ev.reads a d) ∧
          new_ops s (aw862xx_get_f0 K inp s).2 =
            lA ++ (get_f0_config_ops K s.hap.info b ++
              ([Ev.writes K.AW862XX_REG_CONTCFG3 [toU8 (get_f0_drv_width K s.hap.info)],
                Ev.writes K.AW862XX_REG_PLAYCFG4 [toU8 K.AW862XX_BIT_PLAYCFG4_GO_ON]] ++
                (lB ++ get_f0_finish_ops K brk)))) := by
  obtain ⟨lA, b, hmA, hp⟩ := get_f0_prepare_trace K inp s
  refine ⟨lA, b, hmA, ?_, ?_⟩
  · intro h0
    rw [get_f0_zero_pre K inp s h0]
    refine ⟨rfl, ?_⟩
    apply new_ops_append
    show (get_f0_prepare K inp s).2.trace = _
    rw [hp, List.append_assoc]
  · intro hne
    obtain ⟨lB, hmB, ht⟩ := get_f0_after_prepare_trace K inp s hne
    refine ⟨lB, (get_f0_prepare K inp s).1, hmB, ?_⟩
    apply new_ops_append
    rw [ht, hp]
    simp only [List.append_assoc]

/-! ## Clamp of the drive width (C28) -/

/-- C28: with `AW_DRV_WIDTH_MIN` and `AW_DRV_WIDTH_MAX` bytes in this order and
the registers of the procedure apart from `CONTCFG3`, for a configuration with
`f0_pre` non-zero the only operation of `aw862xx_get_f0` on `CONTCFG3` is the
write of the byte `clamp(AW862XX_DRV_WIDTH_FORMULA(f0_pre, cont_track_margin,
cont_brk_gain), AW_DRV_WIDTH_MIN, AW_DRV_WIDTH_MAX)`, which lies between the
two limits.  With `f0_pre = 0` the function returns `-ERANGE`, performs no
operation on `CONTCFG3`, does not write the go command to `PLAYCFG4`, and its
result does not depend on the formula (which is not evaluated). -/
theorem get_f0_drv_width_clamped (K : Hdr) (inp : Nat → Nat) (s : St)
    (hreg : cont_regs_apart K K.AW862XX_REG_CONTCFG3
      [K.AW862XX_REG_CONTCFG7, K.AW862XX_REG_CONTCFG8, K.AW862XX_REG_CONTCFG8 + 1,
       K.AW862XX_REG_CONTCFG11])
    (hgo : reg_apart K.AW862XX_REG_PLAYCFG4 [K.AW862XX_REG_CONTCFG7, K.AW862XX_REG_CONTCFG11] ∧
      toU8 K.AW862XX_BIT_PLAYCFG4_GO_ON ≠ toU8 K.AW862XX_BIT_PLAYCFG4_STOP_ON)
    (hw : 0 ≤ K.AW_DRV_WIDTH_MIN ∧ K.AW_DRV_WIDTH_MIN ≤ K.AW_DRV_WIDTH_MAX ∧
      K.AW_DRV_WIDTH_MAX ≤ 255) :
    (s.hap.info.f0_pre ≠ 0 →
      ops_on K.AW862XX_REG_CONTCFG3 (new_ops s (aw862xx_get_f0 K inp s).2) =
        [Ev.writes K.AW862XX_REG_CONTCFG3
          [clamp (K.AW862XX_DRV_WIDTH_FORMULA s.hap.info.f0_pre s.hap.info.cont_track_margin
            s.hap.info.cont_brk_gain) K.AW_DRV_WIDTH_MIN K.AW_DRV_WIDTH_MAX]] ∧
      K.AW_DRV_WIDTH_MIN ≤ clamp (K.AW862XX_DRV_WIDTH_FORMULA s.hap.info.f0_pre
        s.hap.info.cont_track_margin s.hap.info.cont_brk_gain)
        K.AW_DRV_WIDTH_MIN K.AW_DRV_WIDTH_MAX ∧
      clamp (K.AW862XX_DRV_WIDTH_FORMULA s.hap.info.f0_pre
        s.hap.info.cont_track_margin s.hap.info.cont_brk_gain)
        K.AW_DRV_WIDTH_MIN K.AW_DRV_WIDTH_MAX ≤ K.AW_DRV_WIDTH_MAX) ∧
    (s.hap.info.f0_pre = 0 →
      (aw862xx_get_f0 K inp s).1 = -K.ERANGE ∧
      ops_on K.AW862XX_REG_CONTCFG3 (new_ops s (aw862xx_get_f0 K inp s).2) = [] ∧
      Ev.writes K.AW862XX_REG_PLAYCFG4 [toU8 K.AW862XX_BIT_PLAYCFG4_GO_ON]
        ∉ new_ops s (aw862xx_get_f0 K inp s).2 ∧
      ∀ f : Int → Int → Int → Int,
        aw862xx_get_f0 { K with AW862XX_DRV_WIDTH_FORMULA := f } inp s
          = aw862xx_get_f0 K inp s) := by
  obtain ⟨h4, h2, h3, h1, h6, hr⟩ := cont_regs_apart_ne K _ _ hreg
  obtain ⟨lA, b, hmA, hzero, hnz⟩ := get_f0_new_ops K inp s
  have hA := ops_on_mode_ops K _ lA hmA h4 h2 h3
  have hC := config_ops_quiet K _ s.hap.info b hreg
  constructor
  · intro hne
    obtain ⟨lB, brk, hmB, hops⟩ := hnz hne
    have hcl : K.AW_DRV_WIDTH_MIN ≤ clamp (K.AW862XX_DRV_WIDTH_FORMULA s.hap.info.f0_pre
          s.hap.info.cont_track_margin s.hap.info.cont_brk_gain)
          K.AW_DRV_WIDTH_MIN K.AW_DRV_WIDTH_MAX ∧
        clamp (K.AW862XX_DRV_WIDTH_FORMULA s.hap.info.f0_pre
          s.hap.info.cont_track_margin s.hap.info.cont_brk_gain)
          K.AW_DRV_WIDTH_MIN K.AW_DRV_WIDTH_MAX ≤ K.AW_DRV_WIDTH_MAX := by
      unfold clamp
      exact ⟨le_max_left _ _, max_le hw.2.1 (min_le_right _ _)⟩
    refine ⟨?_, hcl.1, hcl.2⟩
    rw [hops, ops_on_append, hA, ops_on_append, hC, ops_on_append, ops_on_append,
      ops_on_reads _ lB hmB, drv_width_eq_clamp K _ hw.2.1]
    have ht : toU8 (clamp (K.AW862XX_DRV_WIDTH_FORMULA s.hap.info.f0_pre
          s.hap.info.cont_track_margin s.hap.info.cont_brk_gain)
          K.AW_DRV_WIDTH_MIN K.AW_DRV_WIDTH_MAX)
        = clamp (K.AW862XX_DRV_WIDTH_FORMULA s.hap.info.f0_pre
          s.hap.info.cont_track_margin s.hap.info.cont_brk_gain)
          K.AW_DRV_WIDTH_MIN K.AW_DRV_WIDTH_MAX := by
      unfold toU8; omega
    rw [ht]
    simp [ops_on, touches, get_f0_finish_ops, h1.symm, h3.symm]
    omega
  · intro h0
    obtain ⟨hret, hops⟩ := hzero h0
    refine ⟨hret, ?_, ?_, ?_⟩
    · rw [hops, ops_on_append, hA, hC]; rfl
    · rw [hops]
      intro hmem
      rcases List.mem_append.mp hmem with hm | hm
      · exact hgo.2 (List.cons.inj (hmA _ hm).2).1
      · have g7 := hgo.1 K.AW862XX_REG_CONTCFG7 (by simp)
        have g11 := hgo.1 K.AW862XX_REG_CONTCFG11 (by simp)
        unfold get_f0_config_ops at hm
        split_ifs at hm <;> simp [g7, g11] at hm
    · intro f
      rw [get_f0_zero_pre K inp s h0, get_f0_zero_pre _ inp s h0, get_f0_prepare_formula]

/-- Witness for C28: on the sample header and context (nominal 1700, margin
12, brake gain 8) the byte written to `CONTCFG3` is 113. -/
theorem get_f0_drv_width_clamped_witness :
    ops_on hdr0.AW862XX_REG_CONTCFG3 (new_ops st0 (aw862xx_get_f0 hdr0 (fun _ => 0) st0).2)
      = [Ev.writes hdr0.AW862XX_REG_CONTCFG3 [113]] := by
  have h := ((get_f0_drv_width_clamped hdr0 (fun _ => 0) st0
    (by unfold cont_regs_apart reg_apart; decide)
    ⟨by unfold reg_apart; decide, by decide⟩ (by decide)).1 (by decide)).1
  rw [h]
  decide


/-! ## The drive-level bound across the driver (C24) -/

theorem config_ops_on_contcfg7 (K : Hdr) (info : aw_haptic_dts_info) (b : Int)
    (h : cont_regs_apart K K.AW862XX_REG_CONTCFG7
      [K.AW862XX_REG_CONTCFG9, K.AW862XX_REG_CONTCFG8, K.AW862XX_REG_CONTCFG8 + 1,
       K.AW862XX_REG_CONTCFG11, K.AW862XX_REG_CONTCFG3]) :
    ops_on K.AW862XX_REG_CONTCFG7 (get_f0_config_ops K info b)
      = [Ev.writes K.AW862XX_REG_CONTCFG7 [toU8 info.cont_drv2_lvl]] := by
  obtain ⟨_, _, h3, h1, h6, hr⟩ := cont_regs_apart_ne K _ _ h
  have h8 := hr K.AW862XX_REG_CONTCFG8 (by simp)
  have h9 := hr (K.AW862XX_REG_CONTCFG8 + 1) (by simp)
  have h11 := hr K.AW862XX_REG_CONTCFG11 (by simp)
  unfold get_f0_config_ops
  split_ifs <;>
    simp [ops_on, touches, h3.symm, h1.symm, h6.symm] <;> omega

/-- Counterexample to C24: the sample context satisfies the bound (level
`0x36`, maximum `0x7F`); after the attribute handler has stored the parsed
pair `(0x10, 0xFF)` the level is 255 and the byte 255 has been written to
`CONTCFG7`. -/
theorem cont_drv_lvl_store_exceeds_max :
    (st0.hap.info.cont_drv2_lvl : Int) ≤ hdr0.AW862XX_DRV2_LVL_MAX ∧
    (cont_drv_lvl_store hdr0 st0 (some (0x10, 0xFF))).hap.info.cont_drv2_lvl = 255 ∧
    ¬ ((255 : Int) ≤ hdr0.AW862XX_DRV2_LVL_MAX) ∧
    new_ops st0 (cont_drv_lvl_store hdr0 st0 (some (0x10, 0xFF))) =
      [Ev.write_bits hdr0.AW862XX_REG_CONTCFG6 hdr0.AW862XX_BIT_CONTCFG6_DRV1_LVL_MASK 0x10,
       Ev.writes hdr0.AW862XX_REG_CONTCFG7 [255]] := by
  refine ⟨by decide, by decide, by decide, by decide⟩

/-- C24 (amended): the bound `cont_drv2_lvl <= AW862XX_DRV2_LVL_MAX` is
established by `aw862xx_misc_para_init` and kept by `aw862xx_cont_config` and
`aw862xx_get_f0`, which leave the configuration block as it is and whose only
operation on `CONTCFG7` is the write of the low byte of the level, a byte
within the bound whenever the level is.  The attribute handler
`cont_drv_lvl_store` does not check the bound: it stores the second parsed
value as the level and writes its low byte to `CONTCFG7`, whatever the value;
without two parsed values it changes nothing. -/
theorem drv2_lvl_bound_kept_by_driver_paths (K : Hdr) (inp : Nat → Nat) (s : St)
    (hmax : 0 ≤ K.AW862XX_DRV2_LVL_MAX ∧ K.AW862XX_DRV2_LVL_MAX < 4294967296)
    (hreg : cont_regs_apart K K.AW862XX_REG_CONTCFG7
      [K.AW862XX_REG_CONTCFG9, K.AW862XX_REG_CONTCFG8, K.AW862XX_REG_CONTCFG8 + 1,
       K.AW862XX_REG_CONTCFG11, K.AW862XX_REG_CONTCFG3]) :
    (((aw862xx_misc_para_init K inp s).hap.info.cont_drv2_lvl : Nat) : Int)
      ≤ K.AW862XX_DRV2_LVL_MAX ∧
    (aw862xx_cont_config K inp s).hap.info = s.hap.info ∧
    (aw862xx_get_f0 K inp s).2.hap.info = s.hap.info ∧
    ops_on K.AW862XX_REG_CONTCFG7 (new_ops s (aw862xx_cont_config K inp s))
      = [Ev.writes K.AW862XX_REG_CONTCFG7 [toU8 s.hap.info.cont_drv2_lvl]] ∧
    ops_on K.AW862XX_REG_CONTCFG7 (new_ops s (aw862xx_get_f0 K inp s).2)
      = [Ev.writes K.AW862XX_REG_CONTCFG7 [toU8 s.hap.info.cont_drv2_lvl]] ∧
    ((s.hap.info.cont_drv2_lvl : Int) ≤ K.AW862XX_DRV2_LVL_MAX →
      toU8 s.hap.info.cont_drv2_lvl ≤ K.AW862XX_DRV2_LVL_MAX) ∧
    (∀ d : Nat × Nat,
      (cont_drv_lvl_store K s (some d)).hap.info.cont_drv2_lvl = d.2 % 4294967296 ∧
      ops_on K.AW862XX_REG_CONTCFG7 (new_ops s (cont_drv_lvl_store K s (some d)))
        = [Ev.writes K.AW862XX_REG_CONTCFG7 [toU8 ((d.2 % 4294967296 : Nat) : Int)]]) ∧
    cont_drv_lvl_store K s none = s := by
  obtain ⟨h4, h2, h3, h1, h6, hr⟩ := cont_regs_apart_ne K _ _ hreg
  have h9 := hr K.AW862XX_REG_CONTCFG9 (by simp)
  have hc3 := hr K.AW862XX_REG_CONTCFG3 (by simp)
  refine ⟨?_, cont_config_info K inp s, get_f0_info K inp s, ?_, ?_, ?_, ?_, rfl⟩
  · rw [misc_para_init_info]
    show ((misc_para_drv2_lvl K s.hap.info : Nat) : Int) ≤ _
    rw [misc_para_drv2_lvl_eq K _ hmax]
    exact min_le_right _ _
  · obtain ⟨lA, b, d, hmA, ht⟩ := cont_config_trace K inp s
    rw [List.append_assoc] at ht
    rw [new_ops_append s _ _ ht, ops_on_append, ops_on_mode_ops K _ lA hmA h4 h2 h3]
    simp [ops_on, touches, h6.symm]
    omega
  · obtain ⟨lA, b, hmA, hzero, hnz⟩ := get_f0_new_ops K inp s
    have hA := ops_on_mode_ops K _ lA hmA h4 h2 h3
    have hC := config_ops_on_contcfg7 K s.hap.info b hreg
    by_cases h0 : s.hap.info.f0_pre = 0
    · rw [(hzero h0).2, ops_on_append, hA, hC]; rfl
    · obtain ⟨lB, brk, hmB, hops⟩ := hnz h0
      rw [hops, ops_on_append, hA, ops_on_append, hC, ops_on_append, ops_on_append,
        ops_on_reads _ lB hmB]
      simp [ops_on, touches, get_f0_finish_ops, h1.symm, h3.symm]
      omega
  · intro h
    unfold toU8; omega
  · intro d
    have e : (toU32 (d.2 : Int)).toNat = d.2 % 4294967296 := by
      unfold toU32; omega
    constructor
    · show (toU32 (d.2 : Int)).toNat = _
      exact e
    · have ht : (cont_drv_lvl_store K s (some d)).trace = s.trace ++
          [Ev.write_bits K.AW862XX_REG_CONTCFG6 K.AW862XX_BIT_CONTCFG6_DRV1_LVL_MASK
             ((toU32 (d.1 : Int)).toNat : Int),
           Ev.writes K.AW862XX_REG_CONTCFG7 [toU8 ((toU32 (d.2 : Int)).toNat : Int)]] := by
        simp [cont_drv_lvl_store, haptic_nv_i2c_write_bits, haptic_nv_i2c_writes]
      rw [new_ops_append s _ _ ht, e]
      simp [ops_on, touches, h6.symm]

/-- Witness for C24 (amended): on the sample header and context the only
operation of `aw862xx_cont_config` on `CONTCFG7` writes the level `0x36`. -/
theorem drv2_lvl_bound_kept_by_driver_paths_witness :
    ops_on hdr0.AW862XX_REG_CONTCFG7 (new_ops st0 (aw862xx_cont_config hdr0 (fun _ => 0) st0))
      = [Ev.writes hdr0.AW862XX_REG_CONTCFG7 [0x36]] :=
  (drv2_lvl_bound_kept_by_driver_paths hdr0 (fun _ => 0) st0 (by decide)
    (by unfold cont_regs_apart reg_apart; decide)).2.2.2.1

end Aw862xx

namespace PtI2c

/-! ## Reads of the touchscreen transport (C29, C30) -/

theorem fw_updating_off (P : PtHdr) (psoc : Option Int) (h : P.CYPSOC_PICOLEAF_ENABLE = false) :
    fw_updating P psoc = false := by
  unfold fw_updating
  rw [h]; rfl

theorem recv_result_cases (P : PtHdr) (rc want : Int) :
    (rc < 0 → recv_result P rc want = rc) ∧
    (0 ≤ rc → rc = want → recv_result P rc want = 0) ∧
    (0 ≤ rc → rc ≠ want → recv_result P rc want = -P.EIO) := by
  unfold recv_result
  refine ⟨fun h => by rw [if_pos h], fun h0 he => ?_, fun h0 hne => ?_⟩
  · rw [if_neg (not_lt.mpr h0), if_neg (not_not.mpr he)]
  · rw [if_neg (not_lt.mpr h0), if_pos hne]

/-- Counterexample to C29: in a build with `CYPSOC_PICOLEAF_ENABLE` and the
companion in state `FW_UPDATING`, a call with `buf = NULL` returns 0, not
`-EINVAL`. -/
theorem read_default_null_buf_returns_zero :
    pt_i2c_read_default pt_hdr0 bus_ok (some 2) pt_st0 true 4 = (0, pt_st0) ∧
    (0 : Int) ≠ -pt_hdr0.EINVAL := by
  refine ⟨by decide, by decide⟩

/-- C29 (amended): when the firmware-update guard fires (the build defines
`CYPSOC_PICOLEAF_ENABLE`, the companion data is present and its status is
`FW_UPDATING`), `pt_i2c_read_default` returns 0 without any transfer, whatever
its arguments.  Otherwise it returns `-EINVAL` without any transfer whenever
`buf` is `NULL`, `size` is 0 or `size > PT_I2C_DATA_SIZE` (512); and for every
other input it performs exactly one receive of `size` bytes and returns the
negative error code if the receive fails, 0 if exactly `size` bytes were
received, and `-EIO` for any other non-negative count.  In a build without
`CYPSOC_PICOLEAF_ENABLE` the guard never fires. -/
theorem read_default_contract (P : PtHdr) (bus : Bus) (psoc : Option Int) (s : PtSt)
    (buf_null : Bool) (size : Int) :
    (fw_updating P psoc = true →
      pt_i2c_read_default P bus psoc s buf_null size = (0, s)) ∧
    (fw_updating P psoc = false →
      (buf_null = true ∨ size = 0 ∨ size > 512 →
        pt_i2c_read_default P bus psoc s buf_null size = (-P.EINVAL, s)) ∧
      (buf_null = false → size ≠ 0 → size ≤ 512 →
        (pt_i2c_read_default P bus psoc s buf_null size).2
          = { done := s.done + 1, trace := s.trace ++ [Xfer.master_recv size] } ∧
        (bus.rc s.done < 0 →
          (pt_i2c_read_default P bus psoc s buf_null size).1 = bus.rc s.done) ∧
        (0 ≤ bus.rc s.done → bus.rc s.done = size →
          (pt_i2c_read_default P bus psoc s buf_null size).1 = 0) ∧
        (0 ≤ bus.rc s.done → bus.rc s.done ≠ size →
          (pt_i2c_read_default P bus psoc s buf_null size).1 = -P.EIO))) ∧
    (P.CYPSOC_PICOLEAF_ENABLE = false → fw_updating P psoc = false) := by
  refine ⟨?_, ?_, fw_updating_off P psoc⟩
  · intro h
    unfold pt_i2c_read_default
    rw [if_pos h]
  · intro h
    constructor
    · intro hb
      unfold pt_i2c_read_default
      rw [if_neg (by rw [h]; decide), if_pos (by unfold PT_I2C_DATA_SIZE; exact hb)]
    · intro h1 h2 h3
      have hn : ¬ (buf_null = true ∨ size = 0 ∨ size > PT_I2C_DATA_SIZE) := by
        unfold PT_I2C_DATA_SIZE
        rintro (hc | hc | hc)
        · rw [h1] at hc; exact absurd hc (by decide)
        · exact h2 hc
        · omega
      have e : pt_i2c_read_default P bus psoc s buf_null size =
          (recv_result P (bus.rc s.done) size,
           { done := s.done + 1, trace := s.trace ++ [Xfer.master_recv size] }) := by
        unfold pt_i2c_read_default
        rw [if_neg (by rw [h]; decide), if_neg hn]
      rw [e]
      obtain ⟨r1, r2, r3⟩ := recv_result_cases P (bus.rc s.done) size
      exact ⟨rfl, r1, r2, r3⟩

/-- Witness for C29 (amended): without the guard, a request for 7 bytes on a
bus that delivers 7 makes one receive and returns 0. -/
theorem read_default_contract_witness :
    pt_i2c_read_default pt_hdr0 { rc := fun _ => 7, data := fun _ _ => 0 } none pt_st0 false 7
      = (0, { done := 1, trace := [Xfer.master_recv 7] }) := by
  have h := (read_default_contract pt_hdr0 { rc := fun _ => 7, data := fun _ _ => 0 } none
    pt_st0 false 7).2.1 (by decide)
  have h2 := h.2 rfl (by decide) (by decide)
  exact Prod.ext (h2.2.2.1 (by decide) rfl) h2.1

/-- Counterexample to C30: in a build with `CYPSOC_PICOLEAF_ENABLE` and the
companion in state `FW_UPDATING`, a call with `buf = NULL` returns 0, not
`-EINVAL`. -/
theorem read_default_nosize_null_buf_returns_zero :
    pt_i2c_read_default_nosize pt_hdr0 bus_ok (some 2) pt_st0 true 64 = (0, pt_st0) ∧
    (0 : Int) ≠ -pt_hdr0.EINVAL := by
  refine ⟨by decide, by decide⟩

/-- C30 (amended): when the firmware-update guard fires,
`pt_i2c_read_default_nosize` returns 0 without any transfer.  Otherwise a
`NULL` buffer returns `-EINVAL` before any transfer; a failed header transfer
returns the bus error and a short one `-EIO`, without the length being read
and without a second transfer; and after a successful header transfer with
length field `L`: if `L = 0`, `L = 2` or `L >= PT_PIP_1P7_EMPTY_BUF` the result
is 0 without a second transfer, even when `L > max`; otherwise if `L > max` it
is `-EINVAL` without a second transfer; otherwise there is one receive of `L`
bytes, and the result is the negative bus error, 0 when `L` bytes were
received, or `-EIO`; with `EIO` non-zero it is 0 exactly when `L` bytes were
received. -/
theorem read_default_nosize_contract (P : PtHdr) (bus : Bus) (psoc : Option Int) (s : PtSt)
    (buf_null : Bool) (max : Int) :
    (fw_updating P psoc = true →
      pt_i2c_read_default_nosize P bus psoc s buf_null max = (0, s)) ∧
    (fw_updating P psoc = false → buf_null = true →
      pt_i2c_read_default_nosize P bus psoc s buf_null max = (-P.EINVAL, s)) ∧
    (fw_updating P psoc = false → buf_null = false →
      (bus.rc s.done < 0 →
        pt_i2c_read_default_nosize P bus psoc s buf_null max =
          (bus.rc s.done,
           { done := s.done + 1, trace := s.trace ++ [Xfer.transfer_read 2] })) ∧
      (0 ≤ bus.rc s.done → bus.rc s.done ≠ 1 →
        pt_i2c_read_default_nosize P bus psoc s buf_null max =
          (-P.EIO, { done := s.done + 1, trace := s.trace ++ [Xfer.transfer_read 2] })) ∧
      (bus.rc s.done = 1 →
        (header_size P bus s.done = 0 ∨ header_size P bus s.done = 2 ∨
            header_size P bus s.done ≥ Aw862xx.toU32 P.PT_PIP_1P7_EMPTY_BUF →
          pt_i2c_read_default_nosize P bus psoc s buf_null max =
            (0, { done := s.done + 1, trace := s.trace ++ [Xfer.transfer_read 2] })) ∧
        (¬ (header_size P bus s.done = 0 ∨ header_size P bus s.done = 2 ∨
            header_size P bus s.done ≥ Aw862xx.toU32 P.PT_PIP_1P7_EMPTY_BUF) →
          (header_size P bus s.done > max →
            pt_i2c_read_default_nosize P bus psoc s buf_null max =
              (-P.EINVAL,
               { done := s.done + 1, trace := s.trace ++ [Xfer.transfer_read 2] })) ∧
          (header_size P bus s.done ≤ max →
            pt_i2c_read_default_nosize P bus psoc s buf_null max =
              (recv_result P (bus.rc (s.done + 1)) (Aw862xx.toInt32 (header_size P bus s.done)),
               { done := s.done + 1 + 1,
                 trace := s.trace ++ [Xfer.transfer_read 2] ++
                   [Xfer.master_recv (Aw862xx.toInt32 (header_size P bus s.done))] }) ∧
            (header_size P bus s.done < 2147483648 →
              Aw862xx.toInt32 (header_size P bus s.done) = header_size P bus s.done) ∧
            (P.EIO ≠ 0 →
              ((pt_i2c_read_default_nosize P bus psoc s buf_null max).1 = 0 ↔
                bus.rc (s.done + 1) = Aw862xx.toInt32 (header_size P bus s.done) ∧
                0 ≤ bus.rc (s.done + 1))))))) ∧
    (P.CYPSOC_PICOLEAF_ENABLE = false → fw_updating P psoc = false) := by
  refine ⟨?_, ?_, ?_, fw_updating_off P psoc⟩
  · intro h
    unfold pt_i2c_read_default_nosize
    rw [if_pos h]
  · intro h hb
    unfold pt_i2c_read_default_nosize
    rw [if_neg (by rw [h]; decide), if_pos hb]
  · intro h hb
    have e : pt_i2c_read_default_nosize P bus psoc s buf_null max =
        (if bus.rc s.done < 0 ∨ bus.rc s.done ≠ 1 then
          (if bus.rc s.done < 0 then bus.rc s.done else -P.EIO,
            ({ done := s.done + 1, trace := s.trace ++ [Xfer.transfer_read 2] } : PtSt))
        else if header_size P bus s.done = 0 ∨ header_size P bus s.done = 2 ∨
            header_size P bus s.done ≥ Aw862xx.toU32 P.PT_PIP_1P7_EMPTY_BUF then
          (0, { done := s.done + 1, trace := s.trace ++ [Xfer.transfer_read 2] })
        else if header_size P bus s.done > max then
          (-P.EINVAL, { done := s.done + 1, trace := s.trace ++ [Xfer.transfer_read 2] })
        else
          (recv_result P (bus.rc (s.done + 1)) (Aw862xx.toInt32 (header_size P bus s.done)),
            { done := s.done + 1 + 1,
              trace := s.trace ++ [Xfer.transfer_read 2] ++
                [Xfer.master_recv (Aw862xx.toInt32 (header_size P bus s.done))] })) := by
      unfold pt_i2c_read_default_nosize
      rw [if_neg (by rw [h]; decide), if_neg (by rw [hb]; decide)]
    rw [e]
    refine ⟨?_, ?_, ?_⟩
    · intro hrc
      rw [if_pos (Or.inl hrc), if_pos hrc]
    · intro h0 h1
      rw [if_pos (Or.inr h1), if_neg (not_lt.mpr h0)]
    · intro h1
      have hn : ¬ (bus.rc s.done < 0 ∨ bus.rc s.done ≠ 1) := by
        rw [h1]; decide
      rw [if_neg hn]
      refine ⟨fun hs => by rw [if_pos hs], fun hs => ?_⟩
      rw [if_neg hs]
      refine ⟨fun hm => by rw [if_pos hm], fun hm => ?_⟩
      rw [if_neg (not_lt.mpr hm)]
      refine ⟨rfl, ?_, ?_⟩
      · intro hlt
        have hnn : 0 ≤ header_size P bus s.done := by
          unfold header_size Aw862xx.toU32; omega
        exact Aw862xx.toInt32_of_fits _ ⟨by omega, by omega⟩
      · intro hE
        show recv_result P _ _ = 0 ↔ _
        unfold recv_result
        constructor
        · intro hr
          split_ifs at hr with c1 c2
          · omega
          · exact absurd (neg_eq_zero.mp hr) hE
          · exact ⟨not_not.mp c2, not_lt.mp c1⟩
        · rintro ⟨he, h0⟩
          rw [if_neg (not_lt.mpr h0), if_neg (not_not.mpr he)]

/-- Witness for C30 (amended): without companion data, a header announcing 7
bytes within `max = 64` leads to one receive of 7 bytes and the result 0. -/
theorem read_default_nosize_contract_witness :
    pt_i2c_read_default_nosize pt_hdr0 bus_ok none pt_st0 false 64 =
      (0, { done := 2, trace := [Xfer.transfer_read 2, Xfer.master_recv 7] }) := by
  have h := ((read_default_nosize_contract pt_hdr0 bus_ok none pt_st0 false 64).2.2.1
    (by decide) rfl).2.2 (by decide)
  have h2 := (h.2 (by decide)).2 (by decide)
  rw [h2.1]
  decide

end PtI2c
